import Mathlib

/-!
Verification development for the Urban-Survival server core.

This file gives a shallow embedding, in Lean 4, of the parts of the
repository that its specification makes claims about:

* `src/shared/utils/SeededRandom.js` — the Mulberry32 PRNG and the Perlin
  noise field (`SeededRandom`, `PerlinNoise`);
* `src/unnamed/part_001` (MapManager.js) — the procedural map generator;
* `src/unnamed/part_003` (SkidRowArea.js) — the shipped area definition;
* `src/server/game/CollisionSystem.js` — collision queries and movement
  resolution;
* `src/unnamed/part_000` (PathfindingWorker.js) — the A* search;
* `src/unnamed/part_002` (GameState.js) — the authoritative game state and
  its operations.

Modelling conventions:

* JavaScript numbers are modelled as exact rationals (`ℚ`).  All the
  comparisons and branch conditions that the verified properties depend on
  involve either integers or short decimal literals, where the rational
  and the IEEE-754 double semantics agree.
* The transcendental library functions `Math.sqrt`, `Math.log`, `Math.cos`
  and `Math.sin` are modelled as an explicit bundle of function parameters
  (`MathOps`): the embedding is parametric in them exactly where the source
  calls them.  `Math.PI` is the double constant, an exact rational.
* 32-bit integer coercions (`>>> 0`, `Math.imul`, `&`, `|`, `^`) are
  modelled on `ℕ` with explicit `% 2^32` reductions.
* JavaScript `Map`s are modelled as association lists, `Uint8Array` grids
  as functions `ℕ → ℕ`, and ambient effects of the game-state layer
  (`Math.random()`, `uuidv4()`, `Date.now()`) as an explicit oracle.
-/

set_option maxRecDepth 16000

namespace UrbanSurvival

/-! ## SeededRandom.js — Mulberry32 PRNG -/

/-- 2^32, the modulus of all JavaScript 32-bit coercions. -/
def U32 : ℕ := 4294967296

/-- State of a `SeededRandom` instance: the construction seed and the
mutable `current` accumulator (a JS number that only ever grows by the
Mulberry32 increment). -/
structure Rng where
  seed : ℕ
  current : ℕ
  deriving Repr, DecidableEq

/-- `new SeededRandom(seed)`. -/
def Rng.mk0 (seed : ℕ) : Rng := ⟨seed, seed⟩

/-- JS `Math.imul` (result taken mod 2^32; the signed/unsigned reading does
not matter because every consumer reduces mod 2^32 again). -/
def imul32 (a b : ℕ) : ℕ := (a * b) % U32

/-- JS `x ^ y` on 32-bit operands. -/
def xor32 (a b : ℕ) : ℕ := (a ^^^ b) % U32

/-- JS `x | y` on 32-bit operands. -/
def or32 (a b : ℕ) : ℕ := (a ||| b) % U32

/-- JS `x >>> k` on a 32-bit operand. -/
def shr32 (a k : ℕ) : ℕ := a >>> k

/-- `SeededRandom.next()` — the Mulberry32 step.  Returns the value in
`[0,1)` and the updated state. -/
def Rng.next (r : Rng) : ℚ × Rng :=
  let cur : ℕ := r.current + 0x6D2B79F5
  let t0 : ℕ := cur % U32
  let t1 : ℕ := imul32 (xor32 t0 (shr32 t0 15)) (or32 t0 1)
  let t2 : ℕ := xor32 t1 ((t1 + imul32 (xor32 t1 (shr32 t1 7)) (or32 t1 61)) % U32)
  let out : ℕ := xor32 t2 (shr32 t2 14)
  ((out : ℚ) / (U32 : ℚ), ⟨r.seed, cur⟩)

/-- `SeededRandom.float(min, max)` — `min + next() * (max - min)`. -/
def Rng.float (r : Rng) (lo hi : ℚ) : ℚ × Rng :=
  let (v, r') := r.next
  (lo + v * (hi - lo), r')

/-- `SeededRandom.int(min, max)` — `Math.floor(float(min, max + 1))`. -/
def Rng.int (r : Rng) (lo hi : ℚ) : ℤ × Rng :=
  let (v, r') := r.float lo (hi + 1)
  (⌊v⌋, r')

/-- `SeededRandom.bool(p)` — `next() < p`. -/
def Rng.bool (r : Rng) (p : ℚ) : Bool × Rng :=
  let (v, r') := r.next
  (decide (v < p), r')

/-- `SeededRandom.pick(array)` — uniform pick; an empty array returns
`undefined` without consuming a draw. -/
def Rng.pick {α : Type} (r : Rng) (l : List α) : Option α × Rng :=
  if l.isEmpty then (none, r)
  else
    let (v, r') := r.next
    (l.get? (⌊v * (l.length : ℚ)⌋.toNat), r')

/-- `SeededRandom.pickWeighted(items)` — cumulative-weight scan over
`(item, weight)` pairs; an empty list returns `undefined` without a draw,
and if the scan falls through the last item is returned. -/
def Rng.pickWeighted {α : Type} (r : Rng) (items : List (α × ℚ)) : Option α × Rng :=
  match items with
  | [] => (none, r)
  | _ :: _ =>
    let total : ℚ := items.foldl (fun s i => s + i.2) 0
    let (v, r') := r.next
    let rec scan : List (α × ℚ) → ℚ → Option α
      | [], _ => none
      | (a, w) :: rest, acc =>
        if acc - w ≤ 0 then some a else scan rest (acc - w)
    ((scan items (v * total)).orElse (fun _ => (items.getLast?).map Prod.fst), r')

/-- One Fisher–Yates step at index `i`: `j = Math.floor(next() * (i+1))`,
then swap positions `i` and `j`. -/
def Rng.shuffleStep (st : List ℕ × Rng) (k : ℕ) : List ℕ × Rng :=
  let (arr, r) := st
  let i : ℕ := arr.length - 1 - k
  let (v, r') := r.next
  let j : ℕ := (⌊v * ((i : ℚ) + 1)⌋).toNat
  let ai := arr.getD i 0
  let aj := arr.getD j 0
  ((arr.set i aj).set j ai, r')

/-- `SeededRandom.shuffle(array)` — in-place Fisher–Yates, `i` descending
from `length - 1` to `1`. -/
def Rng.shuffle (r : Rng) (arr : List ℕ) : List ℕ × Rng :=
  (List.range (arr.length - 1)).foldl Rng.shuffleStep (arr, r)

/-- The JS double constant `Math.PI`, as an exact rational. -/
def jsPI : ℚ := 3.141592653589793

/-- Bundle of the transcendental `Math` functions the sources call.  The
embedding is parametric in them; every verified property either holds for
all bundles or only exercises code paths that never consult them. -/
structure MathOps where
  sqrtQ : ℚ → ℚ
  logQ : ℚ → ℚ
  cosQ : ℚ → ℚ
  sinQ : ℚ → ℚ

/-- A concrete all-zero bundle, used to instantiate theorems whose code
path never consults the `Math` functions. -/
def zeroMath : MathOps := ⟨fun _ => 0, fun _ => 0, fun _ => 0, fun _ => 0⟩

/-- `SeededRandom.gaussian(mean, stdDev)` — Box–Muller. -/
def Rng.gaussian (M : MathOps) (r : Rng) (mean sd : ℚ) : ℚ × Rng :=
  let (u1, r1) := r.next
  let (u2, r2) := r1.next
  let z0 : ℚ := M.sqrtQ (-2 * M.logQ u1) * M.cosQ (2 * jsPI * u2)
  (z0 * sd + mean, r2)

/-! ## SeededRandom.js — PerlinNoise -/

/-- `new PerlinNoise(seed)`: an internal `SeededRandom`, and a 512-entry
permutation table obtained by shuffling `[0..255]` once and duplicating
it.  Only the table matters afterwards (`noise` never draws again). -/
def PerlinNoise.mkPermutation (seed : ℕ) : List ℕ :=
  let r := Rng.mk0 seed
  let (p, _) := r.shuffle (List.range 256)
  p ++ p

/-- `PerlinNoise.fade(t)` — the quintic `6t^5 - 15t^4 + 10t^3`. -/
def PerlinNoise.fade (t : ℚ) : ℚ := t * t * t * (t * (t * 6 - 15) + 10)

/-- `PerlinNoise.lerp(a, b, t)`. -/
def PerlinNoise.lerp (a b t : ℚ) : ℚ := a + t * (b - a)

/-- `PerlinNoise.grad(hash, x, y)`. -/
def PerlinNoise.grad (hash : ℕ) (x y : ℚ) : ℚ :=
  let h := hash % 4
  let u := if h < 2 then x else y
  let v := if h < 2 then y else x
  (if h % 2 = 0 then u else -u) + (if h &&& 2 = 0 then v else -v)

/-- `PerlinNoise.noise(x, y)`.  `Math.floor(x) & 255` is modelled as the
Euclidean remainder of the floor by 256, which is what JS two's-complement
masking computes for negative floors. -/
def PerlinNoise.noise (perm : List ℕ) (x y : ℚ) : ℚ :=
  let X : ℕ := ((⌊x⌋ : ℤ) % 256).toNat
  let Y : ℕ := ((⌊y⌋ : ℤ) % 256).toNat
  let xf : ℚ := x - ⌊x⌋
  let yf : ℚ := y - ⌊y⌋
  let u := PerlinNoise.fade xf
  let v := PerlinNoise.fade yf
  let A : ℕ := perm.getD X 0 + Y
  let B : ℕ := perm.getD (X + 1) 0 + Y
  PerlinNoise.lerp
    (PerlinNoise.lerp
      (PerlinNoise.grad (perm.getD A 0) xf yf)
      (PerlinNoise.grad (perm.getD B 0) (xf - 1) yf) u)
    (PerlinNoise.lerp
      (PerlinNoise.grad (perm.getD (A + 1) 0) xf (yf - 1))
      (PerlinNoise.grad (perm.getD (B + 1) 0) (xf - 1) (yf - 1)) u)
    v

/-- `PerlinNoise.fbm(x, y, octaves, lacunarity, persistence)` — summed
octaves of `noise`, normalised by the accumulated amplitude. -/
def PerlinNoise.fbm (perm : List ℕ) (x y : ℚ) (octaves : ℕ)
    (lacunarity : ℚ := 2) (persistence : ℚ := 0.5) : ℚ :=
  let st := (List.range octaves).foldl
    (fun (st : ℚ × ℚ × ℚ × ℚ) _ =>
      let (value, amplitude, frequency, maxValue) := st
      (value + PerlinNoise.noise perm (x * frequency) (y * frequency) * amplitude,
       amplitude * persistence, frequency * lacunarity, maxValue + amplitude))
    (0, 1, 1, 0)
  st.1 / st.2.2.2

/-! ## Area definitions (SkidRowArea.js and the fields MapManager.js reads) -/

/-- A world-space rectangle (`bounds` objects of the sources). -/
structure Bounds where
  minX : ℚ
  maxX : ℚ
  minZ : ℚ
  maxZ : ℚ
  deriving Repr, DecidableEq

/-- A `{ min, max }` numeric range from the area configuration. -/
structure RangeQ where
  min : ℚ
  max : ℚ
  deriving Repr, DecidableEq

/-- `roads.main.count`. -/
structure RoadCount where
  horizontal : ℕ
  vertical : ℕ
  deriving Repr, DecidableEq

/-- `roads.main`. -/
structure RoadMain where
  width : ℚ
  count : RoadCount
  deriving Repr, DecidableEq

/-- `roads.alleys` (only `frequency` is read by the generator). -/
structure AlleysDef where
  frequency : ℚ
  deriving Repr, DecidableEq

/-- `roads` (the fields MapManager reads). -/
structure RoadsDef where
  main : RoadMain
  sidewalkWidth : ℚ
  alleys : AlleysDef
  deriving Repr, DecidableEq

/-- `blocks`. -/
structure BlocksDef where
  minSize : ℚ
  buildingDensity : ℚ
  innerCourtyard : ℚ
  deriving Repr, DecidableEq

/-- An entry of `buildings.types`.  `awning` and `rubble` are absent on
most entries in the source; absence reads as JS `undefined`, i.e. `false`. -/
structure BuildingTypeDef where
  id : String
  weight : ℚ
  floors : RangeQ
  width : RangeQ
  depth : RangeQ
  hasInterior : Bool
  interiorChance : ℚ := 0
  style : String
  awning : Bool := false
  rubble : Bool := false
  deriving Repr, DecidableEq

/-- `buildings.windows`. -/
structure WindowsDef where
  spacing : ℚ
  boardedChance : ℚ
  brokenChance : ℚ
  litChance : ℚ
  deriving Repr, DecidableEq

/-- `buildings.doors`. -/
structure DoorsDef where
  width : ℚ
  barricadedChance : ℚ
  deriving Repr, DecidableEq

/-- `buildings`. -/
structure BuildingsDef where
  types : List BuildingTypeDef
  windows : WindowsDef
  doors : DoorsDef
  deriving Repr, DecidableEq

/-- `theme` (only the building colour fields are read). -/
structure ThemeDef where
  building : ℚ
  buildingVariation : ℚ
  deriving Repr, DecidableEq

/-- `overpasses`. -/
structure OverpassesDef where
  count : RangeQ
  height : ℚ
  width : ℚ
  pillarSpacing : ℚ
  deriving Repr, DecidableEq

/-- `props.trash`. -/
structure TrashDef where
  density : ℚ
  types : List String
  deriving Repr, DecidableEq

/-- `props.barrelFires`. -/
structure BarrelFiresDef where
  count : RangeQ
  nearWalls : Bool
  warmthRadius : ℚ
  lightRadius : ℚ
  lightIntensity : ℚ
  lightColor : ℚ
  deriving Repr, DecidableEq

/-- `props.shelters`. -/
structure SheltersDef where
  count : RangeQ
  types : List String
  deriving Repr, DecidableEq

/-- `props.vehicles`. -/
structure VehiclesDef where
  count : RangeQ
  types : List String
  burnedChance : ℚ
  deriving Repr, DecidableEq

/-- `props.streetFurniture` (only the lamppost spacing is read). -/
structure StreetFurnitureDef where
  lamppostSpacing : ℚ
  deriving Repr, DecidableEq

/-- `props.glassZones`. -/
structure GlassZonesDef where
  count : RangeQ
  radius : ℚ
  deriving Repr, DecidableEq

/-- `props`. -/
structure PropsDef where
  trash : TrashDef
  barrelFires : BarrelFiresDef
  shelters : SheltersDef
  vehicles : VehiclesDef
  streetFurniture : StreetFurnitureDef
  glassZones : GlassZonesDef
  deriving Repr, DecidableEq

/-- An entry of `lootContainers.types`. -/
structure LootTypeDef where
  id : String
  weight : ℚ
  lootTable : String
  position : String
  deriving Repr, DecidableEq

/-- `lootContainers`; each loot table is the ordered `(item, weight)` list
that `Object.entries` yields. -/
structure LootContainersDef where
  types : List LootTypeDef
  interiorMultiplier : ℚ
  tables : List (String × List (String × ℚ))
  count : RangeQ
  deriving Repr, DecidableEq

/-- An interior layout (only `furniture` is read). -/
structure LayoutDef where
  furniture : List String
  deriving Repr, DecidableEq

/-- `interiors`. -/
structure InteriorsDef where
  warmthBonus : ℚ
  layouts : List (String × LayoutDef)
  deriving Repr, DecidableEq

/-- `spawns.players`. -/
structure PlayerSpawnsDef where
  zone : Bounds
  deriving Repr, DecidableEq

/-- `spawns.enemies` (only the minimum distance is read). -/
structure EnemySpawnsDef where
  minDistanceFromPlayers : ℚ
  deriving Repr, DecidableEq

/-- `spawns`. -/
structure SpawnsDef where
  players : PlayerSpawnsDef
  enemies : EnemySpawnsDef
  deriving Repr, DecidableEq

/-- An entry of `objectives.primary.items`. -/
structure ObjectiveItemDef where
  id : String
  name : String
  count : ℕ
  spawnIn : String
  deriving Repr, DecidableEq

/-- `objectives.primary.escapeZone` (only the radius is read). -/
structure EscapeZoneDef where
  radius : ℚ
  deriving Repr, DecidableEq

/-- `objectives.primary`. -/
structure PrimaryObjectiveDef where
  items : List ObjectiveItemDef
  escapeZone : EscapeZoneDef
  deriving Repr, DecidableEq

/-- `objectives`. -/
structure ObjectivesDef where
  primary : PrimaryObjectiveDef
  deriving Repr, DecidableEq

/-- An area definition: exactly the configuration surface that
`MapManager.generate` consumes. -/
structure AreaDef where
  id : String
  name : String
  bounds : Bounds
  theme : ThemeDef
  roads : RoadsDef
  blocks : BlocksDef
  buildings : BuildingsDef
  overpasses : OverpassesDef
  props : PropsDef
  lootContainers : LootContainersDef
  interiors : InteriorsDef
  spawns : SpawnsDef
  objectives : ObjectivesDef
  deriving Repr, DecidableEq

/-- SkidRowArea.js, restricted to the fields the generator reads. -/
def skidRowArea : AreaDef where
  id := "skid_row"
  name := "Skid Row"
  bounds := ⟨-120, 120, -120, 120⟩
  theme := { building := 0x3a3a40, buildingVariation := 0x0a0a0a }
  roads :=
    { main := { width := 12, count := { horizontal := 3, vertical := 3 } }
      sidewalkWidth := 2.5
      alleys := { frequency := 0.3 } }
  blocks := { minSize := 25, buildingDensity := 0.7, innerCourtyard := 0.2 }
  buildings :=
    { types :=
        [ { id := "apartment", weight := 35, floors := ⟨3, 8⟩, width := ⟨8, 15⟩,
            depth := ⟨8, 12⟩, hasInterior := true, interiorChance := 0.3,
            style := "residential" }
        , { id := "warehouse", weight := 20, floors := ⟨1, 2⟩, width := ⟨15, 25⟩,
            depth := ⟨12, 20⟩, hasInterior := true, interiorChance := 0.5,
            style := "industrial" }
        , { id := "storefront", weight := 25, floors := ⟨1, 3⟩, width := ⟨6, 12⟩,
            depth := ⟨8, 12⟩, hasInterior := true, interiorChance := 0.4,
            style := "commercial", awning := true }
        , { id := "office", weight := 10, floors := ⟨4, 12⟩, width := ⟨12, 20⟩,
            depth := ⟨12, 18⟩, hasInterior := true, interiorChance := 0.2,
            style := "corporate" }
        , { id := "ruined", weight := 10, floors := ⟨2, 5⟩, width := ⟨8, 15⟩,
            depth := ⟨8, 12⟩, hasInterior := false, style := "destroyed",
            rubble := true } ]
      windows := { spacing := 2.5, boardedChance := 0.4, brokenChance := 0.3,
                   litChance := 0.1 }
      doors := { width := 1.5, barricadedChance := 0.5 } }
  overpasses := { count := ⟨1, 3⟩, height := 8, width := 14, pillarSpacing := 15 }
  props :=
    { trash := { density := 0.8,
                 types := ["bag", "can", "bottle", "paper", "box", "tire"] }
      barrelFires := { count := ⟨12, 20⟩, nearWalls := true, warmthRadius := 8,
                       lightRadius := 10, lightIntensity := 1.2,
                       lightColor := 0xff6622 }
      shelters := { count := ⟨8, 15⟩,
                    types := ["tent", "cardboard", "tarp", "shopping_cart"] }
      vehicles := { count := ⟨15, 25⟩, types := ["car", "truck", "van", "bus"],
                    burnedChance := 0.3 }
      streetFurniture := { lamppostSpacing := 20 }
      glassZones := { count := ⟨15, 25⟩, radius := 2 } }
  lootContainers :=
    { types :=
        [ ⟨"dumpster", 30, "trash", "alley"⟩
        , ⟨"car_trunk", 20, "vehicle", "road"⟩
        , ⟨"crate", 15, "supplies", "any"⟩
        , ⟨"locker", 10, "weapons", "interior"⟩
        , ⟨"cabinet", 10, "medical", "interior"⟩
        , ⟨"backpack", 10, "survival", "any"⟩
        , ⟨"cooler", 5, "food", "any"⟩ ]
      interiorMultiplier := 2.5
      tables :=
        [ ("trash", [("food", 0.3), ("ammo", 0.1), ("medicine", 0.1), ("nothing", 0.5)])
        , ("vehicle", [("ammo", 0.3), ("pistol", 0.15), ("food", 0.2),
                       ("medicine", 0.15), ("nothing", 0.2)])
        , ("supplies", [("ammo", 0.4), ("food", 0.3), ("blanket", 0.2), ("medicine", 0.1)])
        , ("weapons", [("pistol", 0.3), ("shotgun", 0.2), ("smg", 0.15),
                       ("rifle", 0.1), ("bat", 0.15), ("pipe", 0.1)])
        , ("medical", [("medicine", 0.6), ("bandage", 0.3), ("nothing", 0.1)])
        , ("survival", [("food", 0.3), ("water", 0.3), ("blanket", 0.2), ("ammo", 0.2)])
        , ("food", [("food", 0.7), ("water", 0.3)]) ]
      count := ⟨40, 60⟩ }
  interiors :=
    { warmthBonus := 0.5
      layouts :=
        [ ("residential", ⟨["couch", "table", "bed", "cabinet"]⟩)
        , ("commercial", ⟨["counter", "shelves", "desk", "chair"]⟩)
        , ("industrial", ⟨["crates", "machinery", "desk"]⟩) ] }
  spawns :=
    { players := { zone := ⟨-15, 15, -15, 15⟩ }
      enemies := { minDistanceFromPlayers := 25 } }
  objectives :=
    { primary :=
        { items := [⟨"generator_part", "Generator Part", 3, "interior"⟩]
          escapeZone := { radius := 5 } } }

/-! ## MapManager.js — generated entities -/

/-- A 2-D world point `{ x, z }`. -/
structure P2 where
  x : ℚ
  z : ℚ
  deriving Repr, DecidableEq

/-- A 3-D world point `{ x, y, z }`. -/
structure P3 where
  x : ℚ
  y : ℚ
  z : ℚ
  deriving Repr, DecidableEq

/-- A generated road.  Horizontal roads carry `centerZ`, vertical roads
carry `centerX`; the absent one is `none`. -/
structure Road where
  id : String
  rtype : String
  direction : String
  roadStart : P2
  roadEnd : P2
  width : ℚ
  centerZ : Option ℚ := none
  centerX : Option ℚ := none
  deriving Repr, DecidableEq

/-- A generated sidewalk strip. -/
structure Sidewalk where
  id : String
  roadId : String
  side : String
  z : Option ℚ := none
  x : Option ℚ := none
  width : ℚ
  deriving Repr, DecidableEq

/-- A generated city block. -/
structure Block where
  id : String
  bounds : Bounds
  width : ℚ
  depth : ℚ
  hasCourtyard : Bool
  deriving Repr, DecidableEq

/-- One generated window of a building facade. -/
structure Window where
  position : P3
  side : String
  boarded : Bool
  broken : Bool
  lit : Bool
  deriving Repr, DecidableEq

/-- `{ width, height, depth }` of a building. -/
structure Dims where
  width : ℚ
  height : ℚ
  depth : ℚ
  deriving Repr, DecidableEq

/-- A generated building. -/
structure Building where
  id : String
  btype : String
  style : String
  position : P3
  dimensions : Dims
  floors : ℤ
  rotation : ℚ
  color : ℚ
  windows : List Window
  hasAwning : Bool
  hasRubble : Bool
  blockId : String
  hasInterior : Bool := false
  interiorId : Option String := none
  deriving Repr, DecidableEq

/-- The door of an interior. -/
structure Door where
  position : P2
  side : String
  width : ℚ
  barricaded : Bool
  deriving Repr, DecidableEq

/-- One piece of interior furniture. -/
structure Furniture where
  ftype : Option String
  position : P2
  rotation : ℚ
  deriving Repr, DecidableEq

/-- A generated enterable interior. -/
structure Interior where
  id : String
  buildingId : String
  bounds : Bounds
  door : Door
  warmthBonus : ℚ
  furniture : List Furniture
  lootMultiplier : ℚ
  deriving Repr, DecidableEq

/-- One overpass support pillar. -/
structure Pillar where
  position : P3
  height : ℚ
  deriving Repr, DecidableEq

/-- A generated overpass. -/
structure Overpass where
  id : String
  direction : String
  opStart : P3
  opEnd : P3
  width : ℚ
  height : ℚ
  pillars : List Pillar
  deriving Repr, DecidableEq

/-- A generated barrel fire. -/
structure BarrelFire where
  id : String
  position : P3
  warmthRadius : ℚ
  lightRadius : ℚ
  lightIntensity : ℚ
  lightColor : ℚ
  deriving Repr, DecidableEq

/-- A generated prop.  The JS prop objects are heterogeneous; fields that
only some prop kinds carry are `Option`s. -/
structure MapProp where
  id : String
  ptype : String
  subtype : Option String := none
  position : P3
  rotation : Option ℚ := none
  scale : Option ℚ := none
  working : Option Bool := none
  burned : Option Bool := none
  color : Option ℚ := none
  radius : Option ℚ := none
  broken : Option Bool := none
  deriving Repr, DecidableEq

/-- A generated loot container. -/
structure LootContainer where
  id : String
  ctype : String
  position : P3
  rotation : ℚ
  loot : Option String
  looted : Bool
  isInterior : Bool
  deriving Repr, DecidableEq

/-- A generated objective (a `collect` item or the `escape` zone). -/
structure Objective where
  id : String
  otype : String
  itemId : Option String := none
  name : Option String := none
  position : P3
  collected : Option Bool := none
  radius : Option ℚ := none
  active : Option Bool := none
  vehicleType : Option String := none
  deriving Repr, DecidableEq

/-- An enemy spawn zone cell. -/
structure EnemyZone where
  x : ℚ
  z : ℚ
  ztype : String
  deriving Repr, DecidableEq

/-- The mutable generation state of a `MapManager` while `generate()`
runs: the PRNG plus every `this.data` collection. -/
structure GenState where
  rng : Rng
  roads : List Road := []
  sidewalks : List Sidewalk := []
  blocks : List Block := []
  buildings : List Building := []
  interiors : List Interior := []
  props : List MapProp := []
  lootContainers : List LootContainer := []
  barrelFires : List BarrelFire := []
  overpasses : List Overpass := []
  spawnPlayers : List P3 := []
  spawnEnemies : List EnemyZone := []
  objectives : List Objective := []
  deriving Repr, DecidableEq

/-- The result of `MapManager.generate()`: every generated collection plus
the rasterised collision grid (one byte per cell, as a function from the
linear cell index). -/
structure MapData where
  roads : List Road
  sidewalks : List Sidewalk
  blocks : List Block
  buildings : List Building
  interiors : List Interior
  props : List MapProp
  lootContainers : List LootContainer
  barrelFires : List BarrelFire
  overpasses : List Overpass
  spawnPlayers : List P3
  spawnEnemies : List EnemyZone
  objectives : List Objective
  gridWidth : ℕ
  gridHeight : ℕ
  gridResolution : ℚ
  collisionGrid : ℕ → ℕ

/-! ## MapManager.js — generation pipeline -/

/-- Values taken by a JS loop `for (let v = start; v < stop; v += step)`
over exact rationals (`step > 0`; a non-positive step would not terminate
in the source and yields the empty list here). -/
def qSteps (start stop step : ℚ) : List ℚ :=
  (List.range (⌈(stop - start) / step⌉.toNat)).map (fun i => start + i * step)

/-- `MapManager.rectanglesOverlap`. -/
def rectanglesOverlap (ax1 az1 ax2 az2 bx1 bz1 bx2 bz2 : ℚ) : Bool :=
  decide (ax1 < bx2) && decide (ax2 > bx1) && decide (az1 < bz2) && decide (az2 > bz1)

/-- `MapManager.isInsideBuilding(worldX, worldZ)` — membership in any
building footprint (closed rectangle of half-width/half-depth around the
building centre). -/
def isInsideBuilding (buildings : List Building) (worldX worldZ : ℚ) : Bool :=
  buildings.any (fun b =>
    let halfW := b.dimensions.width / 2
    let halfD := b.dimensions.depth / 2
    decide (worldX ≥ b.position.x - halfW) && decide (worldX ≤ b.position.x + halfW) &&
    decide (worldZ ≥ b.position.z - halfD) && decide (worldZ ≤ b.position.z + halfD))

/-- `MapManager.generateRoadNetwork()`. -/
def generateRoadNetwork (area : AreaDef) (st : GenState) : GenState :=
  let bounds := area.bounds
  let rc := area.roads
  let hCount := rc.main.count.horizontal
  let hSpacing := (bounds.maxZ - bounds.minZ - 40) / (hCount + 1)
  let st := (List.range hCount).foldl
    (fun st i =>
      let (j, r) := st.rng.float (-10) 10
      let z := bounds.minZ + 20 + (i + 1 : ℚ) * hSpacing + j
      { st with
        rng := r
        roads := st.roads ++
          [{ id := "road_h_" ++ toString i, rtype := "main",
             direction := "horizontal",
             roadStart := ⟨bounds.minX, z⟩, roadEnd := ⟨bounds.maxX, z⟩,
             width := rc.main.width, centerZ := some z }]
        sidewalks := st.sidewalks ++
          [{ id := "sidewalk_h_" ++ toString i ++ "_n",
             roadId := "road_h_" ++ toString i, side := "north",
             z := some (z + rc.main.width / 2 + rc.sidewalkWidth / 2),
             width := rc.sidewalkWidth },
           { id := "sidewalk_h_" ++ toString i ++ "_s",
             roadId := "road_h_" ++ toString i, side := "south",
             z := some (z - rc.main.width / 2 - rc.sidewalkWidth / 2),
             width := rc.sidewalkWidth }] })
    st
  let vCount := rc.main.count.vertical
  let vSpacing := (bounds.maxX - bounds.minX - 40) / (vCount + 1)
  (List.range vCount).foldl
    (fun st i =>
      let (j, r) := st.rng.float (-10) 10
      let x := bounds.minX + 20 + (i + 1 : ℚ) * vSpacing + j
      { st with
        rng := r
        roads := st.roads ++
          [{ id := "road_v_" ++ toString i, rtype := "main",
             direction := "vertical",
             roadStart := ⟨x, bounds.minZ⟩, roadEnd := ⟨x, bounds.maxZ⟩,
             width := rc.main.width, centerX := some x }]
        sidewalks := st.sidewalks ++
          [{ id := "sidewalk_v_" ++ toString i ++ "_e",
             roadId := "road_v_" ++ toString i, side := "east",
             x := some (x + rc.main.width / 2 + rc.sidewalkWidth / 2),
             width := rc.sidewalkWidth },
           { id := "sidewalk_v_" ++ toString i ++ "_w",
             roadId := "road_v_" ++ toString i, side := "west",
             x := some (x - rc.main.width / 2 - rc.sidewalkWidth / 2),
             width := rc.sidewalkWidth }] })
    st

/-- `MapManager.generateCityBlocks()`.  Road centrelines are sorted
numerically ascending (a stable comparison sort, as JS `sort((a,b)=>a-b)`). -/
def generateCityBlocks (area : AreaDef) (st : GenState) : GenState :=
  let bounds := area.bounds
  let rc := area.roads
  let hRoads := List.insertionSort (fun a b => a ≤ b)
    ((st.roads.filter (fun r => r.direction == "horizontal")).map (fun r => r.centerZ.getD 0))
  let vRoads := List.insertionSort (fun a b => a ≤ b)
    ((st.roads.filter (fun r => r.direction == "vertical")).map (fun r => r.centerX.getD 0))
  let hBoundaries := bounds.minZ :: hRoads ++ [bounds.maxZ]
  let vBoundaries := bounds.minX :: vRoads ++ [bounds.maxX]
  (List.range (hBoundaries.length - 1)).foldl
    (fun st i =>
      (List.range (vBoundaries.length - 1)).foldl
        (fun st j =>
          let minZ := hBoundaries.getD i 0 + rc.main.width / 2 + rc.sidewalkWidth + 2
          let maxZ := hBoundaries.getD (i + 1) 0 - rc.main.width / 2 - rc.sidewalkWidth - 2
          let minX := vBoundaries.getD j 0 + rc.main.width / 2 + rc.sidewalkWidth + 2
          let maxX := vBoundaries.getD (j + 1) 0 - rc.main.width / 2 - rc.sidewalkWidth - 2
          if maxX - minX < area.blocks.minSize ∨ maxZ - minZ < area.blocks.minSize then
            st
          else
            let (hc, r) := st.rng.bool area.blocks.innerCourtyard
            { st with
              rng := r
              blocks := st.blocks ++
                [{ id := "block_" ++ toString i ++ "_" ++ toString j,
                   bounds := ⟨minX, maxX, minZ, maxZ⟩,
                   width := maxX - minX, depth := maxZ - minZ,
                   hasCourtyard := hc }] })
        st)
    st

/-- `MapManager.generateWindowLayout(width, height, depth, typeData)`.
Each window consumes three boolean draws (boarded, broken, lit); the
front/back pass precedes the side pass, exactly as in the source. -/
def generateWindowLayout (area : AreaDef) (width height depth : ℚ) (r : Rng) :
    List Window × Rng :=
  let wc := area.buildings.windows
  let floorsCount := (⌊height / 3.5⌋).toNat
  let perFront := (⌊width / wc.spacing⌋).toNat
  let perSide := (⌊depth / wc.spacing⌋).toNat
  let fb := (List.range floorsCount).foldl
    (fun (acc : List Window × Rng) floor =>
      (List.range perFront).foldl
        (fun (acc : List Window × Rng) w =>
          let (lst, r) := acc
          let windowX := -width / 2 + wc.spacing / 2 + (w : ℚ) * wc.spacing
          let windowY := (floor : ℚ) * 3.5 + 2
          let (fb1, r) := r.bool wc.boardedChance
          let (fb2, r) := r.bool wc.brokenChance
          let (fb3, r) := r.bool wc.litChance
          let frontW : Window :=
            { position := ⟨windowX, windowY, -depth / 2 - 0.01⟩, side := "front",
              boarded := fb1, broken := fb2, lit := fb3 }
          let (bb1, r) := r.bool wc.boardedChance
          let (bb2, r) := r.bool wc.brokenChance
          let (bb3, r) := r.bool wc.litChance
          let backW : Window :=
            { position := ⟨windowX, windowY, depth / 2 + 0.01⟩, side := "back",
              boarded := bb1, broken := bb2, lit := bb3 }
          (lst ++ [frontW, backW], r))
        acc)
    ([], r)
  (List.range floorsCount).foldl
    (fun (acc : List Window × Rng) floor =>
      (List.range perSide).foldl
        (fun (acc : List Window × Rng) w =>
          let (lst, r) := acc
          let windowZ := -depth / 2 + wc.spacing / 2 + (w : ℚ) * wc.spacing
          let windowY := (floor : ℚ) * 3.5 + 2
          let (lb1, r) := r.bool wc.boardedChance
          let (lb2, r) := r.bool wc.brokenChance
          let (lb3, r) := r.bool wc.litChance
          let leftW : Window :=
            { position := ⟨-width / 2 - 0.01, windowY, windowZ⟩, side := "left",
              boarded := lb1, broken := lb2, lit := lb3 }
          let (rb1, r) := r.bool wc.boardedChance
          let (rb2, r) := r.bool wc.brokenChance
          let (rb3, r) := r.bool wc.litChance
          let rightW : Window :=
            { position := ⟨width / 2 + 0.01, windowY, windowZ⟩, side := "right",
              boarded := rb1, broken := rb2, lit := rb3 }
          (lst ++ [leftW, rightW], r))
        acc)
    fb

/-- `MapManager.generateFurniture(building, layout)`. -/
def generateFurniture (building : Building) (layout : LayoutDef) (r : Rng) :
    List Furniture × Rng :=
  let (count, r) := r.int 2 5
  (List.range count.toNat).foldl
    (fun (acc : List Furniture × Rng) _ =>
      let (lst, r) := acc
      let (ftype, r) := r.pick layout.furniture
      let (fx, r) := r.float (building.position.x - building.dimensions.width / 2 + 1)
                             (building.position.x + building.dimensions.width / 2 - 1)
      let (fz, r) := r.float (building.position.z - building.dimensions.depth / 2 + 1)
                             (building.position.z + building.dimensions.depth / 2 - 1)
      let (frot, r) := r.float 0 (jsPI * 2)
      (lst ++ [{ ftype := ftype, position := ⟨fx, fz⟩, rotation := frot }], r))
    ([], r)

/-- `MapManager.generateInterior(building, typeData)`. -/
def generateInterior (area : AreaDef) (building : Building)
    (typeData : BuildingTypeDef) (r : Rng) : Interior × Rng :=
  let interiorLayout :=
    ((area.interiors.layouts.lookup typeData.style).orElse
      (fun _ => area.interiors.layouts.lookup "residential")).getD ⟨[]⟩
  let (doorSideOpt, r) := r.pick ["front", "back", "left", "right"]
  let doorSide := doorSideOpt.getD "front"
  let doorPosition : P2 :=
    if doorSide == "front" then
      ⟨building.position.x, building.position.z - building.dimensions.depth / 2⟩
    else if doorSide == "back" then
      ⟨building.position.x, building.position.z + building.dimensions.depth / 2⟩
    else if doorSide == "left" then
      ⟨building.position.x - building.dimensions.width / 2, building.position.z⟩
    else
      ⟨building.position.x + building.dimensions.width / 2, building.position.z⟩
  let (barricaded, r) := r.bool area.buildings.doors.barricadedChance
  let (furniture, r) := generateFurniture building interiorLayout r
  ({ id := building.interiorId.getD ""
     buildingId := building.id
     bounds :=
       ⟨building.position.x - building.dimensions.width / 2 + 0.5,
        building.position.x + building.dimensions.width / 2 - 0.5,
        building.position.z - building.dimensions.depth / 2 + 0.5,
        building.position.z + building.dimensions.depth / 2 - 0.5⟩
     door := { position := doorPosition, side := doorSide,
               width := area.buildings.doors.width, barricaded := barricaded }
     warmthBonus := area.interiors.warmthBonus
     furniture := furniture
     lootMultiplier := area.lootContainers.interiorMultiplier }, r)

/-- A record of one already-placed building within the current block
(the `placedBuildings` entries of `generateBuildings`). -/
structure PlacedB where
  x : ℚ
  z : ℚ
  width : ℚ
  depth : ℚ
  deriving Repr, DecidableEq

/-- One placement attempt round of `generateBuildings` (the inner
`for (attempt...)` loop), with `fuel` remaining attempts.  Returns the
updated state, the updated `placedBuildings` list and the next building
id counter. -/
def placeBuildingAttempts (area : AreaDef) (block : Block)
    (typeData : BuildingTypeDef) (width depth height : ℚ) (floors : ℤ) :
    ℕ → GenState → List PlacedB → ℕ → GenState × List PlacedB × ℕ
  | 0, st, placed, bid => (st, placed, bid)
  | fuel + 1, st, placed, bid =>
    let (x, r) := st.rng.float (block.bounds.minX + width / 2 + 1)
                               (block.bounds.maxX - width / 2 - 1)
    let (z, r) := r.float (block.bounds.minZ + depth / 2 + 1)
                          (block.bounds.maxZ - depth / 2 - 1)
    let overlaps := placed.any (fun b =>
      rectanglesOverlap (x - width / 2 - 2) (z - depth / 2 - 2)
        (x + width / 2 + 2) (z + depth / 2 + 2)
        (b.x - b.width / 2) (b.z - b.depth / 2)
        (b.x + b.width / 2) (b.z + b.depth / 2))
    let inSpawnArea := decide (|x| < 20) && decide (|z| < 20)
    if overlaps || inSpawnArea then
      placeBuildingAttempts area block typeData width depth height floors fuel
        { st with rng := r } placed bid
    else
      let (rotOpt, r) := r.pick [(0 : ℚ), jsPI / 2, jsPI, jsPI * 1.5]
      let (cvar, r) := r.int (-area.theme.buildingVariation) area.theme.buildingVariation
      let (windows, r) := generateWindowLayout area width height depth r
      let (hasAwn, r) := if typeData.awning then r.bool 0.7 else (false, r)
      let building0 : Building :=
        { id := "building_" ++ toString bid, btype := typeData.id,
          style := typeData.style, position := ⟨x, 0, z⟩,
          dimensions := ⟨width, height, depth⟩, floors := floors,
          rotation := rotOpt.getD 0, color := area.theme.building + cvar,
          windows := windows, hasAwning := hasAwn, hasRubble := typeData.rubble,
          blockId := block.id }
      let (building, interiorOpt, r) :=
        if typeData.hasInterior then
          let (bi, r) := r.bool typeData.interiorChance
          if bi then
            let b := { building0 with
                       hasInterior := true
                       interiorId := some ("interior_" ++ building0.id) }
            let (itr, r) := generateInterior area b typeData r
            (b, some itr, r)
          else (building0, none, r)
        else (building0, none, r)
      ({ st with
          rng := r
          buildings := st.buildings ++ [building]
          interiors := st.interiors ++ interiorOpt.toList },
       placed ++ [⟨x, z, width, depth⟩], bid + 1)

/-- `MapManager.generateBuildings()`.  The building id counter is local to
the call and threads across blocks; a fall-through of the weighted type
pick (impossible unless `buildings.types` is empty, which would throw in
the source) skips the slot. -/
def generateBuildings (area : AreaDef) (st : GenState) : GenState :=
  let types := area.buildings.types
  let res := st.blocks.foldl
    (fun (acc : GenState × ℕ) block =>
      let (st, bid0) := acc
      let blockArea := block.width * block.depth
      let buildingCount := (⌊blockArea / 200 * area.blocks.buildingDensity⌋).toNat
      let inner := (List.range buildingCount).foldl
        (fun (acc : GenState × List PlacedB × ℕ) _ =>
          let (st, placed, bid) := acc
          let (typeOpt, r) := st.rng.pickWeighted (types.map (fun t => (t, t.weight)))
          match typeOpt with
          | none => ({ st with rng := r }, placed, bid)
          | some typeData =>
            let (width, r) := r.float typeData.width.min typeData.width.max
            let (depth, r) := r.float typeData.depth.min typeData.depth.max
            let (floors, r) := r.int typeData.floors.min typeData.floors.max
            let height := (floors : ℚ) * 3.5
            placeBuildingAttempts area block typeData width depth height floors 20
              { st with rng := r } placed bid)
        (st, [], bid0)
      let (st, placed, bid) := inner
      if placed.length ≥ 2 then
        let (_, r) := st.rng.bool area.roads.alleys.frequency
        ({ st with rng := r }, bid)
      else (st, bid))
    (st, 0)
  res.1

/-- `MapManager.generateOverpasses()`.  `t = p / pillarCount` is exact
rational division (`0 / 0 = 0` here where JS produces `NaN` for a
zero-pillar overpass, a configuration the shipped area cannot produce). -/
def generateOverpasses (area : AreaDef) (st : GenState) : GenState :=
  let config := area.overpasses
  let bounds := area.bounds
  let (count, r) := st.rng.int config.count.min config.count.max
  (List.range count.toNat).foldl
    (fun st i =>
      let (dirOpt, r) := st.rng.pick ["horizontal", "vertical"]
      let direction := dirOpt.getD "horizontal"
      let (opStart, opEnd, r) :=
        if direction == "horizontal" then
          let (z, r) := r.float (bounds.minZ + 40) (bounds.maxZ - 40)
          ((⟨bounds.minX + 20, config.height, z⟩ : P3),
           (⟨bounds.maxX - 20, config.height, z⟩ : P3), r)
        else
          let (x, r) := r.float (bounds.minX + 40) (bounds.maxX - 40)
          ((⟨x, config.height, bounds.minZ + 20⟩ : P3),
           (⟨x, config.height, bounds.maxZ - 20⟩ : P3), r)
      let length := if direction == "horizontal" then opEnd.x - opStart.x
                    else opEnd.z - opStart.z
      let pillarCount : ℤ := ⌊length / config.pillarSpacing⌋
      let pillars := (List.range (pillarCount + 1).toNat).map (fun p =>
        let t : ℚ := (p : ℚ) / (pillarCount : ℚ)
        ({ position := ⟨opStart.x + (opEnd.x - opStart.x) * t, 0,
                        opStart.z + (opEnd.z - opStart.z) * t⟩,
           height := config.height } : Pillar))
      { st with
        rng := r
        overpasses := st.overpasses ++
          [{ id := "overpass_" ++ toString i, direction := direction,
             opStart := opStart, opEnd := opEnd, width := config.width,
             height := config.height, pillars := pillars }] })
    { st with rng := r }

/-- One sample of a candidate barrel-fire position (the body of the
`do` block of `generateBarrelFires`). -/
def sampleBarrelFirePos (area : AreaDef) (buildings : List Building) (r : Rng) :
    P2 × Rng :=
  let config := area.props.barrelFires
  let bounds := area.bounds
  let openSample (r : Rng) : P2 × Rng :=
    let (x, r) := r.float (bounds.minX + 10) (bounds.maxX - 10)
    let (z, r) := r.float (bounds.minZ + 10) (bounds.maxZ - 10)
    (⟨x, z⟩, r)
  if config.nearWalls && !buildings.isEmpty then
    let (b6, r) := r.bool 0.6
    if b6 then
      let (bOpt, r) := r.pick buildings
      match bOpt with
      | none => (⟨0, 0⟩, r)
      | some building =>
        let (sideOpt, r) := r.pick ["front", "back", "left", "right"]
        let side := sideOpt.getD "front"
        let offset : ℚ := 3
        if side == "front" then
          let (fx, r) := r.float (-(building.dimensions.width / 3)) (building.dimensions.width / 3)
          (⟨building.position.x + fx,
            building.position.z - building.dimensions.depth / 2 - offset⟩, r)
        else if side == "back" then
          let (fx, r) := r.float (-(building.dimensions.width / 3)) (building.dimensions.width / 3)
          (⟨building.position.x + fx,
            building.position.z + building.dimensions.depth / 2 + offset⟩, r)
        else if side == "left" then
          let (fz, r) := r.float (-(building.dimensions.depth / 3)) (building.dimensions.depth / 3)
          (⟨building.position.x - building.dimensions.width / 2 - offset,
            building.position.z + fz⟩, r)
        else
          let (fz, r) := r.float (-(building.dimensions.depth / 3)) (building.dimensions.depth / 3)
          (⟨building.position.x + building.dimensions.width / 2 + offset,
            building.position.z + fz⟩, r)
    else openSample r
  else openSample r

/-- The rejection `do`/`while` of `generateBarrelFires`: sample, count the
attempt, and retry while the sample is inside a building and fewer than 20
attempts were made.  Returns the last sample, the PRNG, and the final
attempt count. -/
def barrelFireLoop (area : AreaDef) (buildings : List Building) :
    ℕ → Rng → ℕ → P2 × Rng × ℕ
  | 0, r, attempts => (⟨0, 0⟩, r, attempts)
  | fuel + 1, r, attempts =>
    let (pos, r') := sampleBarrelFirePos area buildings r
    let attempts' := attempts + 1
    if isInsideBuilding buildings pos.x pos.z ∧ attempts' < 20 then
      barrelFireLoop area buildings fuel r' attempts'
    else (pos, r', attempts')

/-- `MapManager.generateBarrelFires()`. -/
def generateBarrelFires (area : AreaDef) (st : GenState) : GenState :=
  let config := area.props.barrelFires
  let (count, r) := st.rng.int config.count.min config.count.max
  (List.range count.toNat).foldl
    (fun st i =>
      let (pos, r, attempts) := barrelFireLoop area st.buildings 20 st.rng 0
      if attempts < 20 then
        { st with
          rng := r
          barrelFires := st.barrelFires ++
            [{ id := "barrel_fire_" ++ toString i,
               position := ⟨pos.x, 0, pos.z⟩,
               warmthRadius := config.warmthRadius,
               lightRadius := config.lightRadius,
               lightIntensity := config.lightIntensity,
               lightColor := config.lightColor }] }
      else { st with rng := r })
    { st with rng := r }

/-- The trash pass of `MapManager.generateProps()` — noise-gated cluster
placement over a 5-unit candidate grid. -/
def genTrash (M : MathOps) (perm : List ℕ) (area : AreaDef) (st : GenState) :
    GenState :=
  let bounds := area.bounds
  let trashDensity := area.props.trash.density
  (qSteps bounds.minX bounds.maxX 5).foldl
    (fun st x =>
      (qSteps bounds.minZ bounds.maxZ 5).foldl
        (fun st z =>
          let noiseValue := PerlinNoise.fbm perm (x * 0.05) (z * 0.05) 3
          if noiseValue > 0.2 then
            let (bv, r) := st.rng.bool (trashDensity * 0.3)
            let st := { st with rng := r }
            if bv then
              if isInsideBuilding st.buildings x z then st
              else
                let (clusterSize, r) := st.rng.int 2 6
                (List.range clusterSize.toNat).foldl
                  (fun st _ =>
                    let (offsetX, r) := Rng.gaussian M st.rng 0 1.5
                    let (offsetZ, r) := Rng.gaussian M r 0 1.5
                    let (subOpt, r) := r.pick area.props.trash.types
                    let (rot, r) := r.float 0 (jsPI * 2)
                    let (scale, r) := r.float 0.5 1.2
                    { st with
                      rng := r
                      props := st.props ++
                        [{ id := "trash_" ++ toString st.props.length,
                           ptype := "trash", subtype := subOpt,
                           position := ⟨x + offsetX, 0, z + offsetZ⟩,
                           rotation := some rot, scale := some scale }] })
                  { st with rng := r }
            else st
          else st)
        st)
    st

/-- The vehicle pass of `MapManager.generateProps()`. -/
def genVehicles (area : AreaDef) (st : GenState) : GenState :=
  let config := area.props.vehicles
  let (vehicleCount, r) := st.rng.int config.count.min config.count.max
  (List.range vehicleCount.toNat).foldl
    (fun st i =>
      let (roadOpt, r) := st.rng.pick st.roads
      match roadOpt with
      | none => { st with rng := r }
      | some road =>
        let (x, z, r) :=
          if road.direction == "horizontal" then
            let (x, r) := r.float (road.roadStart.x + 10) (road.roadEnd.x - 10)
            let (zoff, r) := r.float (-(road.width / 3)) (road.width / 3)
            (x, road.centerZ.getD 0 + zoff, r)
          else
            let (xoff, r) := r.float (-(road.width / 3)) (road.width / 3)
            let (z, r) := r.float (road.roadStart.z + 10) (road.roadEnd.z - 10)
            (road.centerX.getD 0 + xoff, z, r)
        let overlaps := st.props.any (fun p =>
          p.ptype == "vehicle" && decide (|p.position.x - x| < 5) &&
            decide (|p.position.z - z| < 3))
        if overlaps then { st with rng := r }
        else
          let (subOpt, r) := r.pick config.types
          let (rotOpt, r) :=
            if road.direction == "horizontal" then r.pick [(0 : ℚ), jsPI]
            else r.pick [jsPI / 2, -(jsPI / 2)]
          let (burned, r) := r.bool config.burnedChance
          let (colorI, r) := r.int 0x333333 0x888888
          { st with
            rng := r
            props := st.props ++
              [{ id := "vehicle_" ++ toString i, ptype := "vehicle",
                 subtype := subOpt, position := ⟨x, 0, z⟩,
                 rotation := some (rotOpt.getD 0), burned := some burned,
                 color := some (colorI : ℚ) }] })
    { st with rng := r }

/-- The street-furniture (lamppost) pass of `MapManager.generateProps()`. -/
def genStreetFurniture (area : AreaDef) (st : GenState) : GenState :=
  let spacing := area.props.streetFurniture.lamppostSpacing
  st.roads.foldl
    (fun st road =>
      let length := if road.direction == "horizontal"
        then road.roadEnd.x - road.roadStart.x else road.roadEnd.z - road.roadStart.z
      let lamppostCount : ℤ := ⌊length / spacing⌋
      (List.range lamppostCount.toNat).foldl
        (fun st i =>
          let t : ℚ := ((i : ℚ) + 0.5) / (lamppostCount : ℚ)
          let (working, r) := st.rng.bool 0.3
          let pos : P3 :=
            if road.direction == "horizontal" then
              ⟨road.roadStart.x + (road.roadEnd.x - road.roadStart.x) * t, 0,
               road.centerZ.getD 0 + road.width / 2 + 1.5⟩
            else
              ⟨road.centerX.getD 0 + road.width / 2 + 1.5, 0,
               road.roadStart.z + (road.roadEnd.z - road.roadStart.z) * t⟩
          { st with
            rng := r
            props := st.props ++
              [{ id := "lamppost_" ++ toString st.props.length,
                 ptype := "lamppost", position := pos,
                 working := some working }] })
        st)
    st

/-- The dumpster pass of `MapManager.generateProps()`. -/
def genDumpsters (_area : AreaDef) (st : GenState) : GenState :=
  st.buildings.foldl
    (fun st building =>
      let (bd, r) := st.rng.bool 0.4
      let st := { st with rng := r }
      if bd then
        let (sideOpt, r) := st.rng.pick ["back", "left", "right"]
        let side := sideOpt.getD "back"
        let (pos, r) :=
          if side == "back" then
            let (fx, r) := r.float (-2) 2
            ((⟨building.position.x + fx,
               building.position.z + building.dimensions.depth / 2 + 2⟩ : P2), r)
          else if side == "left" then
            let (fz, r) := r.float (-2) 2
            ((⟨building.position.x - building.dimensions.width / 2 - 2,
               building.position.z + fz⟩ : P2), r)
          else
            let (fz, r) := r.float (-2) 2
            ((⟨building.position.x + building.dimensions.width / 2 + 2,
               building.position.z + fz⟩ : P2), r)
        if isInsideBuilding st.buildings pos.x pos.z then { st with rng := r }
        else
          let (rot, r) := r.float 0 (jsPI * 2)
          { st with
            rng := r
            props := st.props ++
              [{ id := "dumpster_" ++ toString st.props.length,
                 ptype := "dumpster", position := ⟨pos.x, 0, pos.z⟩,
                 rotation := some rot }] }
      else st)
    st

/-- The shelter pass of `MapManager.generateProps()`. -/
def genShelters (M : MathOps) (area : AreaDef) (st : GenState) : GenState :=
  let bounds := area.bounds
  let (shelterCount, r) := st.rng.int area.props.shelters.count.min
                                      area.props.shelters.count.max
  (List.range shelterCount.toNat).foldl
    (fun st i =>
      let openSample (r : Rng) : P2 × Rng :=
        let (x, r) := r.float (bounds.minX + 20) (bounds.maxX - 20)
        let (z, r) := r.float (bounds.minZ + 20) (bounds.maxZ - 20)
        (⟨x, z⟩, r)
      let overpassOrOpen (r : Rng) : P2 × Rng :=
        if !st.overpasses.isEmpty then
          let (b4, r) := r.bool 0.4
          if b4 then
            let (opOpt, r) := r.pick st.overpasses
            match opOpt with
            | none => (⟨0, 0⟩, r)
            | some overpass =>
              let (t, r) := r.float 0.2 0.8
              let (fx, r) := r.float (-5) 5
              let (fz, r) := r.float (-5) 5
              (⟨overpass.opStart.x + (overpass.opEnd.x - overpass.opStart.x) * t + fx,
                overpass.opStart.z + (overpass.opEnd.z - overpass.opStart.z) * t + fz⟩, r)
          else openSample r
        else openSample r
      let (pos, r) :=
        if !st.barrelFires.isEmpty then
          let (b5, r) := st.rng.bool 0.5
          if b5 then
            let (fireOpt, r) := r.pick st.barrelFires
            match fireOpt with
            | none => ((⟨0, 0⟩ : P2), r)
            | some fire =>
              let (angle, r) := r.float 0 (jsPI * 2)
              let (dist, r) := r.float 3 6
              ((⟨fire.position.x + M.cosQ angle * dist,
                 fire.position.z + M.sinQ angle * dist⟩ : P2), r)
          else overpassOrOpen r
        else overpassOrOpen st.rng
      if isInsideBuilding st.buildings pos.x pos.z then { st with rng := r }
      else
        let (subOpt, r) := r.pick area.props.shelters.types
        let (rot, r) := r.float 0 (jsPI * 2)
        { st with
          rng := r
          props := st.props ++
            [{ id := "shelter_" ++ toString i, ptype := "shelter",
               subtype := subOpt, position := ⟨pos.x, 0, pos.z⟩,
               rotation := some rot }] })
    { st with rng := r }

/-- The glass-zone pass of `MapManager.generateProps()`. -/
def genGlassZones (area : AreaDef) (st : GenState) : GenState :=
  let config := area.props.glassZones
  let (glassCount, r) := st.rng.int config.count.min config.count.max
  (List.range glassCount.toNat).foldl
    (fun st i =>
      let (bOpt, r) := st.rng.pick st.buildings
      match bOpt with
      | none => { st with rng := r }
      | some building =>
        let (sideOpt, r) := r.pick ["front", "back", "left", "right"]
        let side := sideOpt.getD "front"
        let (pos, r) :=
          if side == "front" then
            let (fx, r) := r.float (-(building.dimensions.width / 3)) (building.dimensions.width / 3)
            ((⟨building.position.x + fx,
               building.position.z - building.dimensions.depth / 2 - 1.5⟩ : P2), r)
          else if side == "back" then
            let (fx, r) := r.float (-(building.dimensions.width / 3)) (building.dimensions.width / 3)
            ((⟨building.position.x + fx,
               building.position.z + building.dimensions.depth / 2 + 1.5⟩ : P2), r)
          else if side == "left" then
            let (fz, r) := r.float (-(building.dimensions.depth / 3)) (building.dimensions.depth / 3)
            ((⟨building.position.x - building.dimensions.width / 2 - 1.5,
               building.position.z + fz⟩ : P2), r)
          else
            let (fz, r) := r.float (-(building.dimensions.depth / 3)) (building.dimensions.depth / 3)
            ((⟨building.position.x + building.dimensions.width / 2 + 1.5,
               building.position.z + fz⟩ : P2), r)
        { st with
          rng := r
          props := st.props ++
            [{ id := "glass_zone_" ++ toString i, ptype := "glass_zone",
               position := ⟨pos.x, 0, pos.z⟩, radius := some config.radius,
               broken := some false }] })
    { st with rng := r }

/-- `MapManager.generateProps()` — the six passes in source order. -/
def generateProps (M : MathOps) (perm : List ℕ) (area : AreaDef)
    (st : GenState) : GenState :=
  genGlassZones area (genShelters M area (genDumpsters area
    (genStreetFurniture area (genVehicles area (genTrash M perm area st)))))

/-- `MapManager.generateLootContainers()`. -/
def generateLootContainers (area : AreaDef) (st : GenState) : GenState :=
  let config := area.lootContainers
  let bounds := area.bounds
  let (count, r) := st.rng.int config.count.min config.count.max
  (List.range count.toNat).foldl
    (fun st i =>
      let (ctOpt, r) := st.rng.pickWeighted (config.types.map (fun t => (t, t.weight)))
      match ctOpt with
      | none => { st with rng := r }
      | some containerType =>
        let placed : Option (P2 × Bool) × Rng :=
          if containerType.position == "interior" && !st.interiors.isEmpty then
            let (intOpt, r) := r.pick st.interiors
            match intOpt with
            | none => (some (⟨0, 0⟩, true), r)
            | some interior =>
              let (x, r) := r.float (interior.bounds.minX + 1) (interior.bounds.maxX - 1)
              let (z, r) := r.float (interior.bounds.minZ + 1) (interior.bounds.maxZ - 1)
              (some (⟨x, z⟩, true), r)
          else if containerType.position == "alley" then
            let (x, r) := r.float (bounds.minX + 20) (bounds.maxX - 20)
            let (z, r) := r.float (bounds.minZ + 20) (bounds.maxZ - 20)
            -- the `continue` on an in-building sample skips the slot but
            -- keeps the draws made so far
            if isInsideBuilding st.buildings x z then (none, r)
            else (some (⟨x, z⟩, false), r)
          else if containerType.position == "road" then
            let (roadOpt, r) := r.pick st.roads
            match roadOpt with
            | none => (some (⟨0, 0⟩, false), r)
            | some road =>
              if road.direction == "horizontal" then
                let (x, r) := r.float (road.roadStart.x + 10) (road.roadEnd.x - 10)
                let (zoff, r) := r.float (-(road.width / 2) - 3) (road.width / 2 + 3)
                (some (⟨x, road.centerZ.getD 0 + zoff⟩, false), r)
              else
                let (xoff, r) := r.float (-(road.width / 2) - 3) (road.width / 2 + 3)
                let (z, r) := r.float (road.roadStart.z + 10) (road.roadEnd.z - 10)
                (some (⟨road.centerX.getD 0 + xoff, z⟩, false), r)
          else
            let (x, r) := r.float (bounds.minX + 15) (bounds.maxX - 15)
            let (z, r) := r.float (bounds.minZ + 15) (bounds.maxZ - 15)
            (some (⟨x, z⟩, false), r)
        match placed with
        | (none, r) => { st with rng := r }
        | (some (position, isInterior), r) =>
          let lootTable :=
            ((config.tables.lookup containerType.lootTable).orElse
              (fun _ => config.tables.lookup "supplies")).getD []
          let (lootOpt, r) := r.pickWeighted lootTable
          let (rot, r) := r.float 0 (jsPI * 2)
          { st with
            rng := r
            lootContainers := st.lootContainers ++
              [{ id := "loot_" ++ toString i, ctype := containerType.id,
                 position := ⟨position.x, 0, position.z⟩, rotation := rot,
                 loot := if lootOpt == some "nothing" then none else lootOpt,
                 looted := false, isInterior := isInterior }] })
    { st with rng := r }

/-- `MapManager.generateObjectives()`. -/
def generateObjectives (area : AreaDef) (st : GenState) : GenState :=
  let objectiveConfig := area.objectives.primary
  let bounds := area.bounds
  let st := objectiveConfig.items.foldl
    (fun st item =>
      (List.range item.count).foldl
        (fun st i =>
          let (position, r) :=
            if item.spawnIn == "interior" && !st.interiors.isEmpty then
              let (intOpt, r) := st.rng.pick st.interiors
              match intOpt with
              | none => ((⟨0, 0⟩ : P2), r)
              | some interior =>
                let (x, r) := r.float (interior.bounds.minX + 1) (interior.bounds.maxX - 1)
                let (z, r) := r.float (interior.bounds.minZ + 1) (interior.bounds.maxZ - 1)
                ((⟨x, z⟩ : P2), r)
            else
              let (x, r) := st.rng.float (bounds.minX + 30) (bounds.maxX - 30)
              let (z, r) := r.float (bounds.minZ + 30) (bounds.maxZ - 30)
              ((⟨x, z⟩ : P2), r)
          { st with
            rng := r
            objectives := st.objectives ++
              [{ id := "objective_" ++ item.id ++ "_" ++ toString i,
                 otype := "collect", itemId := some item.id,
                 name := some item.name,
                 position := ⟨position.x, 0.5, position.z⟩,
                 collected := some false }] })
        st)
    st
  let (sideOpt, r) := st.rng.pick ["north", "south", "east", "west"]
  let escapeSide := sideOpt.getD "north"
  let (escapePosition, r) :=
    if escapeSide == "north" then
      let (x, r) := r.float (-30) 30
      ((⟨x, bounds.maxZ - 15⟩ : P2), r)
    else if escapeSide == "south" then
      let (x, r) := r.float (-30) 30
      ((⟨x, bounds.minZ + 15⟩ : P2), r)
    else if escapeSide == "east" then
      let (z, r) := r.float (-30) 30
      ((⟨bounds.maxX - 15, z⟩ : P2), r)
    else
      let (z, r) := r.float (-30) 30
      ((⟨bounds.minX + 15, z⟩ : P2), r)
  let (vehOpt, r) := r.pick ["van", "truck", "bus"]
  { st with
    rng := r
    objectives := st.objectives ++
      [{ id := "escape_zone", otype := "escape",
         position := ⟨escapePosition.x, 0, escapePosition.z⟩,
         radius := some objectiveConfig.escapeZone.radius,
         active := some false, vehicleType := vehOpt }] }

/-- The rejection `do`/`while` of the player-spawn loop in
`MapManager.calculateSpawnPoints()`: sample a point of the configured
zone, count the attempt, and retry while it is inside a building and fewer
than 20 attempts were made.  Returns the accepted (or last) sample, the
PRNG, and the final attempt count. -/
def playerSpawnLoop (area : AreaDef) (buildings : List Building) :
    ℕ → Rng → ℕ → P2 × Rng × ℕ
  | 0, r, attempts => (⟨0, 0⟩, r, attempts)
  | fuel + 1, r, attempts =>
    let zone := area.spawns.players.zone
    let (x, r') := r.float zone.minX zone.maxX
    let (z, r') := r'.float zone.minZ zone.maxZ
    let attempts' := attempts + 1
    if isInsideBuilding buildings x z ∧ attempts' < 20 then
      playerSpawnLoop area buildings fuel r' attempts'
    else (⟨x, z⟩, r', attempts')

/-- One player-spawn slot of `calculateSpawnPoints`: run the rejection
loop and append the accepted sample. -/
def spawnPointStep (area : AreaDef) (st : GenState) (_i : ℕ) : GenState :=
  let (position, r, _) := playerSpawnLoop area st.buildings 20 st.rng 0
  { st with
    rng := r
    spawnPlayers := st.spawnPlayers ++ [⟨position.x, 1.6, position.z⟩] }

/-- `MapManager.calculateSpawnPoints()` — 8 player spawns by rejection
sampling against building footprints (never against the collision grid,
which does not exist yet), then the enemy spawn-zone scan. -/
def calculateSpawnPoints (M : MathOps) (area : AreaDef) (st : GenState) :
    GenState :=
  let st := (List.range 8).foldl (spawnPointStep area) st
  let gridSize : ℚ := 20
  let bounds := area.bounds
  let enemyZones :=
    (qSteps (bounds.minX + gridSize) (bounds.maxX - gridSize) gridSize).foldl
      (fun zones x =>
        (qSteps (bounds.minZ + gridSize) (bounds.maxZ - gridSize) gridSize).foldl
          (fun zones z =>
            let distFromSpawn := M.sqrtQ (x * x + z * z)
            if distFromSpawn ≥ area.spawns.enemies.minDistanceFromPlayers then
              if isInsideBuilding st.buildings x z then zones
              else zones ++ [({ x := x, z := z, ztype := "street" } : EnemyZone)]
            else zones)
          zones)
      []
  { st with spawnEnemies := enemyZones }

/-- `MapManager.markRectangleBlocked` / `markRectangleWalkable`: write
`val` into every grid cell of the clamped rectangle.  The double write
loop over `x ∈ [startX, endX]`, `z ∈ [startZ, endZ]` is modelled
pointwise on the linear index `z * gridWidth + x`. -/
def markRectangle (bounds : Bounds) (gridResolution : ℚ) (gridWidth gridHeight : ℕ)
    (minX minZ maxX maxZ : ℚ) (val : ℕ) (g : ℕ → ℕ) : ℕ → ℕ :=
  let startX : ℤ := max 0 ⌊(minX - bounds.minX) / gridResolution⌋
  let endX : ℤ := min ((gridWidth : ℤ) - 1) ⌈(maxX - bounds.minX) / gridResolution⌉
  let startZ : ℤ := max 0 ⌊(minZ - bounds.minZ) / gridResolution⌋
  let endZ : ℤ := min ((gridHeight : ℤ) - 1) ⌈(maxZ - bounds.minZ) / gridResolution⌉
  fun idx =>
    let gx : ℤ := (idx % gridWidth : ℕ)
    let gz : ℤ := (idx / gridWidth : ℕ)
    if startX ≤ gx ∧ gx ≤ endX ∧ startZ ≤ gz ∧ gz ≤ endZ then val else g idx

/-- `MapManager.buildCollisionGrid()` — rasterise buildings, overpass
pillars, large vehicles and dumpsters as blocked, then re-open door-sized
gaps for non-barricaded interiors.  `gridResolution` is the constructor
constant `0.5`. -/
def buildCollisionGrid (area : AreaDef) (st : GenState) : ℕ × ℕ × (ℕ → ℕ) :=
  let bounds := area.bounds
  let gridResolution : ℚ := 0.5
  let gridWidth := (⌈(bounds.maxX - bounds.minX) / gridResolution⌉).toNat
  let gridHeight := (⌈(bounds.maxZ - bounds.minZ) / gridResolution⌉).toNat
  let mark := markRectangle bounds gridResolution gridWidth gridHeight
  let g : ℕ → ℕ := fun _ => 0
  let g := st.buildings.foldl
    (fun g building =>
      mark (building.position.x - building.dimensions.width / 2)
           (building.position.z - building.dimensions.depth / 2)
           (building.position.x + building.dimensions.width / 2)
           (building.position.z + building.dimensions.depth / 2) 1 g)
    g
  let g := st.overpasses.foldl
    (fun g overpass =>
      overpass.pillars.foldl
        (fun g pillar =>
          mark (pillar.position.x - 1) (pillar.position.z - 1)
               (pillar.position.x + 1) (pillar.position.z + 1) 1 g)
        g)
    g
  let g := st.props.foldl
    (fun g prop =>
      if prop.ptype == "vehicle" then
        let size : ℚ := if prop.subtype == some "bus" then 5
                        else if prop.subtype == some "truck" then 3 else 2
        mark (prop.position.x - size) (prop.position.z - 1.5)
             (prop.position.x + size) (prop.position.z + 1.5) 1 g
      else if prop.ptype == "dumpster" then
        mark (prop.position.x - 1.5) (prop.position.z - 1)
             (prop.position.x + 1.5) (prop.position.z + 1) 1 g
      else g)
    g
  let g := st.interiors.foldl
    (fun g interior =>
      if !interior.door.barricaded then
        mark (interior.door.position.x - 1) (interior.door.position.z - 1)
             (interior.door.position.x + 1) (interior.door.position.z + 1) 0 g
      else g)
    g
  (gridWidth, gridHeight, g)

/-- `MapManager.generate()` — the full pipeline in source order, starting
from a fresh `SeededRandom(seed)` and a fresh `PerlinNoise(seed)`. -/
def MapManager.generate (M : MathOps) (area : AreaDef) (seed : ℕ) : MapData :=
  let perm := PerlinNoise.mkPermutation seed
  let st : GenState := { rng := Rng.mk0 seed }
  let st := generateRoadNetwork area st
  let st := generateCityBlocks area st
  let st := generateBuildings area st
  let st := generateOverpasses area st
  let st := generateBarrelFires area st
  let st := generateProps M perm area st
  let st := generateLootContainers area st
  let st := generateObjectives area st
  let st := calculateSpawnPoints M area st
  let (gridWidth, gridHeight, grid) := buildCollisionGrid area st
  { roads := st.roads, sidewalks := st.sidewalks, blocks := st.blocks,
    buildings := st.buildings, interiors := st.interiors, props := st.props,
    lootContainers := st.lootContainers, barrelFires := st.barrelFires,
    overpasses := st.overpasses, spawnPlayers := st.spawnPlayers,
    spawnEnemies := st.spawnEnemies, objectives := st.objectives,
    gridWidth := gridWidth, gridHeight := gridHeight,
    gridResolution := 0.5, collisionGrid := grid }

/-- `MapManager.isBlocked(worldX, worldZ)` over a generated map:
out-of-bounds is blocked, otherwise the grid cell decides. -/
def mapIsBlocked (area : AreaDef) (m : MapData) (worldX worldZ : ℚ) : Bool :=
  let bounds := area.bounds
  if worldX < bounds.minX ∨ worldX > bounds.maxX ∨
     worldZ < bounds.minZ ∨ worldZ > bounds.maxZ then true
  else
    let gridX : ℤ := ⌊(worldX - bounds.minX) / m.gridResolution⌋
    let gridZ : ℤ := ⌊(worldZ - bounds.minZ) / m.gridResolution⌋
    if gridX < 0 ∨ gridX ≥ (m.gridWidth : ℤ) ∨ gridZ < 0 ∨ gridZ ≥ (m.gridHeight : ℤ) then
      true
    else
      m.collisionGrid (gridZ.toNat * m.gridWidth + gridX.toNat) == 1

/-- `MapManager.loadAreaDefinition(areaId)` — only Skid Row is
implemented; every other id falls back to it. -/
def loadAreaDefinition (areaId : String) : AreaDef :=
  if areaId == "skid_row" then skidRowArea else skidRowArea

/-- Claim C1: for every fixed seed S and area definition A, two
independent runs of `MapManager.generate` with (S, A) produce structurally
identical map data — the same entity collections (roads, buildings,
interiors, props, loot containers, objectives, spawn points) with the same
counts, positions and types, and byte-identical collision grids.  The two
runs are two evaluations of the embedded generator, each starting from its
own freshly constructed `SeededRandom(S)` and `PerlinNoise(S)`; the only
ambient inputs are the `Math` library functions `M`, which are fixed
deterministic functions of the host. -/
theorem generate_is_deterministic (M : MathOps) (area : AreaDef) (seed : ℕ) :
    let run1 := MapManager.generate M area seed
    let run2 := MapManager.generate M area seed
    run1.roads = run2.roads ∧
    run1.sidewalks = run2.sidewalks ∧
    run1.blocks = run2.blocks ∧
    run1.buildings = run2.buildings ∧
    run1.interiors = run2.interiors ∧
    run1.props = run2.props ∧
    run1.lootContainers = run2.lootContainers ∧
    run1.barrelFires = run2.barrelFires ∧
    run1.overpasses = run2.overpasses ∧
    run1.objectives = run2.objectives ∧
    run1.spawnPlayers = run2.spawnPlayers ∧
    run1.spawnEnemies = run2.spawnEnemies ∧
    run1.gridWidth = run2.gridWidth ∧
    run1.gridHeight = run2.gridHeight ∧
    ∀ idx : ℕ, run1.collisionGrid idx = run2.collisionGrid idx :=
  ⟨rfl, rfl, rfl, rfl, rfl, rfl, rfl, rfl, rfl, rfl, rfl, rfl, rfl, rfl,
   fun _ => rfl⟩

/-! ## CollisionSystem.js -/

namespace CollisionSystem

/-- `this.playerRadius`. -/
def playerRadius : ℚ := 0.4

/-- `this.enemyRadius`. -/
def enemyRadius : ℚ := 0.5

/-- `this.slideSmoothing`. -/
def slideSmoothing : ℚ := 0.8

/-- `CollisionSystem.isWalkable(x, z)` — the negation of
`mapManager.isBlocked`. -/
def isWalkable (area : AreaDef) (m : MapData) (x z : ℚ) : Bool :=
  !(mapIsBlocked area m x z)

/-- The `(cos angle, sin angle)` pairs for the eight circle-check angles
`0, π/4, π/2, …, 7π/4` of `isCircleWalkable`.  The diagonal entries stand
for the IEEE-754 values of `Math.cos`/`Math.sin` (which differ from these
rationals by less than `10⁻¹⁵`); no verified statement depends on the
exact values of these offsets. -/
def circleAngleOffsets : List (ℚ × ℚ) :=
  [(1, 0), (0.7071067811865476, 0.7071067811865476), (0, 1),
   (-0.7071067811865476, 0.7071067811865476), (-1, 0),
   (-0.7071067811865476, -0.7071067811865476), (0, -1),
   (0.7071067811865476, -0.7071067811865476)]

/-- `CollisionSystem.isCircleWalkable(x, z, radius)` — the centre and
eight points around the circle must all be walkable. -/
def isCircleWalkable (area : AreaDef) (m : MapData) (x z radius : ℚ) : Bool :=
  isWalkable area m x z &&
  circleAngleOffsets.all (fun cs =>
    isWalkable area m (x + cs.1 * radius) (z + cs.2 * radius))

/-- The four shrinking slide fractions of an axis block of
`moveWithCollision`: `currentC + d * slideSmoothing * (1 - i*0.2)` for
`i = 1..4`. -/
def slideCandidates (cur d : ℚ) : List ℚ :=
  ([1, 2, 3, 4] : List ℚ).map (fun i => cur + d * slideSmoothing * (1 - i * 0.2))

/-- One axis block of `moveWithCollision` (the X block with
`walk := isCircleWalkable (·, currentZ)`, then the Z block with
`walk := isCircleWalkable (newX, ·)`): try the full axis move, then the
four slide fractions, else keep the current coordinate. -/
def resolveAxis (walk : ℚ → Bool) (cur d : ℚ) : ℚ :=
  if |d| > 0.001 then
    if walk (cur + d) then cur + d
    else ((slideCandidates cur d).find? walk).getD cur
  else cur

/-- The eight fallback probe directions of `moveWithCollision`. -/
def moveDirections : List (ℚ × ℚ) :=
  [(1, 0), (-1, 0), (0, 1), (0, -1), (0.7, 0.7), (-0.7, 0.7),
   (0.7, -0.7), (-0.7, -0.7)]

/-- The final fallback of `moveWithCollision`: probe the eight directions
at `moveLen` and return the first walkable position, if any. -/
def probeDirections (walk2 : ℚ → ℚ → Bool) (currentX currentZ moveLen : ℚ) :
    Option P2 :=
  moveDirections.findSome? (fun dir =>
    let tryX := currentX + dir.1 * moveLen
    let tryZ := currentZ + dir.2 * moveLen
    if walk2 tryX tryZ then some ⟨tryX, tryZ⟩ else none)

/-- `CollisionSystem.moveWithCollision(currentX, currentZ, desiredX,
desiredZ, radius)` — full move, then per-axis wall sliding, then the
eight directional probes at half the move length, else stay. -/
def moveWithCollision (M : MathOps) (area : AreaDef) (m : MapData)
    (currentX currentZ desiredX desiredZ radius : ℚ) : P2 :=
  let dx := desiredX - currentX
  let dz := desiredZ - currentZ
  if |dx| < 0.001 ∧ |dz| < 0.001 then ⟨currentX, currentZ⟩
  else if isCircleWalkable area m desiredX desiredZ radius then
    ⟨desiredX, desiredZ⟩
  else
    let newX := resolveAxis (fun x => isCircleWalkable area m x currentZ radius)
                  currentX dx
    let newZ := resolveAxis (fun z => isCircleWalkable area m newX z radius)
                  currentZ dz
    if !(isCircleWalkable area m newX newZ radius) then
      let moveLen := M.sqrtQ (dx * dx + dz * dz) * 0.5
      match probeDirections (fun x z => isCircleWalkable area m x z radius)
              currentX currentZ moveLen with
      | some p => p
      | none => ⟨currentX, currentZ⟩
    else ⟨newX, newZ⟩

/-- `CollisionSystem.movePlayer(currentPos, desiredPos)` — resolve with
the player radius, preserving the current height. -/
def movePlayer (M : MathOps) (area : AreaDef) (m : MapData)
    (currentPos desiredPos : P3) : P3 :=
  let result := moveWithCollision M area m currentPos.x currentPos.z
    desiredPos.x desiredPos.z playerRadius
  ⟨result.x, currentPos.y, result.z⟩

/-- `CollisionSystem.moveEnemy(currentPos, desiredPos)` — resolve with the
enemy radius, preserving the current height. -/
def moveEnemy (M : MathOps) (area : AreaDef) (m : MapData)
    (currentPos desiredPos : P3) : P3 :=
  let result := moveWithCollision M area m currentPos.x currentPos.z
    desiredPos.x desiredPos.z enemyRadius
  ⟨result.x, currentPos.y, result.z⟩

/-- `CollisionSystem.hasLineOfSight(x1, z1, x2, z2)` — sample the open
segment at grid resolution; a blocked sample breaks sight, and a segment
shorter than 0.1 trivially succeeds. -/
def hasLineOfSight (M : MathOps) (area : AreaDef) (m : MapData)
    (x1 z1 x2 z2 : ℚ) : Bool :=
  let dx := x2 - x1
  let dz := z2 - z1
  let dist := M.sqrtQ (dx * dx + dz * dz)
  if dist < 0.1 then true
  else
    let steps : ℤ := ⌈dist / m.gridResolution⌉
    let stepX := dx / (steps : ℚ)
    let stepZ := dz / (steps : ℚ)
    (List.range (steps.toNat - 1)).all (fun k =>
      let i : ℚ := (k : ℚ) + 1
      isWalkable area m (x1 + stepX * i) (z1 + stepZ * i))

/-- `CollisionSystem.isInInterior(x, z)` — the first interior whose bounds
contain the point, if any. -/
def isInInterior (m : MapData) (x z : ℚ) : Option Interior :=
  m.interiors.find? (fun interior =>
    decide (x ≥ interior.bounds.minX) && decide (x ≤ interior.bounds.maxX) &&
    decide (z ≥ interior.bounds.minZ) && decide (z ≤ interior.bounds.maxZ))

/-- `CollisionSystem.getNearbyBarrelFire(x, z)` — the first barrel fire
within its warmth radius, with the distance and the warmth factor
`1 - dist/warmthRadius`. -/
def getNearbyBarrelFire (M : MathOps) (m : MapData) (x z : ℚ) :
    Option (BarrelFire × ℚ × ℚ) :=
  m.barrelFires.findSome? (fun fire =>
    let dx := fire.position.x - x
    let dz := fire.position.z - z
    let dist := M.sqrtQ (dx * dx + dz * dz)
    if dist ≤ fire.warmthRadius then
      some (fire, dist, 1 - dist / fire.warmthRadius)
    else none)

/-- `CollisionSystem.clampToMap(x, z)`. -/
def clampToMap (area : AreaDef) (x z : ℚ) : P2 :=
  ⟨max (area.bounds.minX + 1) (min (area.bounds.maxX - 1) x),
   max (area.bounds.minZ + 1) (min (area.bounds.maxZ - 1) z)⟩

/-- The fallback positions `moveWithCollision` probes when every stage
fails: the full move, the axis moves and slide fractions of each active
axis (evaluated against the unchanged coordinate of the other axis, which
is what the source checks when both axes fail), and the eight directional
probes at half the move length. -/
def moveProbeSet (M : MathOps) (currentX currentZ desiredX desiredZ : ℚ) :
    List (ℚ × ℚ) :=
  let dx := desiredX - currentX
  let dz := desiredZ - currentZ
  let moveLen := M.sqrtQ (dx * dx + dz * dz) * 0.5
  (desiredX, desiredZ) ::
  ((if |dx| > 0.001 then
      (currentX + dx, currentZ) ::
        (slideCandidates currentX dx).map (fun t => (t, currentZ))
    else []) ++
   (if |dz| > 0.001 then
      (currentX, currentZ + dz) ::
        (slideCandidates currentZ dz).map (fun t => (currentX, t))
    else []) ++
   moveDirections.map (fun dir =>
     (currentX + dir.1 * moveLen, currentZ + dir.2 * moveLen)))

/-- An axis block leaves the coordinate unchanged or lands on a position
its walkability callback accepted. -/
theorem resolveAxis_cases (walk : ℚ → Bool) (cur d : ℚ) :
    resolveAxis walk cur d = cur ∨ walk (resolveAxis walk cur d) = true := by
  unfold resolveAxis
  split
  · split
    · right; assumption
    · cases hfind : (slideCandidates cur d).find? walk with
      | none => left; simp [hfind]
      | some t => right; simpa [hfind] using List.find?_some hfind
  · left; rfl

/-- Helper for `resolveAxis_stay`: the slide fractions of an active axis
never coincide with the current coordinate. -/
theorem slideCandidates_ne_cur (cur d t : ℚ) (hdne : d ≠ 0)
    (ht : t ∈ slideCandidates cur d) : t ≠ cur := by
  simp only [slideCandidates, slideSmoothing, List.mem_map] at ht
  obtain ⟨i, hi, hti⟩ := ht
  intro hcur
  rw [hcur] at hti
  have hd0 : d = 0 := by fin_cases hi <;> linarith
  exact hdne hd0

/-- If an active axis block (`|d| > 0.001`) returns the unchanged
coordinate, the full axis move and every slide fraction failed its
walkability check. -/
theorem resolveAxis_stay (walk : ℚ → Bool) (cur d : ℚ)
    (hd : |d| > 0.001) (h : resolveAxis walk cur d = cur) :
    walk (cur + d) = false ∧ ∀ t ∈ slideCandidates cur d, walk t = false := by
  have hdne : d ≠ 0 := by
    intro h0; rw [h0] at hd; simp at hd; linarith
  unfold resolveAxis at h
  rw [if_pos hd] at h
  by_cases hw : walk (cur + d) = true
  · rw [if_pos hw] at h
    have hd0 : d = 0 := by linarith
    exact absurd hd0 hdne
  · have hwf : walk (cur + d) = false := by
      cases hww : walk (cur + d) with
      | true => exact absurd hww hw
      | false => rfl
    rw [if_neg hw] at h
    refine ⟨hwf, ?_⟩
    cases hfind : (slideCandidates cur d).find? walk with
    | none =>
      intro t ht
      have := List.find?_eq_none.mp hfind t ht
      cases hwt : walk t with
      | true => exact absurd hwt this
      | false => rfl
    | some t =>
      rw [hfind] at h
      simp only [Option.getD_some] at h
      have hmem := List.mem_of_find?_eq_some hfind
      exact absurd h (slideCandidates_ne_cur cur d t hdne hmem)

/-- An empty probe pass means every directional probe failed. -/
theorem probeDirections_none (walk2 : ℚ → ℚ → Bool) (cx cz ml : ℚ)
    (h : probeDirections walk2 cx cz ml = none) :
    ∀ dir ∈ moveDirections, walk2 (cx + dir.1 * ml) (cz + dir.2 * ml) = false := by
  intro dir hdir
  unfold probeDirections at h
  have := List.findSome?_eq_none_iff.mp h dir hdir
  by_cases hw : walk2 (cx + dir.1 * ml) (cz + dir.2 * ml) = true
  · simp [hw] at this
  · cases hww : walk2 (cx + dir.1 * ml) (cz + dir.2 * ml) with
    | true => exact absurd hww hw
    | false => rfl

/-- A successful probe pass returns a position its callback accepted. -/
theorem probeDirections_some (walk2 : ℚ → ℚ → Bool) (cx cz ml : ℚ) (p : P2)
    (h : probeDirections walk2 cx cz ml = some p) : walk2 p.x p.z = true := by
  unfold probeDirections at h
  obtain ⟨dir, _, hdir⟩ := List.exists_of_findSome?_eq_some h
  by_cases hw : walk2 (cx + dir.1 * ml) (cz + dir.2 * ml) = true
  · rw [if_pos hw] at hdir
    cases hdir; simpa using hw
  · rw [if_neg hw] at hdir
    cases hdir

/-- When both axis deltas are below the 0.001 dead zone,
`moveWithCollision` returns the start position with no walkability check. -/
theorem moveWithCollision_deadzone (M : MathOps) (area : AreaDef) (m : MapData)
    (curX curZ desX desZ radius : ℚ)
    (h : |desX - curX| < 0.001 ∧ |desZ - curZ| < 0.001) :
    moveWithCollision M area m curX curZ desX desZ radius = ⟨curX, curZ⟩ := by
  have expand : moveWithCollision M area m curX curZ desX desZ radius =
      (if |desX - curX| < 0.001 ∧ |desZ - curZ| < 0.001 then (⟨curX, curZ⟩ : P2)
       else moveWithCollision M area m curX curZ desX desZ radius) := by
    by_cases hc : |desX - curX| < 0.001 ∧ |desZ - curZ| < 0.001
    · rw [if_pos hc]
      show (if |desX - curX| < 0.001 ∧ |desZ - curZ| < 0.001 then (⟨curX, curZ⟩ : P2)
            else _) = _
      rw [if_pos hc]
    · rw [if_neg hc]
  rw [expand, if_pos h]

/-- With radius 0 every circle-check point coincides with the centre, so
`isCircleWalkable` collapses to `isWalkable`. -/
theorem isCircleWalkable_radius_zero (area : AreaDef) (m : MapData) (x z : ℚ) :
    isCircleWalkable area m x z 0 = isWalkable area m x z := by
  unfold isCircleWalkable
  simp [circleAngleOffsets]

/-- Claim C2 (amended): outside the `0.001` dead zone on both axes,
`moveWithCollision` returns a position that `isCircleWalkable` accepts, or
returns the unchanged start position in a state where the start itself is
not circle-walkable and every fallback position of its probe set (full
move, axis moves and slide fractions, eight directional probes) fails
`isCircleWalkable`; inside the dead zone it returns the start position
unconditionally, with no walkability check. -/
theorem moveWithCollision_safe (M : MathOps) (area : AreaDef) (m : MapData)
    (curX curZ desX desZ radius : ℚ) :
    (|desX - curX| < 0.001 ∧ |desZ - curZ| < 0.001 →
      moveWithCollision M area m curX curZ desX desZ radius = ⟨curX, curZ⟩) ∧
    (¬(|desX - curX| < 0.001 ∧ |desZ - curZ| < 0.001) →
      (isCircleWalkable area m
        (moveWithCollision M area m curX curZ desX desZ radius).x
        (moveWithCollision M area m curX curZ desX desZ radius).z radius = true) ∨
      (moveWithCollision M area m curX curZ desX desZ radius = ⟨curX, curZ⟩ ∧
       isCircleWalkable area m curX curZ radius = false ∧
       ∀ p ∈ moveProbeSet M curX curZ desX desZ,
         isCircleWalkable area m p.1 p.2 radius = false)) := by
  have expand : moveWithCollision M area m curX curZ desX desZ radius =
      (if |desX - curX| < 0.001 ∧ |desZ - curZ| < 0.001 then (⟨curX, curZ⟩ : P2)
       else if isCircleWalkable area m desX desZ radius then ⟨desX, desZ⟩
       else
         (fun newX =>
           (fun newZ =>
             if !(isCircleWalkable area m newX newZ radius) then
               match probeDirections (fun x z => isCircleWalkable area m x z radius)
                   curX curZ
                   (M.sqrtQ ((desX - curX) * (desX - curX) +
                     (desZ - curZ) * (desZ - curZ)) * 0.5) with
               | some p => p
               | none => ⟨curX, curZ⟩
             else ⟨newX, newZ⟩)
            (resolveAxis (fun z => isCircleWalkable area m newX z radius)
              curZ (desZ - curZ)))
          (resolveAxis (fun x => isCircleWalkable area m x curZ radius)
            curX (desX - curX))) := rfl
  constructor
  · intro hdead
    rw [expand, if_pos hdead]
  · intro hdead
    rw [expand, if_neg hdead]
    by_cases hfull : isCircleWalkable area m desX desZ radius = true
    · rw [if_pos hfull]
      left; exact hfull
    · rw [if_neg hfull]
      have hfullf : isCircleWalkable area m desX desZ radius = false := by
        cases hf : isCircleWalkable area m desX desZ radius with
        | true => exact absurd hf hfull
        | false => rfl
      simp only []
      set wX : ℚ → Bool := fun x => isCircleWalkable area m x curZ radius with hwX
      set newX := resolveAxis wX curX (desX - curX) with hnewX
      set wZ : ℚ → Bool := fun z => isCircleWalkable area m newX z radius with hwZ
      set newZ := resolveAxis wZ curZ (desZ - curZ) with hnewZ
      by_cases hc : isCircleWalkable area m newX newZ radius = true
      · rw [hc]
        simp only [Bool.not_true, Bool.false_eq_true, if_false]
        left; exact hc
      · have hcf : isCircleWalkable area m newX newZ radius = false := by
          cases hcc : isCircleWalkable area m newX newZ radius with
          | true => exact absurd hcc hc
          | false => rfl
        rw [hcf]
        simp only [Bool.not_false, if_true]
        -- both axis blocks necessarily stayed
        have hZstay : newZ = curZ := by
          rcases resolveAxis_cases wZ curZ (desZ - curZ) with h | h
          · exact h
          · exact absurd h hc
        have hXstay : newX = curX := by
          rcases resolveAxis_cases wX curX (desX - curX) with h | h
          · exact h
          · exfalso; apply hc; rw [hZstay]; exact h
        have hcurf : isCircleWalkable area m curX curZ radius = false := by
          rw [hXstay, hZstay] at hcf; exact hcf
        cases hprobe : probeDirections
            (fun x z => isCircleWalkable area m x z radius) curX curZ
            (M.sqrtQ ((desX - curX) * (desX - curX) +
              (desZ - curZ) * (desZ - curZ)) * 0.5) with
        | some p =>
          simp only [hprobe]
          left
          exact probeDirections_some _ _ _ _ _ hprobe
        | none =>
          simp only [hprobe]
          right
          refine ⟨trivial, hcurf, ?_⟩
          intro p hp
          simp only [moveProbeSet, List.mem_cons, List.mem_append, List.mem_map] at hp
          rcases hp with hp | hp
          · rw [hp]; exact hfullf
          rcases hp with (hp | hp) | hp
          · -- X axis candidates
            by_cases hdxa : |desX - curX| > 0.001
            · rw [if_pos hdxa] at hp
              have hxfail := resolveAxis_stay wX curX (desX - curX) hdxa hXstay
              simp only [List.mem_cons, List.mem_map] at hp
              rcases hp with hp | ⟨t, ht, hpt⟩
              · rw [hp]; exact hxfail.1
              · rw [← hpt]; exact hxfail.2 t ht
            · rw [if_neg hdxa] at hp
              cases hp
          · -- Z axis candidates
            by_cases hdza : |desZ - curZ| > 0.001
            · rw [if_pos hdza] at hp
              have hzfail := resolveAxis_stay wZ curZ (desZ - curZ) hdza hZstay
              simp only [List.mem_cons, List.mem_map] at hp
              rcases hp with hp | ⟨t, ht, hpt⟩
              · rw [hp]
                have h1 : isCircleWalkable area m newX (curZ + (desZ - curZ)) radius
                    = false := hzfail.1
                rw [hXstay] at h1
                exact h1
              · rw [← hpt]
                have h1 : isCircleWalkable area m newX t radius = false :=
                  hzfail.2 t ht
                rw [hXstay] at h1
                exact h1
            · rw [if_neg hdza] at hp
              cases hp
          · -- directional probes
            obtain ⟨dir, hdir, hpd⟩ := hp
            have := probeDirections_none _ _ _ _ hprobe dir hdir
            rw [← hpd]; exact this

end CollisionSystem

/-- A minimal collision environment for concrete movement checks: a
1 × 0.5 world of two cells at resolution 0.5, the left cell blocked, the
right cell free. -/
def c2Map : MapData :=
  { roads := [], sidewalks := [], blocks := [], buildings := [], interiors := [],
    props := [], lootContainers := [], barrelFires := [], overpasses := [],
    spawnPlayers := [], spawnEnemies := [], objectives := [],
    gridWidth := 2, gridHeight := 1, gridResolution := 0.5,
    collisionGrid := fun idx => if idx = 0 then 1 else 0 }

/-- An area definition whose every generation quota is zero: no roads, no
blocks (the minimum block size exceeds the map), no overpasses, fires,
props or loot.  Used as a small concrete configuration for collision
checks and for degenerate-generation counterexamples. -/
def baseArea (bounds : Bounds) (zone : Bounds) : AreaDef :=
  { id := "", name := ""
    bounds := bounds
    theme := ⟨0, 0⟩
    roads := { main := { width := 0, count := ⟨0, 0⟩ }, sidewalkWidth := 0,
               alleys := ⟨0⟩ }
    blocks := { minSize := 1000000, buildingDensity := 0, innerCourtyard := 0 }
    buildings := { types := [], windows := ⟨1, 0, 0, 0⟩, doors := ⟨0, 0⟩ }
    overpasses := { count := ⟨0, 0⟩, height := 0, width := 0, pillarSpacing := 1 }
    props :=
      { trash := ⟨0, []⟩
        barrelFires := { count := ⟨0, 0⟩, nearWalls := false, warmthRadius := 0,
                         lightRadius := 0, lightIntensity := 0, lightColor := 0 }
        shelters := ⟨⟨0, 0⟩, []⟩
        vehicles := ⟨⟨0, 0⟩, [], 0⟩
        streetFurniture := ⟨1⟩
        glassZones := ⟨⟨0, 0⟩, 0⟩ }
    lootContainers := { types := [], interiorMultiplier := 0, tables := [],
                        count := ⟨0, 0⟩ }
    interiors := { warmthBonus := 0, layouts := [] }
    spawns := { players := ⟨zone⟩, enemies := ⟨0⟩ }
    objectives := { primary := { items := [], escapeZone := ⟨0⟩ } } }

/-- The area bounds that go with `c2Map`. -/
def c2Area : AreaDef := baseArea ⟨0, 1, 0, 0.5⟩ ⟨0, 1, 0, 0.5⟩

/-- Claim C2 counterexample: with the start position on a blocked cell and
the desired position 0.0008 away on a walkable cell (radius 0),
`moveWithCollision` hits its sub-0.001 dead zone and returns the start
position, which `isCircleWalkable` rejects, even though the full-move
fallback position of its probe set is walkable. -/
theorem moveWithCollision_deadzone_counterexample :
    CollisionSystem.moveWithCollision zeroMath c2Area c2Map 0.4995 0.25 0.5003 0.25 0
      = ⟨0.4995, 0.25⟩ ∧
    CollisionSystem.isCircleWalkable c2Area c2Map 0.4995 0.25 0 = false ∧
    CollisionSystem.isCircleWalkable c2Area c2Map 0.5003 0.25 0 = true ∧
    (0.5003, 0.25) ∈ CollisionSystem.moveProbeSet zeroMath 0.4995 0.25 0.5003 0.25 := by
  refine ⟨?_, ?_, ?_, ?_⟩
  · exact CollisionSystem.moveWithCollision_deadzone zeroMath c2Area c2Map
      0.4995 0.25 0.5003 0.25 0
      ⟨by with_unfolding_all decide, by with_unfolding_all decide⟩
  · rw [CollisionSystem.isCircleWalkable_radius_zero]
    with_unfolding_all decide
  · rw [CollisionSystem.isCircleWalkable_radius_zero]
    with_unfolding_all decide
  · simp only [CollisionSystem.moveProbeSet]
    exact List.mem_cons_self _ _

/-- Witness for `moveWithCollision_safe` at a concrete input outside the
dead zone. -/
theorem moveWithCollision_safe_witness :
    (CollisionSystem.isCircleWalkable c2Area c2Map
      (CollisionSystem.moveWithCollision zeroMath c2Area c2Map 0 0 1 0 0).x
      (CollisionSystem.moveWithCollision zeroMath c2Area c2Map 0 0 1 0 0).z 0 = true) ∨
    (CollisionSystem.moveWithCollision zeroMath c2Area c2Map 0 0 1 0 0
       = ⟨0, 0⟩ ∧
     CollisionSystem.isCircleWalkable c2Area c2Map 0 0 0 = false ∧
     ∀ p ∈ CollisionSystem.moveProbeSet zeroMath 0 0 1 0,
       CollisionSystem.isCircleWalkable c2Area c2Map p.1 p.2 0 = false) :=
  (CollisionSystem.moveWithCollision_safe zeroMath c2Area c2Map 0 0 1 0 0).2
    (by with_unfolding_all decide)

/-! ## PathfindingWorker.js — the A* search -/

/-- The collision payload the pathfinding worker is initialised with
(`mapManager.getCollisionData()`). -/
structure AStarGrid where
  grid : ℕ → ℕ
  width : ℕ
  height : ℕ
  resolution : ℚ
  bounds : Bounds

namespace AStar

/-- `AStar.worldToGrid(worldX, worldZ)`. -/
def worldToGrid (g : AStarGrid) (worldX worldZ : ℚ) : ℤ × ℤ :=
  (⌊(worldX - g.bounds.minX) / g.resolution⌋,
   ⌊(worldZ - g.bounds.minZ) / g.resolution⌋)

/-- `AStar.gridToWorld(gridX, gridZ)`. -/
def gridToWorld (g : AStarGrid) (gridX gridZ : ℤ) : P2 :=
  ⟨g.bounds.minX + ((gridX : ℚ) + 0.5) * g.resolution,
   g.bounds.minZ + ((gridZ : ℚ) + 0.5) * g.resolution⟩

/-- `AStar.isWalkable(gridX, gridZ)` — in bounds and a zero grid byte. -/
def isWalkable (g : AStarGrid) (gridX gridZ : ℤ) : Bool :=
  if gridX < 0 ∨ gridX ≥ (g.width : ℤ) ∨ gridZ < 0 ∨ gridZ ≥ (g.height : ℤ) then
    false
  else g.grid (gridZ.toNat * g.width + gridX.toNat) == 0

/-- `AStar.heuristic(ax, az, bx, bz)` — Euclidean distance. -/
noncomputable def heuristic (ax az bx bz : ℤ) : ℝ :=
  Real.sqrt ((((bx - ax : ℤ) : ℝ)) * ((bx - ax : ℤ) : ℝ) +
             (((bz - az : ℤ) : ℝ)) * ((bz - az : ℤ) : ℝ))

/-- The eight step directions of `getNeighbors`, with their costs: the
cardinal steps cost `1`, the diagonal steps cost the literal `1.414`. -/
def directions : List (ℤ × ℤ × ℚ) :=
  [(0, -1, 1), (1, 0, 1), (0, 1, 1), (-1, 0, 1),
   (1, -1, 1.414), (1, 1, 1.414), (-1, 1, 1.414), (-1, -1, 1.414)]

/-- `AStar.getNeighbors(x, z)` — walkable 8-neighbours; a diagonal
neighbour is dropped when either adjacent cardinal cell is blocked (no
corner cutting). -/
def getNeighbors (g : AStarGrid) (x z : ℤ) : List (ℤ × ℤ × ℚ) :=
  directions.filterMap (fun dir =>
    if isWalkable g (x + dir.1) (z + dir.2.1) then
      if dir.1 ≠ 0 ∧ dir.2.1 ≠ 0 then
        if !(isWalkable g (x + dir.1) z) || !(isWalkable g x (z + dir.2.1)) then
          none
        else some (x + dir.1, z + dir.2.1, dir.2.2)
      else some (x + dir.1, z + dir.2.1, dir.2.2)
    else none)

/-- An entry of the open set: a cell and its f-score. -/
structure OpenNode where
  x : ℤ
  z : ℤ
  f : ℝ

/-- The mutable search state of one `findPath` run. -/
structure SearchState where
  openSet : List OpenNode
  closedSet : List (ℤ × ℤ)
  gScore : List ((ℤ × ℤ) × ℝ)
  fScore : List ((ℤ × ℤ) × ℝ)
  cameFrom : List ((ℤ × ℤ) × (ℤ × ℤ))

/-- `AStar.findNearbyWalkable(x, z, maxRadius)` — scan rings of Chebyshev
radius `1..maxRadius`, `dx` then `dz` ascending, for the first walkable
cell. -/
def findNearbyWalkable (g : AStarGrid) (x z : ℤ) (maxRadius : ℕ := 10) :
    Option (ℤ × ℤ) :=
  ((List.range maxRadius).map (fun k => (k + 1 : ℤ))).findSome? (fun r =>
    ((List.range (2 * r.toNat + 1)).map (fun k => -r + (k : ℤ))).findSome? (fun dx =>
      ((List.range (2 * r.toNat + 1)).map (fun k => -r + (k : ℤ))).findSome? (fun dz =>
        if |dx| = r ∨ |dz| = r then
          if isWalkable g (x + dx) (z + dz) then some (x + dx, z + dz) else none
        else none)))

/-- `AStar.reconstructPath` (before simplification): follow `cameFrom`
from the goal back to the start, collecting world positions.  The fuel
bounds the walk (the source's `while` with its `if (!current) break`). -/
def reconstructPathAux (g : AStarGrid)
    (cameFrom : List ((ℤ × ℤ) × (ℤ × ℤ))) :
    ℕ → (ℤ × ℤ) → (ℤ × ℤ) → List P2 → List P2
  | 0, _, _, acc => acc
  | fuel + 1, current, start, acc =>
    if current = start then acc
    else
      let acc' := gridToWorld g current.1 current.2 :: acc
      match cameFrom.lookup current with
      | none => acc'
      | some prev => reconstructPathAux g cameFrom fuel prev start acc'

/-- `AStar.simplifyPath(path)` — drop interior waypoints whose incoming
and outgoing unit directions have dot product at least 0.95. -/
noncomputable def simplifyPath (path : List P2) : List P2 :=
  if path.length ≤ 2 then path
  else
    let simplified := (List.range (path.length - 2)).foldl
      (fun simplified k =>
        let i := k + 1
        let prev := simplified.getLastD ⟨0, 0⟩
        let curr := path.getD i ⟨0, 0⟩
        let next := path.getD (i + 1) ⟨0, 0⟩
        let d1x : ℝ := (curr.x : ℚ) - prev.x
        let d1z : ℝ := (curr.z : ℚ) - prev.z
        let d2x : ℝ := (next.x : ℚ) - curr.x
        let d2z : ℝ := (next.z : ℚ) - curr.z
        let len1 := Real.sqrt (d1x * d1x + d1z * d1z)
        let len2 := Real.sqrt (d2x * d2x + d2z * d2z)
        if len1 > 0 ∧ len2 > 0 then
          let dot := (d1x / len1) * (d2x / len2) + (d1z / len1) * (d2z / len2)
          if dot < 0.95 then simplified ++ [curr] else simplified
        else simplified)
      [path.headD ⟨0, 0⟩]
    simplified ++ [path.getLastD ⟨0, 0⟩]

/-- `AStar.reconstructPath(goal, start)` — backtrack then simplify. -/
noncomputable def reconstructPath (g : AStarGrid)
    (cameFrom : List ((ℤ × ℤ) × (ℤ × ℤ))) (goal start : ℤ × ℤ) : List P2 :=
  simplifyPath (reconstructPathAux g cameFrom (cameFrom.length + 1) goal start [])

open Classical in
/-- One neighbour-relaxation step of the main loop (the body of the
`for (const neighbor of ...)` loop).  `(gScore.get(k) || Infinity)`
treats both a missing and a zero g-score as infinity, as the JS `||`
does. -/
noncomputable def relaxNeighbor (current : OpenNode) (goal : ℤ × ℤ)
    (st : SearchState) (neighbor : ℤ × ℤ × ℚ) : SearchState :=
  let neighborKey := (neighbor.1, neighbor.2.1)
  if st.closedSet.contains neighborKey then st
  else
    let currentKey := (current.x, current.z)
    let tentativeG : ℝ := (st.gScore.lookup currentKey).getD 0 + (neighbor.2.2 : ℝ)
    let inOpenSet := st.openSet.any (fun n =>
      decide (n.x = neighbor.1) && decide (n.z = neighbor.2.1))
    let gOld := st.gScore.lookup neighborKey
    let better : Prop := match gOld with
      | none => True
      | some v => if v = 0 then True else tentativeG < v
    if ¬inOpenSet ∨ better then
      let f := tentativeG + heuristic neighbor.1 neighbor.2.1 goal.1 goal.2
      { openSet := if inOpenSet then st.openSet
                   else st.openSet ++ [⟨neighbor.1, neighbor.2.1, f⟩]
        closedSet := st.closedSet
        gScore := (neighborKey, tentativeG) :: st.gScore
        fScore := (neighborKey, f) :: st.fScore
        cameFrom := (neighborKey, currentKey) :: st.cameFrom }
    else st

/-- The main `while` loop of `AStar.findPath`, with `fuel` the remaining
iterations of the 2000-expansion cap: when the cap is exhausted (or the
open set runs dry) the result is `none` — "no path" — rather than
continuing.  The open set is kept sorted by f-score with a stable
comparison sort, modelling `openSet.sort((a, b) => a.f - b.f)` followed
by `shift()`. -/
noncomputable def findPathLoop (g : AStarGrid) (goal : ℤ × ℤ) :
    ℕ → SearchState → Option (List P2)
  | 0, _ => none
  | fuel + 1, st =>
    match st.openSet.insertionSort (fun a b => a.f ≤ b.f) with
    | [] => none
    | current :: rest =>
      if current.x = goal.1 ∧ current.z = goal.2 then
        some (reconstructPath g st.cameFrom (current.x, current.z) goal)
      else
        let st' : SearchState :=
          { st with openSet := rest,
                    closedSet := (current.x, current.z) :: st.closedSet }
        let st'' := (getNeighbors g current.x current.z).foldl
          (relaxNeighbor current goal) st'
        findPathLoop g goal fuel st''

/-- The default iteration cap of `AStar.findPath` (`maxIterations = 2000`). -/
def maxIterationsDefault : ℕ := 2000

/-- `AStar.findPath(startWorld, goalWorld, maxIterations = 2000)`:
convert to grid cells, snap blocked endpoints to nearby walkable cells
(failing the request if none exists), seed the scores and run the capped
loop. -/
noncomputable def findPath (g : AStarGrid) (startWorld goalWorld : P2)
    (maxIterations : ℕ := maxIterationsDefault) : Option (List P2) :=
  let start0 := worldToGrid g startWorld.x startWorld.z
  let goal0 := worldToGrid g goalWorld.x goalWorld.z
  let startOpt := if isWalkable g start0.1 start0.2 then some start0
                  else findNearbyWalkable g start0.1 start0.2
  let goalOpt := if isWalkable g goal0.1 goal0.2 then some goal0
                 else findNearbyWalkable g goal0.1 goal0.2
  match startOpt, goalOpt with
  | none, _ => none
  | some _, none => none
  | some start, some goal =>
    let f0 := heuristic start.1 start.2 goal.1 goal.2
    findPathLoop g goal maxIterations
      { openSet := [⟨start.1, start.2, f0⟩]
        closedSet := []
        gScore := [(start, 0)]
        fScore := [(start, f0)]
        cameFrom := [] }

/-- The reconstruction of the goal check: the loop returns on
`current.x === goal.x && current.z === goal.z`.  (Start/goal come from
the snapping above; this mirrors `reconstructPath(current, start)`.) -/
theorem findPathLoop_zero_fuel (g : AStarGrid) (goal : ℤ × ℤ)
    (st : SearchState) : findPathLoop g goal 0 st = none := rfl

/-- Full characterization of `getNeighbors`: a neighbour is an offset by
one of the eight directions carrying that direction's cost, its cell is
walkable, and a diagonal neighbour additionally has both adjacent
cardinal cells walkable. -/
theorem mem_getNeighbors_iff (g : AStarGrid) (x z nx nz : ℤ) (c : ℚ) :
    (nx, nz, c) ∈ getNeighbors g x z ↔
      ∃ d ∈ directions, nx = x + d.1 ∧ nz = z + d.2.1 ∧ c = d.2.2 ∧
        isWalkable g nx nz = true ∧
        (d.1 ≠ 0 → d.2.1 ≠ 0 →
          isWalkable g (x + d.1) z = true ∧ isWalkable g x (z + d.2.1) = true) := by
  simp only [getNeighbors, List.mem_filterMap]
  constructor
  · rintro ⟨d, hd, hf⟩
    refine ⟨d, hd, ?_⟩
    by_cases h1 : isWalkable g (x + d.1) (z + d.2.1) = true
    · rw [if_pos h1] at hf
      by_cases h2 : d.1 ≠ 0 ∧ d.2.1 ≠ 0
      · rw [if_pos h2] at hf
        by_cases h3 : (!(isWalkable g (x + d.1) z) ||
            !(isWalkable g x (z + d.2.1))) = true
        · rw [if_pos h3] at hf; cases hf
        · rw [if_neg h3] at hf
          have heq := Option.some.inj hf
          have hx : x + d.1 = nx := congrArg Prod.fst heq
          have hz : z + d.2.1 = nz := congrArg (fun p => p.2.1) heq
          have hc : d.2.2 = c := congrArg (fun p => p.2.2) heq
          subst hx; subst hz; subst hc
          refine ⟨rfl, rfl, rfl, h1, fun _ _ => ?_⟩
          cases ha : isWalkable g (x + d.1) z with
          | false => exact absurd (by simp [ha]) h3
          | true =>
            cases hb : isWalkable g x (z + d.2.1) with
            | false => exact absurd (by simp [hb]) h3
            | true => exact ⟨rfl, rfl⟩
      · rw [if_neg h2] at hf
        have heq := Option.some.inj hf
        have hx : x + d.1 = nx := congrArg Prod.fst heq
        have hz : z + d.2.1 = nz := congrArg (fun p => p.2.1) heq
        have hc : d.2.2 = c := congrArg (fun p => p.2.2) heq
        subst hx; subst hz; subst hc
        exact ⟨rfl, rfl, rfl, h1, fun hdx hdz => absurd ⟨hdx, hdz⟩ h2⟩
    · rw [if_neg h1] at hf; cases hf
  · rintro ⟨d, hd, hnx, hnz, hc, hwalk, hcorner⟩
    refine ⟨d, hd, ?_⟩
    subst hnx; subst hnz; subst hc
    rw [if_pos hwalk]
    by_cases h2 : d.1 ≠ 0 ∧ d.2.1 ≠ 0
    · rw [if_pos h2]
      obtain ⟨ha, hb⟩ := hcorner h2.1 h2.2
      rw [ha, hb]
      simp
    · rw [if_neg h2]

/-- Claim C3 (amended): the A* search is 8-directional with cardinal step
cost `1.0` and diagonal step cost the literal `1.414` (an approximation
of √2, not √2 itself); a diagonal step is rejected unless both adjacent
cardinal cells are walkable; the heuristic is the Euclidean distance of
the two grid cells; the default expansion cap is 2000 iterations; and
when the cap is exhausted the search loop returns "no path" (`none`)
rather than continuing. -/
theorem astar_core_properties :
    (∀ (g : AStarGrid) (x z nx nz : ℤ) (c : ℚ),
      (nx, nz, c) ∈ getNeighbors g x z ↔
        ∃ d ∈ directions, nx = x + d.1 ∧ nz = z + d.2.1 ∧ c = d.2.2 ∧
          isWalkable g nx nz = true ∧
          (d.1 ≠ 0 → d.2.1 ≠ 0 →
            isWalkable g (x + d.1) z = true ∧
            isWalkable g x (z + d.2.1) = true)) ∧
    (∀ d ∈ directions,
      (d.1 = 0 ∨ d.2.1 = 0 → d.2.2 = 1) ∧
      (d.1 ≠ 0 → d.2.1 ≠ 0 → d.2.2 = 1.414)) ∧
    directions.length = 8 ∧
    (∀ ax az bx bz : ℤ, heuristic ax az bx bz =
      dist (Complex.mk (ax : ℝ) (az : ℝ)) (Complex.mk (bx : ℝ) (bz : ℝ))) ∧
    maxIterationsDefault = 2000 ∧
    (∀ (g : AStarGrid) (goal : ℤ × ℤ) (st : SearchState),
      findPathLoop g goal 0 st = none) := by
  refine ⟨mem_getNeighbors_iff, ?_, rfl, ?_, rfl, fun g goal st => rfl⟩
  · intro d hd
    fin_cases hd <;>
      exact ⟨by intro h; first | rfl | (rcases h with h | h <;> simp at h),
             by intro h1 h2
                first | rfl | exact absurd rfl h1 | exact absurd rfl h2⟩
  · intro ax az bx bz
    rw [Complex.dist_eq_re_im]
    unfold heuristic
    congr 1
    push_cast
    ring

/-- Claim C3 counterexample: the diagonal step cost constant of the A*
directions table is the literal `1.414`, which is not √2. -/
theorem astar_diag_cost_ne_sqrt2 :
    (directions.getD 4 (0, 0, 0)).2.2 = 1.414 ∧
    (((directions.getD 4 (0, 0, 0)).2.2 : ℚ) : ℝ) ≠ Real.sqrt 2 := by
  have hval : (directions.getD 4 (0, 0, 0)).2.2 = 1.414 := rfl
  refine ⟨hval, ?_⟩
  rw [hval]
  intro h
  have h2 : ((1.414 : ℚ) : ℝ) ^ 2 = 2 := by
    rw [h]
    exact Real.sq_sqrt (by norm_num)
  rw [show ((1.414 : ℚ) : ℝ) = (1.414 : ℝ) by norm_num] at h2
  norm_num at h2

/-- A 3 × 3 all-walkable grid for concrete A* neighbour checks. -/
def astarG1 : AStarGrid :=
  { grid := fun _ => 0, width := 3, height := 3, resolution := 0.5,
    bounds := ⟨0, 1.5, 0, 1.5⟩ }

/-- Witness for `astar_core_properties`: on a concrete all-walkable grid
the east neighbour of the origin is produced with cost 1. -/
theorem astar_core_properties_witness :
    (1, 0, (1 : ℚ)) ∈ getNeighbors astarG1 0 0 :=
  (astar_core_properties.1 astarG1 0 0 1 0 1).mpr
    ⟨(1, 0, 1), by with_unfolding_all decide, by with_unfolding_all decide,
     by with_unfolding_all decide, by with_unfolding_all decide,
     by with_unfolding_all decide,
     fun _ h => absurd rfl h⟩

end AStar

/-! ## GameState.js — constants and entity state -/

/-- One entry of `ENEMY_TYPES`.  Fields absent on an entry read as JS
`undefined`: `false` for the flags and `0` for the numbers, matching the
`|| 0` / `|| false` reads in `spawnEnemy`. -/
structure EnemyTypeDef where
  health : ℚ
  speed : ℚ
  damage : ℚ
  spawnWeight : ℚ
  headMultiplier : ℚ
  ranged : Bool := false
  throwCooldown : ℚ := 0
  throwRange : ℚ := 0
  isBoss : Bool := false
  deriving Repr, DecidableEq

/-- `ENEMY_TYPES`. -/
def ENEMY_TYPES : List (String × EnemyTypeDef) :=
  [ ("normal", { health := 30, speed := 0.04, damage := 8, spawnWeight := 50,
                 headMultiplier := 2 })
  , ("runner", { health := 15, speed := 0.075, damage := 6, spawnWeight := 25,
                 headMultiplier := 2.5 })
  , ("brute", { health := 90, speed := 0.025, damage := 16, spawnWeight := 15,
                headMultiplier := 1.5 })
  , ("thrower", { health := 22, speed := 0.035, damage := 15, spawnWeight := 10,
                  headMultiplier := 2, ranged := true, throwCooldown := 180,
                  throwRange := 20 })
  , ("boss", { health := 300, speed := 0.03, damage := 25, spawnWeight := 0,
               headMultiplier := 1.2, isBoss := true }) ]

/-- One entry of `WEAPON_STATS`. -/
structure WeaponStat where
  damage : ℚ
  wtype : String
  pellets : ℚ := 0
  deriving Repr, DecidableEq

/-- `WEAPON_STATS`. -/
def WEAPON_STATS : List (String × WeaponStat) :=
  [ ("knife", { damage := 35, wtype := "melee" })
  , ("bat", { damage := 50, wtype := "melee" })
  , ("pipe", { damage := 45, wtype := "melee" })
  , ("pistol", { damage := 25, wtype := "ranged" })
  , ("shotgun", { damage := 15, wtype := "ranged", pellets := 6 })
  , ("smg", { damage := 12, wtype := "ranged" })
  , ("rifle", { damage := 45, wtype := "ranged" }) ]

/-- One entry of `LEVEL_CONFIG`. -/
structure LevelCfg where
  name : String
  areaId : String
  maxEnemies : ℚ
  spawnRate : ℕ
  killsToAdvance : ℚ
  isMilestone : Bool
  deriving Repr, DecidableEq

/-- `LEVEL_CONFIG`. -/
def LEVEL_CONFIG : List LevelCfg :=
  [ ⟨"Skid Row", "skid_row", 12, 180, 15, false⟩
  , ⟨"The Tunnels", "the_tunnels", 15, 150, 35, false⟩
  , ⟨"Industrial Wasteland", "industrial_wasteland", 18, 120, 60, true⟩
  , ⟨"The Camps", "the_camps", 20, 100, 90, false⟩
  , ⟨"Downtown Ruins", "downtown_ruins", 25, 80, 130, false⟩
  , ⟨"The Depths", "the_depths", 30, 60, 999, true⟩ ]

/-- `PICKUP_TYPES.consumables`. -/
def PICKUP_CONSUMABLES : List String := ["food", "medicine", "ammo", "blanket", "water"]

/-- `PICKUP_TYPES.weapons`. -/
def PICKUP_WEAPONS : List String := ["pistol", "shotgun", "smg", "rifle", "bat", "pipe"]

/-- A generated enemy identity (cosmetic). -/
structure Identity where
  firstName : String
  lastName : String
  fullName : String
  gender : String
  age : ℚ
  netWorth : ℚ
  deriving Repr, DecidableEq

/-- The mutable per-player record of `GameState`. -/
structure Player where
  id : String
  name : String
  position : P3
  yaw : ℚ := 0
  pitch : ℚ := 0
  health : ℚ
  maxHealth : ℚ
  hunger : ℚ
  warmth : ℚ
  energy : ℚ
  ammo : ℚ
  score : ℚ
  kills : ℚ
  headshots : ℚ
  damageDealt : ℚ
  revives : ℚ
  alive : Bool
  isDowned : Bool
  downedTimer : ℚ
  weapons : List (Option String)
  activeSlot : ℕ
  perks : List String
  color : ℚ
  isInsideBuilding : Bool
  currentInterior : Option String := none
  deriving Repr, DecidableEq

/-- The player literal of the `GameState` constructor. -/
def initPlayer (id name : String) (position : P3) (color : ℚ) : Player :=
  { id := id, name := name, position := position,
    health := 100, maxHealth := 100, hunger := 100, warmth := 100,
    energy := 100, ammo := 30, score := 0, kills := 0, headshots := 0,
    damageDealt := 0, revives := 0, alive := true, isDowned := false,
    downedTimer := 0, weapons := [some "knife", none], activeSlot := 0,
    perks := [], color := color, isInsideBuilding := false }

/-- The mutable per-enemy record of `GameState`. -/
structure Enemy where
  id : String
  etype : String
  identity : Identity
  position : P3
  rotation : ℚ
  health : ℚ
  maxHealth : ℚ
  speed : ℚ
  damage : ℚ
  headMultiplier : ℚ
  attackCooldown : ℚ
  throwCooldown : ℚ
  ranged : Bool
  throwRange : ℚ
  isBoss : Bool
  aggroed : Bool
  targetPlayerId : Option String
  pathfindingState : String
  patrolTarget : Option P2
  lastPathRequest : ℚ
  stuckTimer : ℚ
  deriving Repr, DecidableEq

/-- A live bullet. -/
structure Bullet where
  id : String
  ownerId : String
  weapon : String
  damage : ℚ
  position : P3
  velocity : P3
  createdAt : ℚ
  deriving Repr, DecidableEq

/-- A live enemy projectile. -/
structure Projectile where
  id : String
  ownerId : String
  position : P3
  velocity : P3
  damage : ℚ
  createdAt : ℚ
  deriving Repr, DecidableEq

/-- A floating pickup. -/
structure Pickup where
  id : String
  ptype : String
  position : P3
  rotation : ℚ
  deriving Repr, DecidableEq

/-- One chat-log entry (player chat, system message, or kill message). -/
structure ChatMessage where
  id : String
  mtype : String
  timestamp : ℚ
  text : String
  playerId : Option String := none
  playerName : Option String := none
  playerColor : Option ℚ := none
  killer : Option String := none
  victim : Option Identity := none
  weapon : Option String := none
  isHeadshot : Option Bool := none
  deriving Repr, DecidableEq

/-- The mutable flag record of one collectible objective item. -/
structure ObjItemState where
  collected : Bool
  collectedBy : Option String
  deriving Repr, DecidableEq

/-- The mutable flag record of one loot container. -/
structure LootState where
  looted : Bool
  loot : Option String
  deriving Repr, DecidableEq

/-- The mutable flag record of one glass zone. -/
structure GlassState where
  broken : Bool
  deriving Repr, DecidableEq

/-- JS `Map.get`. -/
def alGet {α : Type} (l : List (String × α)) (k : String) : Option α :=
  (l.find? (fun kv => kv.1 == k)).map (fun kv => kv.2)

/-- JS `Map.set` — replace in place when the key exists, else append. -/
def alSet {α : Type} (l : List (String × α)) (k : String) (v : α) :
    List (String × α) :=
  if l.any (fun kv => kv.1 == k) then
    l.map (fun kv => if kv.1 == k then (k, v) else kv)
  else l ++ [(k, v)]

/-- JS `Map.delete`. -/
def alDelete {α : Type} (l : List (String × α)) (k : String) :
    List (String × α) :=
  l.filter (fun kv => !(kv.1 == k))

/-- The ambient effects of the game-state layer: `Math.random()` and
`uuidv4()` draws indexed by a consumption cursor, and `Date.now()`. -/
structure Oracle where
  rand : ℕ → ℚ
  uuid : ℕ → String
  nowMs : ℚ

/-- The mutable state of one `GameState` instance (constructor fields). -/
structure GState where
  area : AreaDef
  map : MapData
  mapRng : Rng
  level : ℕ
  totalKills : ℚ
  frameCount : ℕ
  playerCount : ℕ
  difficultyMult : ℚ
  players : List (String × Player)
  enemies : List (String × Enemy)
  bullets : List (String × Bullet)
  projectiles : List (String × Projectile)
  pickups : List (String × Pickup)
  chatMessages : List ChatMessage
  bossSpawned : Bool
  bossKilled : Bool
  objItems : List (String × ObjItemState)
  escapeActive : Bool
  glassZones : List (String × GlassState)
  lootContainers : List (String × LootState)
  pathCache : List String
  effCursor : ℕ

/-- Consume one `Math.random()` draw. -/
def drawRand (o : Oracle) (w : GState) : ℚ × GState :=
  (o.rand w.effCursor, { w with effCursor := w.effCursor + 1 })

/-- Consume one `uuidv4()`. -/
def drawUuid (o : Oracle) (w : GState) : String × GState :=
  (o.uuid w.effCursor, { w with effCursor := w.effCursor + 1 })

/-- `GameState.getLevelConfig()`. -/
def getLevelConfig (w : GState) : LevelCfg :=
  LEVEL_CONFIG.getD (min (w.level - 1) (LEVEL_CONFIG.length - 1))
    ⟨"", "", 0, 1, 0, false⟩

/-! ## GameState.js — operations -/

/-- `Number.prototype.toFixed(2)` for the cosmetic net-worth rendering of
kill messages (round half away from zero is irrelevant here: inputs are
non-negative). -/
def qToFixed2 (q : ℚ) : String :=
  let cents : ℤ := ⌊q * 100 + 1 / 2⌋
  let whole := cents / 100
  let frac := (cents % 100).toNat
  toString whole ++ "." ++ (if frac < 10 then "0" else "") ++ toString frac

/-- The core of `handlePlayerDamage` acting on one player record: apply
the defence perk, subtract health, and clamp to the downed state at 0.
Dead or already-downed players are untouched. -/
def playerApplyDamage (p : Player) (damage : ℚ) : Player :=
  if !p.alive || p.isDowned then p
  else
    let damage := if p.perks.contains "defense_boost" then damage * 0.85 else damage
    let h := p.health - damage
    if h ≤ 0 then { p with health := 0, isDowned := true, downedTimer := 900 }
    else { p with health := h }

/-- The result object of `handlePlayerDamage`. -/
structure DamageResult where
  damage : ℚ
  health : ℚ
  isDowned : Bool
  sourcePosition : P3
  sourceType : String
  deriving Repr, DecidableEq

/-- `GameState.handlePlayerDamage(playerId, damage, sourcePosition,
sourceType)` — `null` (and no state change) for a missing, dead or downed
player. -/
def handlePlayerDamage (w : GState) (playerId : String) (damage : ℚ)
    (sourcePosition : P3) (sourceType : String) : Option DamageResult × GState :=
  match alGet w.players playerId with
  | none => (none, w)
  | some player =>
    if !player.alive || player.isDowned then (none, w)
    else
      let dmg := if player.perks.contains "defense_boost" then damage * 0.85
                 else damage
      let player' := playerApplyDamage player damage
      (some ⟨dmg, player'.health, player'.isDowned, sourcePosition, sourceType⟩,
       { w with players := alSet w.players playerId player' })

/-- `GameState.revivePlayer(reviverId, targetId)` — requires an existing
live reviver and an existing downed target; otherwise `false` with no
state change. -/
def revivePlayer (w : GState) (reviverId targetId : String) : Bool × GState :=
  match alGet w.players reviverId, alGet w.players targetId with
  | some reviver, some target =>
    if !reviver.alive || !target.isDowned then (false, w)
    else
      let players1 := alSet w.players targetId
        ({ target with isDowned := false, health := 30, downedTimer := 0 })
      match alGet players1 reviverId with
      | none => (true, { w with players := players1 })
      | some r =>
        let players2 := alSet players1 reviverId
          ({ r with revives := r.revives + 1, score := r.score + 100 })
        (true, { w with players := players2 })
  | _, _ => (false, w)

/-- The per-player body of `updateDownedPlayers`: tick a downed player's
countdown; on expiry the player dies (`alive := false`). -/
def downedStep (p : Player) : Player :=
  if !p.isDowned then p
  else
    let p := { p with downedTimer := p.downedTimer - 1 }
    if p.downedTimer ≤ 0 then { p with alive := false, isDowned := false }
    else p

/-- `GameState.updateDownedPlayers()`. -/
def updateDownedPlayers (w : GState) : GState :=
  { w with players := w.players.map (fun kv => (kv.1, downedStep kv.2)) }

/-- The `length > 50 → slice(-50)` truncation every chat appender runs. -/
def truncChat (l : List ChatMessage) : List ChatMessage :=
  if l.length > 50 then l.drop (l.length - 50) else l

/-- `GameState.addChatMessage(playerId, text)`. -/
def addChatMessage (o : Oracle) (w : GState) (playerId text : String) :
    Option ChatMessage × GState :=
  match alGet w.players playerId with
  | none => (none, w)
  | some player =>
    if text = "" ∨ text.trim.length = 0 then (none, w)
    else
      let (mid, w) := drawUuid o w
      let message : ChatMessage :=
        { id := mid, mtype := "chat", timestamp := o.nowMs,
          playerId := some playerId, playerName := some player.name,
          playerColor := some player.color,
          text := (text.trim).take 200 }
      (some message,
       { w with chatMessages := truncChat (w.chatMessages ++ [message]) })

/-- `GameState.addSystemMessage(text)`. -/
def addSystemMessage (o : Oracle) (w : GState) (text : String) :
    ChatMessage × GState :=
  let (mid, w) := drawUuid o w
  let message : ChatMessage :=
    { id := mid, mtype := "system", timestamp := o.nowMs, text := text }
  (message, { w with chatMessages := truncChat (w.chatMessages ++ [message]) })

/-- `GameState.handleEnemyDeath(enemyId, killerId, weapon, isHeadshot)` —
score and kill bookkeeping, the kill-feed message (with its 50-entry
truncation), boss tracking, path-cache cleanup, enemy removal, and the
20% pickup drop. -/
def handleEnemyDeath (o : Oracle) (w : GState)
    (enemyId killerId weapon : String) (isHeadshot : Bool) : GState :=
  match alGet w.enemies enemyId with
  | none => w
  | some enemy =>
    let killer := alGet w.players killerId
    let w :=
      match killer with
      | some k =>
        let baseScore : ℚ := if enemy.isBoss then 500 else 50
        let headshotBonus : ℚ := if isHeadshot then 25 else 0
        let k' := { k with score := k.score + baseScore + headshotBonus,
                            kills := k.kills + 1 }
        { w with players := alSet w.players killerId k' }
      | none => w
    let w := { w with totalKills := w.totalKills + 1 }
    let killerName := match killer with
                      | some k => k.name
                      | none => "Unknown"
    let (mid, w) := drawUuid o w
    let killMessage : ChatMessage :=
      { id := mid, mtype := "kill", timestamp := o.nowMs,
        text := enemy.identity.fullName ++ ", Age " ++
          toString enemy.identity.age ++ ", net worth $" ++
          qToFixed2 enemy.identity.netWorth ++ " - Killed by " ++ killerName ++
          (if isHeadshot then " (HEADSHOT)" else ""),
        killer := some killerName, victim := some enemy.identity,
        weapon := some weapon, isHeadshot := some isHeadshot }
    let w := { w with chatMessages := truncChat (w.chatMessages ++ [killMessage]) }
    let w := if enemy.isBoss then { w with bossKilled := true } else w
    let w := { w with pathCache := w.pathCache.filter (fun e => !(e == enemyId)) }
    let w := { w with enemies := alDelete w.enemies enemyId }
    let (r1, w) := drawRand o w
    if r1 < 0.2 then
      let (pickupId, w) := drawUuid o w
      let (r2, w) := drawRand o w
      let (r3, w) := drawRand o w
      let ptype :=
        if r2 < 0.3 then
          PICKUP_WEAPONS.getD (⌊r3 * (PICKUP_WEAPONS.length : ℚ)⌋).toNat ""
        else
          PICKUP_CONSUMABLES.getD (⌊r3 * (PICKUP_CONSUMABLES.length : ℚ)⌋).toNat ""
      let pk : Pickup := { id := pickupId, ptype := ptype,
                           position := ⟨enemy.position.x, 0.5, enemy.position.z⟩,
                           rotation := 0 }
      { w with pickups := alSet w.pickups pickupId pk }
    else w

/-- The result object of `handleBulletHit`. -/
structure HitResult where
  damage : ℚ
  isHeadshot : Bool
  killed : Bool
  position : P3
  deriving Repr, DecidableEq

/-- `GameState.handleBulletHit(bulletId, enemyId, isHeadshot)` — headshot
multiplier (`enemy.headMultiplier || 2`), optional headshot perk, damage
application, bullet removal, and death handling on `health <= 0`. -/
def handleBulletHit (o : Oracle) (w : GState) (bulletId enemyId : String)
    (isHeadshot : Bool) : Option HitResult × GState :=
  match alGet w.bullets bulletId, alGet w.enemies enemyId with
  | some bullet, some enemy =>
    let player := alGet w.players bullet.ownerId
    let damage := bullet.damage
    let damage :=
      if isHeadshot then
        let hm := if enemy.headMultiplier = 0 then 2 else enemy.headMultiplier
        let damage := damage * hm
        match player with
        | some p =>
          if p.perks.contains "headshot_boost" then damage * 1.25 else damage
        | none => damage
      else damage
    let w :=
      match player with
      | some p =>
        let p' := { p with
                    headshots := if isHeadshot then p.headshots + 1
                                 else p.headshots,
                    damageDealt := p.damageDealt + damage }
        { w with players := alSet w.players bullet.ownerId p' }
      | none => w
    let enemy' := { enemy with health := enemy.health - damage }
    let w := { w with enemies := alSet w.enemies enemyId enemy' }
    let w := { w with bullets := alDelete w.bullets bulletId }
    let w := if enemy'.health ≤ (0 : ℚ) then
               handleEnemyDeath o w enemyId bullet.ownerId bullet.weapon isHeadshot
             else w
    (some ⟨damage, isHeadshot, decide (enemy'.health ≤ (0 : ℚ)), enemy.position⟩, w)
  | _, _ => (none, w)

/-- One hit entry returned by `handleMeleeAttack`. -/
structure MeleeHit where
  enemyId : String
  damage : ℚ
  isHeadshot : Bool
  position : P3
  deriving Repr, DecidableEq

/-- The per-enemy body of `handleMeleeAttack`: range plus ~70° cone check
(`dot > 0.3`); a hit subtracts the damage and may trigger death
handling. -/
def meleeStep (M : MathOps) (o : Oracle) (playerId : String) (position : P3)
    (dirX dirZ : ℚ) (weapon : String) (damage range : ℚ)
    (acc : List MeleeHit × GState) (enemyId : String) : List MeleeHit × GState :=
  let (hits, w) := acc
  match alGet w.enemies enemyId with
  | none => (hits, w)
  | some enemy =>
    let dx := enemy.position.x - position.x
    let dz := enemy.position.z - position.z
    let dist := M.sqrtQ (dx * dx + dz * dz)
    if dist > range then (hits, w)
    else
      let dot := dirX * (dx / dist) + dirZ * (dz / dist)
      if dot > 0.3 then
        let actualDamage := damage
        let enemy' := { enemy with health := enemy.health - actualDamage }
        let w1 := { w with enemies := alSet w.enemies enemyId enemy' }
        let w2 :=
          match alGet w.players playerId with
          | some p =>
            let p' := { p with damageDealt := p.damageDealt + actualDamage }
            { w1 with players := alSet w1.players playerId p' }
          | none => w1
        let hits := hits ++
          [⟨enemyId, actualDamage, false, enemy.position⟩]
        let w3 := if enemy'.health ≤ (0 : ℚ) then
                    handleEnemyDeath o w2 enemyId playerId weapon false
                  else w2
        (hits, w3)
      else (hits, w)

/-- `GameState.handleMeleeAttack(playerId, position, direction, weapon,
damage, range)` — the per-enemy check applied over a snapshot of the
enemy-id list. -/
def handleMeleeAttack (M : MathOps) (o : Oracle) (w : GState)
    (playerId : String) (position : P3) (dirX dirZ : ℚ)
    (weapon : String) (damage range : ℚ) : List MeleeHit × GState :=
  match alGet w.players playerId with
  | none => ([], w)
  | some _ =>
    (w.enemies.map Prod.fst).foldl
      (meleeStep M o playerId position dirX dirZ weapon damage range) ([], w)

/-- `GameState.updateObjectives()` — activate the escape zone (once) when
every objective item is collected, posting a system message. -/
def updateObjectives (o : Oracle) (w : GState) : GState :=
  let allCollected := w.objItems.all (fun kv => kv.2.collected)
  if allCollected ∧ ¬w.escapeActive then
    let w := { w with escapeActive := true }
    (addSystemMessage o w
      "Escape vehicle is ready! Get to the extraction point!").2
  else w

/-- `GameState.collectObjective(playerId, objectiveId)` — `false` for an
unknown or already-collected item; otherwise mark it collected by the
(unvalidated) acting player id and post a system message. -/
def collectObjective (o : Oracle) (w : GState) (playerId objectiveId : String) :
    Bool × GState :=
  match alGet w.objItems objectiveId with
  | none => (false, w)
  | some itemState =>
    if itemState.collected then (false, w)
    else
      let st' : ObjItemState := { collected := true, collectedBy := some playerId }
      let w := { w with objItems := alSet w.objItems objectiveId st' }
      let playerName := match alGet w.players playerId with
                        | some p => p.name
                        | none => "Unknown"
      let objInfo := w.map.objectives.find? (fun obj => obj.id == objectiveId)
      let itemName := ((objInfo.map (fun obj => obj.name)).join).getD "Objective Item"
      let w := (addSystemMessage o w
        (playerName ++ " collected " ++ itemName ++ "!")).2
      (true, w)

/-- `GameState.lootContainer(playerId, containerId)` — `null` for an
unknown or already-looted container; otherwise mark it looted (the acting
player id is never validated), spawn the loot pickup at the container and
return the loot type, or `null` for an empty container. -/
def lootContainer (o : Oracle) (w : GState) (_playerId containerId : String) :
    Option String × GState :=
  match alGet w.lootContainers containerId with
  | none => (none, w)
  | some container =>
    if container.looted then (none, w)
    else
      let c' := { container with looted := true }
      let w := { w with lootContainers := alSet w.lootContainers containerId c' }
      match container.loot with
      | some loot =>
        match w.map.lootContainers.find? (fun c => c.id == containerId) with
        | some containerData =>
          let (pickupId, w) := drawUuid o w
          let pk : Pickup :=
            { id := pickupId, ptype := loot,
              position := ⟨containerData.position.x, 0.5, containerData.position.z⟩,
              rotation := 0 }
          (some loot, { w with pickups := alSet w.pickups pickupId pk })
        | none => (none, w)
      | none => (none, w)

/-- `GameState.breakGlass(glassId)`. -/
def breakGlass (w : GState) (glassId : String) : Bool × GState :=
  match alGet w.glassZones glassId with
  | some glass =>
    if !glass.broken then
      (true, { w with glassZones := alSet w.glassZones glassId ⟨true⟩ })
    else (false, w)
  | none => (false, w)

/-- The `stats` part of an inbound input message. -/
structure StatsInput where
  energy : Option ℚ
  deriving Repr, DecidableEq

/-- An inbound player input message. -/
structure InputMsg where
  position : Option P3
  rotation : Option (ℚ × ℚ)
  stats : Option StatsInput
  deriving Repr, DecidableEq

/-- `GameState.handlePlayerInput(playerId, input)` — collision-resolved
movement clamped to map bounds (`input.position.y || player.position.y`
keeps the old height for a zero/absent incoming height), interior
detection, rotation update, and the unclamped client-supplied energy. -/
def handlePlayerInput (M : MathOps) (w : GState) (playerId : String)
    (input : InputMsg) : GState :=
  match alGet w.players playerId with
  | none => w
  | some player =>
    if !player.alive then w
    else
      let player :=
        match input.position with
        | none => player
        | some dp =>
          let newPos := CollisionSystem.movePlayer M w.area w.map player.position dp
          let clamped := CollisionSystem.clampToMap w.area newPos.x newPos.z
          let y := if dp.y = 0 then player.position.y else dp.y
          let pos : P3 := ⟨clamped.x, y, clamped.z⟩
          let interior := CollisionSystem.isInInterior w.map pos.x pos.z
          { player with position := pos,
                        isInsideBuilding := interior.isSome,
                        currentInterior := interior.map (fun i => i.id) }
      let player :=
        match input.rotation with
        | none => player
        | some r => { player with yaw := r.1, pitch := r.2 }
      let player :=
        match input.stats with
        | none => player
        | some s =>
          match s.energy with
          | none => player
          | some e => { player with energy := e }
      { w with players := alSet w.players playerId player }

/-- The hunger block of one player's `GameState.updatePlayerStats()` pass:
hunger decay with starvation damage. -/
def statsHungerStep (frameCount : ℕ) (p : Player) : Player :=
  let hungerRate : ℕ := if p.perks.contains "hunger_boost" then 150 else 120
  if frameCount % hungerRate = 0 then
    let p := { p with hunger := max 0 (p.hunger - 1) }
    if p.hunger ≤ 0 ∧ !p.isDowned then playerApplyDamage p 2 else p
  else p

/-- The warmth block of one player's `updatePlayerStats` pass: gain near a
barrel fire, slowed decay indoors, decay with cold damage outdoors. -/
def statsWarmthStep (M : MathOps) (m : MapData) (frameCount : ℕ)
    (p : Player) : Player :=
  let warmthRate : ℕ := if p.perks.contains "warmth_boost" then 140 else 100
  match CollisionSystem.getNearbyBarrelFire M m p.position.x p.position.z with
  | some fireInfo =>
    if frameCount % 60 = 0 then
      { p with warmth := min 100 (p.warmth + 2 * fireInfo.2.2) }
    else p
  | none =>
    if p.isInsideBuilding then
      if frameCount % (warmthRate * 3 / 2) = 0 then
        { p with warmth := max 0 (p.warmth - 1) }
      else p
    else
      if frameCount % warmthRate = 0 then
        let p := { p with warmth := max 0 (p.warmth - 1) }
        if p.warmth ≤ 20 ∧ !p.isDowned then playerApplyDamage p 1 else p
      else p

/-- The energy block of one player's `updatePlayerStats` pass. -/
def statsEnergyStep (frameCount : ℕ) (p : Player) : Player :=
  if frameCount % 60 = 0 then { p with energy := min 100 (p.energy + 0.5) }
  else p

/-- One player's pass of `GameState.updatePlayerStats()`: hunger decay
with starvation damage, warmth gain near barrel fires / slowed decay
indoors / decay with cold damage outdoors, and energy recovery.  The
indoor decay interval is `warmthRate * 1.5` (exactly `210` or `150`). -/
def updateOnePlayerStats (M : MathOps) (m : MapData) (frameCount : ℕ)
    (p : Player) : Player :=
  statsEnergyStep frameCount
    (statsWarmthStep M m frameCount (statsHungerStep frameCount p))

/-- `GameState.updatePlayerStats()` — apply the per-player pass to every
living player (the starvation/cold damage inside targets the same player
record, as `handlePlayerDamage(player.id, …)` does in the source). -/
def updatePlayerStats (M : MathOps) (w : GState) : GState :=
  { w with players := w.players.map (fun kv =>
      if !kv.2.alive then kv
      else (kv.1, updateOnePlayerStats M w.map w.frameCount kv.2)) }

/-- `FIRST_NAMES_MALE`. -/
def FIRST_NAMES_MALE : List String :=
  ["Thomas", "James", "Robert", "Michael", "William", "David", "Richard",
   "Joseph", "Charles", "Daniel", "Matthew", "Anthony", "Mark", "Donald",
   "Steven", "Paul", "Andrew", "Joshua", "Kenneth", "Kevin", "Brian",
   "George", "Timothy", "Ronald", "Edward", "Jason", "Jeffrey", "Ryan",
   "Jacob", "Gary", "Nicholas", "Eric", "Jonathan", "Stephen", "Larry",
   "Justin", "Scott", "Brandon", "Benjamin", "Samuel", "Raymond", "Gregory",
   "Frank", "Alexander", "Patrick", "Jack", "Dennis", "Jerry", "Tyler",
   "Aaron", "Jose", "Adam", "Nathan", "Henry", "Douglas", "Zachary",
   "Peter", "Kyle", "Noah", "Ethan"]

/-- `FIRST_NAMES_FEMALE`. -/
def FIRST_NAMES_FEMALE : List String :=
  ["Mary", "Patricia", "Jennifer", "Linda", "Barbara", "Elizabeth", "Susan",
   "Jessica", "Sarah", "Karen", "Lisa", "Nancy", "Betty", "Margaret",
   "Sandra", "Ashley", "Kimberly", "Emily", "Donna", "Michelle", "Dorothy",
   "Carol", "Amanda", "Melissa", "Deborah", "Stephanie", "Rebecca", "Sharon",
   "Laura", "Cynthia", "Kathleen", "Amy", "Angela", "Shirley", "Anna",
   "Brenda", "Pamela", "Emma", "Nicole", "Helen", "Samantha", "Katherine",
   "Christine", "Debra", "Rachel", "Carolyn", "Janet", "Catherine", "Maria",
   "Heather", "Diane", "Ruth", "Julie", "Olivia", "Joyce", "Virginia",
   "Victoria", "Kelly", "Lauren", "Christina"]

/-- `LAST_NAMES`. -/
def LAST_NAMES : List String :=
  ["Smith", "Johnson", "Williams", "Brown", "Jones", "Garcia", "Miller",
   "Davis", "Rodriguez", "Martinez", "Hernandez", "Lopez", "Gonzalez",
   "Wilson", "Anderson", "Thomas", "Taylor", "Moore", "Jackson", "Martin",
   "Lee", "Perez", "Thompson", "White", "Harris", "Sanchez", "Clark",
   "Ramirez", "Lewis", "Robinson", "Walker", "Young", "Allen", "King",
   "Wright", "Scott", "Torres", "Nguyen", "Hill", "Flores", "Green",
   "Adams", "Nelson", "Baker", "Hall", "Rivera", "Campbell", "Mitchell",
   "Carter", "Roberts", "Gomez", "Phillips", "Evans", "Turner", "Diaz",
   "Parker", "Cruz", "Edwards", "Collins", "Reyes", "Stewart", "Morris",
   "Morales", "Murphy", "Cook", "Rogers", "Gutierrez", "Ortiz", "Morgan",
   "Cooper", "Peterson", "Bailey", "Reed", "Kelly", "Howard", "Ramos",
   "Kim", "Cox", "Ward", "Richardson"]

/-- `GameState.generateEnemyIdentity()` — five `Math.random()` draws. -/
def generateEnemyIdentity (o : Oracle) (w : GState) : Identity × GState :=
  let (r1, w) := drawRand o w
  let isMale := decide (r1 > 0.5)
  let (r2, w) := drawRand o w
  let firstName :=
    if isMale then
      FIRST_NAMES_MALE.getD (⌊r2 * (FIRST_NAMES_MALE.length : ℚ)⌋).toNat ""
    else
      FIRST_NAMES_FEMALE.getD (⌊r2 * (FIRST_NAMES_FEMALE.length : ℚ)⌋).toNat ""
  let (r3, w) := drawRand o w
  let lastName := LAST_NAMES.getD (⌊r3 * (LAST_NAMES.length : ℚ)⌋).toNat ""
  let (r4, w) := drawRand o w
  let age : ℚ := 18 + (⌊r4 * 55⌋ : ℤ)
  let (r5, w) := drawRand o w
  let netWorth : ℚ := ((⌊r5 * 10 * 100 + 1 / 2⌋ : ℤ) : ℚ) / 100
  ({ firstName := firstName, lastName := lastName,
     fullName := firstName ++ " " ++ lastName,
     gender := if isMale then "Male" else "Female",
     age := age, netWorth := netWorth }, w)

/-- `GameState.selectEnemyType()` — level-adjusted weights, one draw, a
cumulative scan over the entry order.  (The source's shallow spread
`{...ENEMY_TYPES}` shares and permanently mutates the nested type
records; the adjusted weights are modelled per call, which coincides with
the source until a level-1 call has run.) -/
def selectEnemyType (o : Oracle) (w : GState) : String × GState :=
  let adjust : String → EnemyTypeDef → ℚ := fun n t =>
    if w.level < 2 then
      if n == "runner" ∨ n == "brute" ∨ n == "thrower" then 0 else t.spawnWeight
    else if w.level < 3 then
      if n == "brute" ∨ n == "thrower" then 5 else t.spawnWeight
    else t.spawnWeight
  let weights := ENEMY_TYPES.map (fun nt => (nt.1, adjust nt.1 nt.2))
  let totalWeight := weights.foldl (fun s nt => s + nt.2) 0
  let (r, w) := drawRand o w
  let rec scan : List (String × ℚ) → ℚ → Option String
    | [], _ => none
    | (n, wt) :: rest, acc =>
      if acc - wt ≤ 0 then some n else scan rest (acc - wt)
  ((scan weights (r * totalWeight)).getD "normal", w)

/-- `MapManager.getEnemySpawnPosition(playerPositions, minDist, maxDist)`
— up to 20 attempts drawing a jittered point of a random enemy zone from
the map's own PRNG stream, accepted when every alive player is between
`minDist` and `maxDist` away and the point is not blocked. -/
def getEnemySpawnPosition (M : MathOps) (w : GState)
    (playerPositions : List P3) (minDist maxDist : ℚ) :
    ℕ → Option P2 × GState
  | 0 => (none, w)
  | fuel + 1 =>
    if w.map.spawnEnemies.isEmpty then (none, w)
    else
      let (zoneOpt, rng) := w.mapRng.pick w.map.spawnEnemies
      match zoneOpt with
      | none => (none, { w with mapRng := rng })
      | some zone =>
        let (ox, rng) := rng.float (-8) 8
        let (oz, rng) := rng.float (-8) 8
        let position : P2 := ⟨zone.x + ox, zone.z + oz⟩
        let w := { w with mapRng := rng }
        let validDist := playerPositions.all (fun pp =>
          let dist := M.sqrtQ ((position.x - pp.x) * (position.x - pp.x) +
            (position.z - pp.z) * (position.z - pp.z))
          !(decide (dist < minDist) || decide (dist > maxDist)))
        if validDist && !(mapIsBlocked w.area w.map position.x position.z) then
          (some position, w)
        else getEnemySpawnPosition M w playerPositions minDist maxDist fuel

/-- `GameState.spawnEnemy(forceType)` — type selection, identity, spawn
position (with the circular fallback), level-scaled stats and the ±10%
speed jitter. -/
def spawnEnemy (M : MathOps) (o : Oracle) (w : GState)
    (forceType : Option String := none) : String × GState :=
  let (etype, w) :=
    match forceType with
    | some t => (t, w)
    | none => selectEnemyType o w
  let typeData := (alGet ENEMY_TYPES etype).getD
    { health := 0, speed := 0, damage := 0, spawnWeight := 0, headMultiplier := 0 }
  let (id, w) := drawUuid o w
  let (identity, w) := generateEnemyIdentity o w
  let playerPositions := (w.players.filter (fun kv => kv.2.alive)).map
    (fun kv => kv.2.position)
  let (spawnPosOpt, w) := getEnemySpawnPosition M w playerPositions 25 80 20
  let (spawnPos, w) :=
    match spawnPosOpt with
    | some p => (p, w)
    | none =>
      let (ra, w) := drawRand o w
      let angle := ra * jsPI * 2
      let (rd, w) := drawRand o w
      let dist := 30 + rd * 30
      ((⟨M.cosQ angle * dist, M.sinQ angle * dist⟩ : P2), w)
  let scaledHealth := typeData.health * (1 + ((w.level : ℚ) - 1) * 0.15)
  let (rs, w) := drawRand o w
  let enemy : Enemy :=
    { id := id, etype := etype, identity := identity,
      position := ⟨spawnPos.x, 0, spawnPos.z⟩, rotation := 0,
      health := scaledHealth, maxHealth := scaledHealth,
      speed := typeData.speed * (0.9 + rs * 0.2) * (1 + ((w.level : ℚ) - 1) * 0.05),
      damage := typeData.damage * (1 + ((w.level : ℚ) - 1) * 0.1),
      headMultiplier := typeData.headMultiplier,
      attackCooldown := 0, throwCooldown := typeData.throwCooldown,
      ranged := typeData.ranged, throwRange := typeData.throwRange,
      isBoss := typeData.isBoss, aggroed := false, targetPlayerId := none,
      pathfindingState := "idle", patrolTarget := none,
      lastPathRequest := 0, stuckTimer := 0 }
  (id, { w with enemies := alSet w.enemies id enemy })

/-- `GameState.createBullet(playerId, position, direction, weapon,
damage)` — the JS `damage || WEAPON_STATS[weapon]?.damage || 25` chain
treats 0/absent as missing. -/
def createBullet (o : Oracle) (w : GState) (playerId : String)
    (position direction : P3) (weapon : Option String) (damage : Option ℚ) :
    Option Bullet × GState :=
  match alGet w.players playerId with
  | none => (none, w)
  | some _ =>
    let (id, w) := drawUuid o w
    let weaponName := weapon.getD "pistol"
    let fallback : ℚ :=
      match (alGet WEAPON_STATS (weapon.getD "")).map (fun s => s.damage) with
      | some d => if d = 0 then 25 else d
      | none => 25
    let dmg : ℚ :=
      match damage with
      | some d => if d = 0 then fallback else d
      | none => fallback
    let bullet : Bullet :=
      { id := id, ownerId := playerId, weapon := weaponName, damage := dmg,
        position := position,
        velocity := ⟨direction.x * 1.5, direction.y * 1.5, direction.z * 1.5⟩,
        createdAt := o.nowMs }
    (some bullet, { w with bullets := alSet w.bullets id bullet })

/-! ## Association-list and PRNG range lemmas -/

/-- `find?` distributes over an append. -/
theorem find?_append_or {α : Type} (p : α → Bool) (l₁ l₂ : List α) :
    (l₁ ++ l₂).find? p = ((l₁.find? p).orElse (fun _ => l₂.find? p)) := by
  induction l₁ with
  | nil => simp
  | cons a t ih => by_cases hp : p a <;> simp [List.find?_cons, hp, ih]

/-- `find?` over a mapped list. -/
theorem find?_map_comp {α β : Type} (f : α → β) (p : β → Bool) (l : List α) :
    (l.map f).find? p = (l.find? (fun a => p (f a))).map f := by
  induction l with
  | nil => simp
  | cons a t ih => by_cases hp : p (f a) <;> simp [List.find?_cons, hp, ih]

/-- `Map.get` after `Map.set` at the same key. -/
theorem alGet_alSet_self {α : Type} (l : List (String × α)) (k : String) (v : α) :
    alGet (alSet l k v) k = some v := by
  unfold alSet alGet
  by_cases hany : l.any (fun kv => kv.1 == k)
  · rw [if_pos hany, find?_map_comp]
    have hp : (fun kv : String × α =>
        (if kv.1 == k then (k, v) else kv).1 == k) = (fun kv => kv.1 == k) := by
      funext kv
      by_cases hk : kv.1 == k <;> simp [hk]
    rw [hp]
    cases hf : l.find? (fun kv => kv.1 == k) with
    | none =>
      exfalso
      obtain ⟨a, hmem, hpa⟩ := List.any_eq_true.mp hany
      exact (List.find?_eq_none.mp hf a hmem) hpa
    | some b =>
      have hpb := List.find?_some hf
      have hfb : (if b.1 == k then (k, v) else b) = (k, v) := if_pos hpb
      show some (if b.1 == k then (k, v) else b).2 = some v
      rw [hfb]
  · rw [if_neg hany, find?_append_or]
    have hnone : l.find? (fun kv => kv.1 == k) = none := by
      rw [List.find?_eq_none]
      intro x hx hpx
      exact hany (List.any_eq_true.mpr ⟨x, hx, hpx⟩)
    rw [hnone]
    simp [List.find?_cons]

/-- `Map.get` after `Map.set` at a different key. -/
theorem alGet_alSet_ne {α : Type} (l : List (String × α)) (k k' : String)
    (v : α) (h : ¬k' = k) : alGet (alSet l k v) k' = alGet l k' := by
  unfold alSet alGet
  by_cases hany : l.any (fun kv => kv.1 == k)
  · rw [if_pos hany, find?_map_comp]
    have hp : (fun kv : String × α =>
        (if kv.1 == k then (k, v) else kv).1 == k') = (fun kv => kv.1 == k') := by
      funext kv
      by_cases hk : kv.1 == k
      · have : kv.1 = k := by simpa using hk
        simp [hk, this]
      · simp [hk]
    rw [hp]
    cases hf : l.find? (fun kv => kv.1 == k') with
    | none => simp
    | some a =>
      have ha1 : a.1 = k' := by simpa using List.find?_some hf
      have hak : (if a.1 == k then (k, v) else a) = a := by
        rw [if_neg]
        simp [ha1, h]
      show some (if a.1 == k then (k, v) else a).2 = some a.2
      rw [hak]
  · rw [if_neg hany, find?_append_or]
    cases hf : l.find? (fun kv => kv.1 == k') with
    | none =>
      have hkk : (k == k') = false := by
        simp only [beq_eq_false_iff_ne]
        exact fun e => h e.symm
      simp [List.find?_cons, hkk]
    | some a => simp

/-- Membership after `Map.set`: the entry is an old one or the new pair. -/
theorem mem_alSet {α : Type} {l : List (String × α)} {k : String} {v : α}
    {kv : String × α} (h : kv ∈ alSet l k v) : kv ∈ l ∨ kv = (k, v) := by
  unfold alSet at h
  by_cases hany : l.any (fun x => x.1 == k)
  · rw [if_pos hany] at h
    obtain ⟨a, ha, hfa⟩ := List.mem_map.mp h
    by_cases hk : a.1 == k
    · right
      rw [← hfa]
      simp [hk]
    · left
      rw [← hfa]
      simpa [hk] using ha
  · rw [if_neg hany] at h
    rcases List.mem_append.mp h with h | h
    · exact Or.inl h
    · right
      simpa using h

/-- `Map.get` after a value-only map (keys preserved). -/
theorem alGet_mapSnd {α : Type} (f : String × α → α) (l : List (String × α))
    (k : String) :
    alGet (l.map (fun kv => (kv.1, f kv))) k =
      (l.find? (fun kv => kv.1 == k)).map f := by
  unfold alGet
  rw [find?_map_comp, Option.map_map]
  rfl

/-- A found `alGet` entry is a member of the list. -/
theorem alGet_mem {α : Type} {l : List (String × α)} {k : String} {v : α}
    (h : alGet l k = some v) : ∃ k', (k', v) ∈ l := by
  unfold alGet at h
  obtain ⟨kv, hf, hsnd⟩ := Option.map_eq_some'.mp h
  exact ⟨kv.1, by rw [show (kv.1, v) = kv by rw [← hsnd]]; exact List.mem_of_find?_eq_some hf⟩

/-- Every 32-bit xor result is below `2^32`. -/
theorem xor32_lt (a b : ℕ) : xor32 a b < U32 :=
  Nat.mod_lt _ (by norm_num [U32])

/-- `SeededRandom.next()` is nonnegative. -/
theorem rngNext_nonneg (r : Rng) : 0 ≤ (r.next).1 := by
  unfold Rng.next
  exact div_nonneg (Nat.cast_nonneg _) (Nat.cast_nonneg _)

/-- `SeededRandom.next()` is below one. -/
theorem rngNext_lt_one (r : Rng) : (r.next).1 < 1 := by
  unfold Rng.next
  rw [div_lt_one (by norm_num [U32])]
  exact_mod_cast xor32_lt _ _

/-- `SeededRandom.float(lo, hi)` stays within `[lo, hi]` when
`lo ≤ hi`. -/
theorem rngFloat_mem (r : Rng) (lo hi : ℚ) (h : lo ≤ hi) :
    lo ≤ (r.float lo hi).1 ∧ (r.float lo hi).1 ≤ hi := by
  have h0 := rngNext_nonneg r
  have h1 := rngNext_lt_one r
  constructor
  · show lo ≤ lo + (r.next).1 * (hi - lo)
    nlinarith
  · show lo + (r.next).1 * (hi - lo) ≤ hi
    nlinarith

/-! ## Test fixtures for concrete game-state checks -/

/-- A deterministic ambient-effect oracle for concrete checks. -/
def testOracle : Oracle := ⟨fun _ => 0, fun n => "uuid" ++ toString n, 0⟩

/-- An empty game world over the two-cell collision environment. -/
def baseWorld : GState :=
  { area := c2Area, map := c2Map, mapRng := Rng.mk0 0, level := 1,
    totalKills := 0, frameCount := 0, playerCount := 0, difficultyMult := 1,
    players := [], enemies := [], bullets := [], projectiles := [],
    pickups := [], chatMessages := [], bossSpawned := false,
    bossKilled := false, objItems := [], escapeActive := false,
    glassZones := [], lootContainers := [], pathCache := [], effCursor := 0 }

/-- A downed test player. -/
def downedTestPlayer : Player :=
  { initPlayer "d" "Downed" ⟨0.75, 1.6, 0.25⟩ 0 with
    health := 0, isDowned := true, downedTimer := 450 }

/-- A dead test player. -/
def deadTestPlayer : Player :=
  { initPlayer "g" "Gone" ⟨0.75, 1.6, 0.25⟩ 0 with
    health := 0, alive := false }

/-- The world of the C9 check: one downed and one dead player. -/
def w9 : GState :=
  { baseWorld with
    players := [("d", downedTestPlayer), ("g", deadTestPlayer)] }

/-- Claim C9: for every player that is already downed or not alive,
`handlePlayerDamage` returns `null` and changes no state at all (in
particular health, `isDowned` and `downedTimer` are unchanged) — a downed
or dead player cannot be damaged further through this operation. -/
theorem handlePlayerDamage_rejects_downed_or_dead (w : GState)
    (playerId : String) (damage : ℚ) (sourcePosition : P3)
    (sourceType : String) (p : Player)
    (hp : alGet w.players playerId = some p)
    (h : p.alive = false ∨ p.isDowned = true) :
    handlePlayerDamage w playerId damage sourcePosition sourceType = (none, w) := by
  unfold handlePlayerDamage
  rw [hp]
  have hc : (!p.alive || p.isDowned) = true := by
    rcases h with h | h <;> simp [h]
  simp [hc]

/-- Witness for `handlePlayerDamage_rejects_downed_or_dead`: the concrete
downed player and the concrete dead player of `w9` are both untouched. -/
theorem handlePlayerDamage_rejects_downed_or_dead_witness :
    handlePlayerDamage w9 "d" 40 ⟨0, 0, 0⟩ "enemy" = (none, w9) ∧
    handlePlayerDamage w9 "g" 40 ⟨0, 0, 0⟩ "enemy" = (none, w9) :=
  ⟨handlePlayerDamage_rejects_downed_or_dead w9 "d" 40 ⟨0, 0, 0⟩ "enemy"
      downedTestPlayer rfl (Or.inr rfl),
   handlePlayerDamage_rejects_downed_or_dead w9 "g" 40 ⟨0, 0, 0⟩ "enemy"
      deadTestPlayer rfl (Or.inl rfl)⟩

/-- `updateDownedPlayers` acts pointwise through `alGet`. -/
theorem alGet_updateDowned (w : GState) (pid : String) (p : Player)
    (hp : alGet w.players pid = some p) :
    alGet (updateDownedPlayers w).players pid = some (downedStep p) := by
  show alGet (w.players.map (fun kv => (kv.1, downedStep kv.2))) pid = _
  rw [alGet_mapSnd]
  obtain ⟨kv, hf, hsnd⟩ := Option.map_eq_some'.mp hp
  rw [hf]
  simp [hsnd]

/-- One countdown tick of a downed player that has time left. -/
theorem downedStep_ticking (p : Player) (hd : p.isDowned = true)
    (ht : ¬p.downedTimer - 1 ≤ 0) :
    downedStep p = { p with downedTimer := p.downedTimer - 1 } := by
  unfold downedStep
  rw [hd]
  show (if p.downedTimer - 1 ≤ 0 then _ else _) = _
  rw [if_neg ht]

/-- The expiring countdown tick of a downed player. -/
theorem downedStep_expiring (p : Player) (hd : p.isDowned = true)
    (ht : p.downedTimer - 1 ≤ 0) :
    downedStep p = { p with downedTimer := p.downedTimer - 1,
                            alive := false, isDowned := false } := by
  unfold downedStep
  rw [hd]
  show (if p.downedTimer - 1 ≤ 0 then _ else _) = _
  rw [if_pos ht]

/-- Iterating `updateDownedPlayers` below the countdown keeps the downed
player's record, only decrementing the timer. -/
theorem downedStep_iterate (w : GState) (pid : String) (p : Player)
    (hp : alGet w.players pid = some p) (hd : p.isDowned = true)
    (k : ℕ) (hk : (k : ℚ) < p.downedTimer) :
    alGet (updateDownedPlayers^[k] w).players pid =
      some { p with downedTimer := p.downedTimer - (k : ℚ) } := by
  induction k with
  | zero => simpa using hp
  | succ n ih =>
    have hkn : (n : ℚ) < p.downedTimer := by
      have h1 : (n : ℚ) < ((n + 1 : ℕ) : ℚ) := by exact_mod_cast Nat.lt_succ_self n
      exact lt_trans h1 hk
    have hmid := ih hkn
    rw [Function.iterate_succ_apply', alGet_updateDowned _ _ _ hmid]
    have hqd : ({ p with downedTimer := p.downedTimer - (n : ℚ) } : Player).isDowned
        = true := hd
    have hqt : ¬({ p with downedTimer := p.downedTimer - (n : ℚ) } : Player).downedTimer
        - 1 ≤ 0 := by
      show ¬p.downedTimer - (n : ℚ) - 1 ≤ 0
      have : ((n + 1 : ℕ) : ℚ) = (n : ℚ) + 1 := by push_cast; ring
      rw [this] at hk
      intro hcon
      linarith
    rw [downedStep_ticking _ hqd hqt]
    have harith : p.downedTimer - (n : ℚ) - 1 = p.downedTimer - ((n + 1 : ℕ) : ℚ) := by
      push_cast
      ring
    show some ({ p with downedTimer := p.downedTimer - (n : ℚ) - 1 } : Player) = _
    rw [harith]

/-- Unfolding equation of `handlePlayerDamage` on an existing player. -/
theorem handlePlayerDamage_eq_some (w : GState) (pid : String) (damage : ℚ)
    (sp : P3) (st : String) (p : Player)
    (hp : alGet w.players pid = some p) :
    handlePlayerDamage w pid damage sp st =
      if (!p.alive || p.isDowned) = true then (none, w)
      else
        (some ⟨(if p.perks.contains "defense_boost" = true then damage * 0.85 else damage), (playerApplyDamage p damage).health, (playerApplyDamage p damage).isDowned, sp, st⟩,
         { w with players := alSet w.players pid (playerApplyDamage p damage) }) := by
  unfold handlePlayerDamage
  rw [hp]

/-- `playerApplyDamage` downs an unprotected player on lethal damage. -/
theorem playerApplyDamage_kill (p : Player) (damage : ℚ)
    (hcond : (!p.alive || p.isDowned) = false)
    (hperk : p.perks.contains "defense_boost" = false)
    (hkill : p.health - damage ≤ 0) :
    playerApplyDamage p damage =
      { p with health := 0, isDowned := true, downedTimer := 900 } := by
  unfold playerApplyDamage
  simp only [hcond, hperk, Bool.false_eq_true, if_false]
  rw [if_pos hkill]

/-- Unfolding equation of `revivePlayer` on two existing players. -/
theorem revivePlayer_eq_some_some (w : GState) (rid tid : String)
    (r t : Player) (hr : alGet w.players rid = some r)
    (ht : alGet w.players tid = some t) :
    revivePlayer w rid tid =
      if (!r.alive || !t.isDowned) = true then (false, w)
      else
        match alGet (alSet w.players tid { t with isDowned := false, health := 30, downedTimer := 0 }) rid with
        | none => (true, { w with players := alSet w.players tid { t with isDowned := false, health := 30, downedTimer := 0 } })
        | some rr => (true, { w with players := alSet (alSet w.players tid { t with isDowned := false, health := 30, downedTimer := 0 }) rid { rr with revives := rr.revives + 1, score := rr.score + 100 } }) := by
  unfold revivePlayer
  rw [hr, ht]

/-- Claim C7: a player whose health reaches 0 enters `isDowned = true`
with the fixed 900-tick countdown while staying alive; a revive request
from another live player before the countdown expires succeeds and sets
`isDowned = false` and `health = 30`; the player stays alive through every
one of the first 899 countdown ticks, and only the 900th tick (the timer
expiry) sets `alive = false`. -/
theorem downed_revive_cycle (w : GState) (pid rid : String)
    (p reviver : Player) (damage : ℚ) (sp : P3) (st : String)
    (hp : alGet w.players pid = some p)
    (halive : p.alive = true) (hnd : p.isDowned = false)
    (hperk : p.perks.contains "defense_boost" = false)
    (hkill : p.health - damage ≤ 0)
    (hr : alGet w.players rid = some reviver)
    (hralive : reviver.alive = true) (hne : ¬rid = pid) :
    let w1 := (handlePlayerDamage w pid damage sp st).2
    alGet w1.players pid =
      some { p with health := 0, isDowned := true, downedTimer := 900 } ∧
    p.alive = true ∧
    (revivePlayer w1 rid pid).1 = true ∧
    alGet (revivePlayer w1 rid pid).2.players pid =
      some { p with health := 30, isDowned := false, downedTimer := 0 } ∧
    (∀ k : ℕ, k < 900 →
      alGet ((updateDownedPlayers)^[k] w1).players pid =
        some { p with health := 0, isDowned := true,
                      downedTimer := (900 : ℚ) - (k : ℚ) }) ∧
    (∀ k : ℕ, k < 900 →
      (alGet ((updateDownedPlayers)^[k] w1).players pid).map Player.alive =
        some true) ∧
    (alGet ((updateDownedPlayers)^[900] w1).players pid).map
        (fun q => (q.alive, q.isDowned)) = some (false, false) := by
  intro w1
  have hcond : (!p.alive || p.isDowned) = false := by simp [halive, hnd]
  set pD : Player := { p with health := 0, isDowned := true, downedTimer := 900 }
    with hpD
  have happly := playerApplyDamage_kill p damage hcond hperk hkill
  have hw1 : w1 = { w with players := alSet w.players pid pD } := by
    show (handlePlayerDamage w pid damage sp st).2 = _
    rw [handlePlayerDamage_eq_some w pid damage sp st p hp, hcond]
    simp only [Bool.false_eq_true, if_false]
    rw [happly]
  set pT : Player := { pD with isDowned := false, health := 30, downedTimer := 0 }
    with hpT
  set pR : Player := { reviver with revives := reviver.revives + 1,
                                    score := reviver.score + 100 } with hpR
  have hgt : alGet w1.players pid = some pD := by
    rw [hw1]
    exact alGet_alSet_self _ _ _
  have hgr : alGet w1.players rid = some reviver := by
    rw [hw1]
    show alGet (alSet w.players pid pD) rid = some reviver
    rw [alGet_alSet_ne _ _ _ _ hne]
    exact hr
  have hrev : revivePlayer w1 rid pid =
      (true, { w1 with players := alSet (alSet w1.players pid pT) rid pR }) := by
    rw [revivePlayer_eq_some_some w1 rid pid reviver pD hgr hgt]
    have hguard : (!reviver.alive || !pD.isDowned) = false := by
      simp [hralive, hpD]
    rw [hguard]
    simp only [Bool.false_eq_true, if_false]
    rw [alGet_alSet_ne _ _ _ _ hne, hgr]
  refine ⟨hgt, halive, ?_, ?_, ?_, ?_, ?_⟩
  · rw [hrev]
  · rw [hrev]
    show alGet (alSet (alSet w1.players pid pT) rid pR) pid = _
    rw [alGet_alSet_ne _ _ _ _ (fun e => hne e.symm), alGet_alSet_self]
  · intro k hk
    have hkq : (k : ℚ) < pD.downedTimer := by
      show (k : ℚ) < 900
      exact_mod_cast hk
    exact downedStep_iterate w1 pid pD hgt rfl k hkq
  · intro k hk
    have hkq : (k : ℚ) < pD.downedTimer := by
      show (k : ℚ) < 900
      exact_mod_cast hk
    rw [downedStep_iterate w1 pid pD hgt rfl k hkq]
    show some ({ pD with downedTimer := pD.downedTimer - (k : ℚ) } : Player).alive
      = some true
    show some p.alive = some true
    rw [halive]
  · have h899 : (899 : ℚ) < pD.downedTimer := by
      show (899 : ℚ) < 900
      norm_num
    have hmid := downedStep_iterate w1 pid pD hgt rfl 899 (by exact_mod_cast h899)
    rw [show (900 : ℕ) = 899 + 1 from rfl, Function.iterate_succ_apply',
        alGet_updateDowned _ _ _ hmid]
    have hqt : ({ pD with downedTimer := pD.downedTimer - ((899 : ℕ) : ℚ) } :
        Player).downedTimer - 1 ≤ 0 := by
      show pD.downedTimer - ((899 : ℕ) : ℚ) - 1 ≤ 0
      show (900 : ℚ) - ((899 : ℕ) : ℚ) - 1 ≤ 0
      push_cast
      norm_num
    rw [downedStep_expiring _ rfl hqt]
    rfl

/-- The world of the C7 witness: a healthy player and a healthy
reviver. -/
def w7 : GState :=
  { baseWorld with
    players := [("a", initPlayer "a" "Victim" ⟨0.75, 1.6, 0.25⟩ 0),
                ("b", initPlayer "b" "Rescuer" ⟨0.75, 1.6, 0.25⟩ 0.5)] }

/-- Witness for `downed_revive_cycle`: the concrete victim of `w7` hit for
100 damage is downed with timer 900, the concrete revive succeeds with
health 30, and the 900th countdown tick kills. -/
theorem downed_revive_cycle_witness :
    (revivePlayer (handlePlayerDamage w7 "a" 100 ⟨0, 0, 0⟩ "enemy").2 "b" "a").1
      = true ∧
    alGet (revivePlayer (handlePlayerDamage w7 "a" 100 ⟨0, 0, 0⟩ "enemy").2
        "b" "a").2.players "a" =
      some { initPlayer "a" "Victim" ⟨0.75, 1.6, 0.25⟩ 0 with
             health := 30, isDowned := false, downedTimer := 0 } ∧
    (alGet ((updateDownedPlayers)^[900]
        (handlePlayerDamage w7 "a" 100 ⟨0, 0, 0⟩ "enemy").2).players "a").map
        (fun q => (q.alive, q.isDowned)) = some (false, false) := by
  have h := downed_revive_cycle w7 "a" "b"
    (initPlayer "a" "Victim" ⟨0.75, 1.6, 0.25⟩ 0)
    (initPlayer "b" "Rescuer" ⟨0.75, 1.6, 0.25⟩ 0.5)
    100 ⟨0, 0, 0⟩ "enemy" rfl rfl rfl rfl
    (by norm_num [initPlayer]) rfl rfl (by decide)
  exact ⟨h.2.2.1, h.2.2.2.1, h.2.2.2.2.2.2⟩

/-- Claim C8 (amended): for every invalid **target-entity** request —
reviving with a missing reviver or target id or a target that is not
downed or a reviver that is not alive, looting an unknown or
already-looted container, collecting an unknown or already-collected
objective — the operation is a no-op that leaves the whole game state
unchanged and returns its failure indicator (`false` or `null`).  The
**acting player id**, however, is not validated by `collectObjective` and
`lootContainer` (see the counterexample). -/
theorem invalid_requests_are_noops :
    (∀ w : GState, ∀ rid tid : String, alGet w.players rid = none →
      revivePlayer w rid tid = (false, w)) ∧
    (∀ w : GState, ∀ rid tid : String, alGet w.players tid = none →
      revivePlayer w rid tid = (false, w)) ∧
    (∀ w : GState, ∀ rid tid : String, ∀ r t : Player,
      alGet w.players rid = some r → alGet w.players tid = some t →
      (r.alive = false ∨ t.isDowned = false) →
      revivePlayer w rid tid = (false, w)) ∧
    (∀ o : Oracle, ∀ w : GState, ∀ pid cid : String,
      alGet w.lootContainers cid = none →
      lootContainer o w pid cid = (none, w)) ∧
    (∀ o : Oracle, ∀ w : GState, ∀ pid cid : String, ∀ c : LootState,
      alGet w.lootContainers cid = some c → c.looted = true →
      lootContainer o w pid cid = (none, w)) ∧
    (∀ o : Oracle, ∀ w : GState, ∀ pid oid : String,
      alGet w.objItems oid = none →
      collectObjective o w pid oid = (false, w)) ∧
    (∀ o : Oracle, ∀ w : GState, ∀ pid oid : String, ∀ s : ObjItemState,
      alGet w.objItems oid = some s → s.collected = true →
      collectObjective o w pid oid = (false, w)) := by
  refine ⟨?_, ?_, ?_, ?_, ?_, ?_, ?_⟩
  · intro w rid tid h
    unfold revivePlayer
    cases ht : alGet w.players tid <;> rw [h]
  · intro w rid tid h
    unfold revivePlayer
    cases hr : alGet w.players rid <;> rw [h]
  · intro w rid tid r t hr ht h
    rw [revivePlayer_eq_some_some w rid tid r t hr ht]
    have hguard : (!r.alive || !t.isDowned) = true := by
      rcases h with h | h <;> simp [h]
    rw [hguard]
    simp
  · intro o w pid cid h
    unfold lootContainer
    rw [h]
  · intro o w pid cid c h hl
    unfold lootContainer
    rw [h]
    show (if c.looted = true then _ else _) = _
    rw [hl]
    simp
  · intro o w pid oid h
    unfold collectObjective
    rw [h]
  · intro o w pid oid s h hc
    unfold collectObjective
    rw [h]
    show (if s.collected = true then _ else _) = _
    rw [hc]
    simp

/-- Witness for `invalid_requests_are_noops` on the empty world: every
kind of invalid request is rejected without touching the state. -/
theorem invalid_requests_are_noops_witness :
    revivePlayer baseWorld "a" "b" = (false, baseWorld) ∧
    lootContainer testOracle baseWorld "a" "c" = (none, baseWorld) ∧
    collectObjective testOracle baseWorld "a" "o" = (false, baseWorld) :=
  ⟨invalid_requests_are_noops.1 baseWorld "a" "b" rfl,
   invalid_requests_are_noops.2.2.2.1 testOracle baseWorld "a" "c" rfl,
   invalid_requests_are_noops.2.2.2.2.2.1 testOracle baseWorld "a" "o" rfl⟩

/-- The map of the C8 counterexample: `c2Map` plus one loot container. -/
def c8Map : MapData :=
  { c2Map with
    lootContainers := [{ id := "c1", ctype := "crate", position := ⟨0.75, 0, 0.25⟩,
                         rotation := 0, loot := some "food", looted := false,
                         isInterior := false }] }

/-- The world of the C8 counterexample: an uncollected objective item and
an unlooted container, and **no players at all**. -/
def w8 : GState :=
  { baseWorld with
    map := c8Map
    objItems := [("o1", ⟨false, none⟩)]
    lootContainers := [("c1", ⟨false, some "food"⟩)] }

/-- Claim C8 counterexample: acting with a nonexistent player id is *not*
rejected — `collectObjective` marks the objective as collected by the
ghost id and returns `true`, and `lootContainer` marks the container
looted and hands out its loot, both mutating the state. -/
theorem ghost_player_requests_succeed_counterexample :
    alGet w8.players "ghost" = none ∧
    (collectObjective testOracle w8 "ghost" "o1").1 = true ∧
    alGet (collectObjective testOracle w8 "ghost" "o1").2.objItems "o1"
      = some ⟨true, some "ghost"⟩ ∧
    (lootContainer testOracle w8 "ghost" "c1").1 = some "food" ∧
    alGet (lootContainer testOracle w8 "ghost" "c1").2.lootContainers "c1"
      = some ⟨true, some "food"⟩ ∧
    (lootContainer testOracle w8 "ghost" "c1").2.pickups ≠ w8.pickups := by
  refine ⟨rfl, rfl, rfl, rfl, rfl, ?_⟩
  with_unfolding_all decide

/-! ## Chat-log bound (C10) -/

/-- Appending one message to a bounded log and truncating keeps it
bounded. -/
theorem truncChat_append_le (l : List ChatMessage) (m : ChatMessage)
    (h : l.length ≤ 50) : (truncChat (l ++ [m])).length ≤ 50 := by
  unfold truncChat
  by_cases hl : (l ++ [m]).length > 50
  · rw [if_pos hl]
    simp only [List.length_drop, List.length_append, List.length_singleton]
    omega
  · rw [if_neg hl]
    omega

/-- `addChatMessage` keeps the chat log within 50 entries. -/
theorem chatLen_addChatMessage (o : Oracle) (w : GState) (pid text : String)
    (h : w.chatMessages.length ≤ 50) :
    ((addChatMessage o w pid text).2).chatMessages.length ≤ 50 := by
  unfold addChatMessage
  cases hp : alGet w.players pid
  · exact h
  · dsimp only
    by_cases hg : (text = "" ∨ text.trim.length = 0)
    · rw [if_pos hg]
      exact h
    · rw [if_neg hg]
      exact truncChat_append_le _ _ h

/-- `addSystemMessage` keeps the chat log within 50 entries. -/
theorem chatLen_addSystemMessage (o : Oracle) (w : GState) (t : String)
    (h : w.chatMessages.length ≤ 50) :
    ((addSystemMessage o w t).2).chatMessages.length ≤ 50 :=
  truncChat_append_le _ _ h

/-- `handleEnemyDeath` keeps the chat log within 50 entries. -/
theorem chatLen_handleEnemyDeath (o : Oracle) (w : GState)
    (eid kid wp : String) (hs : Bool) (h : w.chatMessages.length ≤ 50) :
    (handleEnemyDeath o w eid kid wp hs).chatMessages.length ≤ 50 := by
  unfold handleEnemyDeath
  cases he : alGet w.enemies eid
  · exact h
  · cases hk : alGet w.players kid <;>
      · dsimp only
        repeat' split
        all_goals exact truncChat_append_le _ _ h

/-- `handleBulletHit` keeps the chat log within 50 entries. -/
theorem chatLen_handleBulletHit (o : Oracle) (w : GState)
    (bid eid : String) (hs : Bool) (h : w.chatMessages.length ≤ 50) :
    ((handleBulletHit o w bid eid hs).2).chatMessages.length ≤ 50 := by
  unfold handleBulletHit
  cases hb : alGet w.bullets bid with
  | none => cases he : alGet w.enemies eid <;> exact h
  | some b =>
    cases he : alGet w.enemies eid with
    | none => exact h
    | some e =>
      cases hp : alGet w.players b.ownerId <;>
        · dsimp only
          repeat' split
          all_goals first
          | exact chatLen_handleEnemyDeath _ _ _ _ _ _ h
          | exact h

/-- One melee step keeps the chat log within 50 entries. -/
theorem chatLen_meleeStep (M : MathOps) (o : Oracle) (pid : String)
    (pos : P3) (dx dz : ℚ) (wp : String) (dmg rng : ℚ)
    (acc : List MeleeHit × GState) (eid : String)
    (h : acc.2.chatMessages.length ≤ 50) :
    ((meleeStep M o pid pos dx dz wp dmg rng acc eid).2).chatMessages.length
      ≤ 50 := by
  obtain ⟨hits, w⟩ := acc
  unfold meleeStep
  dsimp only
  cases he : alGet w.enemies eid
  · exact h
  · cases hp : alGet w.players pid <;>
      · dsimp only
        repeat' split
        all_goals first
        | exact chatLen_handleEnemyDeath _ _ _ _ _ _ h
        | exact h

/-- The melee fold keeps the chat log within 50 entries. -/
theorem chatLen_meleeFold (M : MathOps) (o : Oracle) (pid : String)
    (pos : P3) (dx dz : ℚ) (wp : String) (dmg rng : ℚ) :
    ∀ (ids : List String) (acc : List MeleeHit × GState),
      acc.2.chatMessages.length ≤ 50 →
      ((ids.foldl (meleeStep M o pid pos dx dz wp dmg rng) acc).2).chatMessages.length
        ≤ 50 := by
  intro ids
  induction ids with
  | nil => intro acc h; exact h
  | cons a t ih =>
    intro acc h
    exact ih _ (chatLen_meleeStep M o pid pos dx dz wp dmg rng acc a h)

/-- `handleMeleeAttack` keeps the chat log within 50 entries. -/
theorem chatLen_handleMeleeAttack (M : MathOps) (o : Oracle) (w : GState)
    (pid : String) (pos : P3) (dx dz : ℚ) (wp : String) (dmg rng : ℚ)
    (h : w.chatMessages.length ≤ 50) :
    ((handleMeleeAttack M o w pid pos dx dz wp dmg rng).2).chatMessages.length
      ≤ 50 := by
  unfold handleMeleeAttack
  cases hp : alGet w.players pid
  · exact h
  · exact chatLen_meleeFold M o pid pos dx dz wp dmg rng _ ([], w) h

/-- `collectObjective` keeps the chat log within 50 entries. -/
theorem chatLen_collectObjective (o : Oracle) (w : GState) (pid oid : String)
    (h : w.chatMessages.length ≤ 50) :
    ((collectObjective o w pid oid).2).chatMessages.length ≤ 50 := by
  unfold collectObjective
  cases ho : alGet w.objItems oid with
  | none => exact h
  | some s =>
    dsimp only
    by_cases hcol : s.collected = true
    · rw [if_pos hcol]
      exact h
    · rw [if_neg hcol]
      exact chatLen_addSystemMessage _ _ _ h

/-- `updateObjectives` keeps the chat log within 50 entries. -/
theorem chatLen_updateObjectives (o : Oracle) (w : GState)
    (h : w.chatMessages.length ≤ 50) :
    (updateObjectives o w).chatMessages.length ≤ 50 := by
  unfold updateObjectives
  dsimp only
  split
  · exact chatLen_addSystemMessage _ _ _ h
  · exact h

/-- `handlePlayerDamage` never touches the chat log. -/
theorem chat_handlePlayerDamage (w : GState) (pid : String) (d : ℚ)
    (sp : P3) (st : String) :
    ((handlePlayerDamage w pid d sp st).2).chatMessages = w.chatMessages := by
  unfold handlePlayerDamage
  cases hp : alGet w.players pid
  · rfl
  · dsimp only
    split <;> rfl

/-- `revivePlayer` never touches the chat log. -/
theorem chat_revivePlayer (w : GState) (rid tid : String) :
    ((revivePlayer w rid tid).2).chatMessages = w.chatMessages := by
  unfold revivePlayer
  cases hr : alGet w.players rid with
  | none => cases ht : alGet w.players tid <;> rfl
  | some r =>
    cases ht : alGet w.players tid with
    | none => rfl
    | some t =>
      dsimp only
      split
      · rfl
      · split <;> rfl

/-- `handlePlayerInput` never touches the chat log. -/
theorem chat_handlePlayerInput (M : MathOps) (w : GState) (pid : String)
    (msg : InputMsg) :
    (handlePlayerInput M w pid msg).chatMessages = w.chatMessages := by
  unfold handlePlayerInput
  cases hp : alGet w.players pid
  · rfl
  · dsimp only
    split <;> rfl

/-- `breakGlass` never touches the chat log. -/
theorem chat_breakGlass (w : GState) (gid : String) :
    ((breakGlass w gid).2).chatMessages = w.chatMessages := by
  unfold breakGlass
  cases hg : alGet w.glassZones gid
  · rfl
  · dsimp only
    split <;> rfl

/-- `createBullet` never touches the chat log. -/
theorem chat_createBullet (o : Oracle) (w : GState) (pid : String)
    (pos dir : P3) (wp : Option String) (dmg : Option ℚ) :
    ((createBullet o w pid pos dir wp dmg).2).chatMessages = w.chatMessages := by
  unfold createBullet
  cases hp : alGet w.players pid <;> rfl

/-- `getEnemySpawnPosition` never touches the chat log. -/
theorem chat_getEnemySpawnPosition (M : MathOps) (pp : List P3) (a b : ℚ) :
    ∀ (fuel : ℕ) (w : GState),
      ((getEnemySpawnPosition M w pp a b fuel).2).chatMessages
        = w.chatMessages := by
  intro fuel
  induction fuel with
  | zero => intro w; rfl
  | succ n ih =>
    intro w
    unfold getEnemySpawnPosition
    split
    · rfl
    · split
      next zoneOpt rng heq =>
      cases zoneOpt with
      | none => rfl
      | some zone =>
        dsimp only
        split
        · rfl
        · exact ih _

set_option maxHeartbeats 2000000 in
/-- `spawnEnemy` never touches the chat log. -/
theorem chat_spawnEnemy (M : MathOps) (o : Oracle) (w : GState)
    (ft : Option String) :
    ((spawnEnemy M o w ft).2).chatMessages = w.chatMessages := by
  unfold spawnEnemy
  cases ft with
  | some t =>
    dsimp only
    split <;> exact chat_getEnemySpawnPosition M _ 25 80 20 _
  | none =>
    dsimp only
    split <;> exact chat_getEnemySpawnPosition M _ 25 80 20 _

/-- One embedded game-state operation (the dispatch alphabet over which
the chat-log bound is stated). -/
inductive GOp where
  | chat (playerId text : String)
  | system (text : String)
  | enemyDeath (enemyId killerId weapon : String) (isHeadshot : Bool)
  | bulletHit (bulletId enemyId : String) (isHeadshot : Bool)
  | melee (playerId : String) (position : P3) (dirX dirZ : ℚ)
      (weapon : String) (damage range : ℚ)
  | damage (playerId : String) (amount : ℚ) (sp : P3) (st : String)
  | revive (reviverId targetId : String)
  | downedTick
  | statsTick
  | input (playerId : String) (msg : InputMsg)
  | objectives
  | collect (playerId objectiveId : String)
  | loot (playerId containerId : String)
  | glass (glassId : String)
  | spawn (forceType : Option String)
  | bullet (playerId : String) (position direction : P3)
      (weapon : Option String) (damage : Option ℚ)

/-- Apply one embedded operation to the game state. -/
def applyOp (M : MathOps) (o : Oracle) (w : GState) : GOp → GState
  | .chat pid text => (addChatMessage o w pid text).2
  | .system text => (addSystemMessage o w text).2
  | .enemyDeath eid kid wp hs => handleEnemyDeath o w eid kid wp hs
  | .bulletHit bid eid hs => (handleBulletHit o w bid eid hs).2
  | .melee pid pos dx dz wp dmg rng =>
      (handleMeleeAttack M o w pid pos dx dz wp dmg rng).2
  | .damage pid amt sp st => (handlePlayerDamage w pid amt sp st).2
  | .revive rid tid => (revivePlayer w rid tid).2
  | .downedTick => updateDownedPlayers w
  | .statsTick => updatePlayerStats M w
  | .input pid msg => handlePlayerInput M w pid msg
  | .objectives => updateObjectives o w
  | .collect pid oid => (collectObjective o w pid oid).2
  | .loot pid cid => (lootContainer o w pid cid).2
  | .glass gid => (breakGlass w gid).2
  | .spawn ft => (spawnEnemy M o w ft).2
  | .bullet pid pos dir wp dmg => (createBullet o w pid pos dir wp dmg).2

/-- Every embedded operation keeps the chat log within 50 entries. -/
theorem chatLen_applyOp (M : MathOps) (o : Oracle) (op : GOp) (w : GState)
    (h : w.chatMessages.length ≤ 50) :
    (applyOp M o w op).chatMessages.length ≤ 50 := by
  cases op with
  | chat pid text => exact chatLen_addChatMessage o w pid text h
  | system t => exact chatLen_addSystemMessage o w t h
  | enemyDeath eid kid wp hs => exact chatLen_handleEnemyDeath o w eid kid wp hs h
  | bulletHit bid eid hs => exact chatLen_handleBulletHit o w bid eid hs h
  | melee pid pos dx dz wp dmg rng =>
    exact chatLen_handleMeleeAttack M o w pid pos dx dz wp dmg rng h
  | damage pid amt sp st =>
    show ((handlePlayerDamage w pid amt sp st).2).chatMessages.length ≤ 50
    rw [chat_handlePlayerDamage]
    exact h
  | revive rid tid =>
    show ((revivePlayer w rid tid).2).chatMessages.length ≤ 50
    rw [chat_revivePlayer]
    exact h
  | downedTick => exact h
  | statsTick => exact h
  | input pid msg =>
    show (handlePlayerInput M w pid msg).chatMessages.length ≤ 50
    rw [chat_handlePlayerInput]
    exact h
  | objectives => exact chatLen_updateObjectives o w h
  | collect pid oid => exact chatLen_collectObjective o w pid oid h
  | loot pid cid =>
    show ((lootContainer o w pid cid).2).chatMessages.length ≤ 50
    unfold lootContainer
    cases hc : alGet w.lootContainers cid
    · exact h
    · dsimp only
      repeat' split
      all_goals exact h
  | glass gid =>
    show ((breakGlass w gid).2).chatMessages.length ≤ 50
    rw [chat_breakGlass]
    exact h
  | spawn ft =>
    show ((spawnEnemy M o w ft).2).chatMessages.length ≤ 50
    rw [chat_spawnEnemy]
    exact h
  | bullet pid pos dir wp dmg =>
    show ((createBullet o w pid pos dir wp dmg).2).chatMessages.length ≤ 50
    rw [chat_createBullet]
    exact h

/-- Claim C10: the chat/kill-feed log never exceeds 50 entries — every
appender (`addChatMessage`, `addSystemMessage`, the kill message of
`handleEnemyDeath`) truncates the log to its most recent 50 entries, and
the 50-entry bound is preserved by every sequence of embedded game-state
operations; `addSystemMessage` in particular always produces exactly the
truncation of the old log plus the new message. -/
theorem chat_log_bounded (M : MathOps) (o : Oracle) (w : GState)
    (ops : List GOp) (h : w.chatMessages.length ≤ 50) :
    ((ops.foldl (applyOp M o) w).chatMessages.length ≤ 50) ∧
    (∀ t : String, (addSystemMessage o w t).2.chatMessages =
      truncChat (w.chatMessages ++ [(addSystemMessage o w t).1])) := by
  constructor
  · induction ops generalizing w with
    | nil => exact h
    | cons op rest ih => exact ih _ (chatLen_applyOp M o op w h)
  · intro t
    rfl

/-- Witness for `chat_log_bounded`: a concrete five-operation burst on the
empty world keeps the log within the bound. -/
theorem chat_log_bounded_witness :
    (([GOp.system "wave", GOp.spawn (some "normal"), GOp.downedTick,
       GOp.statsTick, GOp.system "go"] : List GOp).foldl
        (applyOp zeroMath testOracle) baseWorld).chatMessages.length ≤ 50 ∧
    (∀ t : String, (addSystemMessage testOracle baseWorld t).2.chatMessages =
      truncChat (baseWorld.chatMessages ++
        [(addSystemMessage testOracle baseWorld t).1])) :=
  chat_log_bounded zeroMath testOracle baseWorld
    [GOp.system "wave", GOp.spawn (some "normal"), GOp.downedTick,
     GOp.statsTick, GOp.system "go"] (by with_unfolding_all decide)

/-! ## Headshot scenario (C6) -/

/-- The clamps that the game maintains: hunger and warmth within
`[0, 100]`, health within `[0, maxHealth]`, and `maxHealth` at least 30
(so a revive target never exceeds its cap).  Energy is deliberately not
part of this predicate — see the counterexample. -/
def statsOk (p : Player) : Bool :=
  decide (0 ≤ p.hunger) && decide (p.hunger ≤ 100) &&
  decide (0 ≤ p.warmth) && decide (p.warmth ≤ 100) &&
  decide (0 ≤ p.health) && decide (p.health ≤ p.maxHealth) &&
  decide (30 ≤ p.maxHealth)

/-- Every player of the world satisfies the stat clamps. -/
def allStatsOk (w : GState) : Bool :=
  w.players.all (fun kv => statsOk kv.2)

/-- Energy within `[0, 100]`. -/
def energyOk (p : Player) : Bool :=
  decide (0 ≤ p.energy) && decide (p.energy ≤ 100)

/-- Every player of the world has in-range energy. -/
def allEnergyOk (w : GState) : Bool :=
  w.players.all (fun kv => energyOk kv.2)

/-- Unfolding of `statsOk`. -/
theorem statsOk_iff (p : Player) : statsOk p = true ↔
    (0 ≤ p.hunger ∧ p.hunger ≤ 100 ∧ 0 ≤ p.warmth ∧ p.warmth ≤ 100 ∧
     0 ≤ p.health ∧ p.health ≤ p.maxHealth ∧ 30 ≤ p.maxHealth) := by
  simp [statsOk, Bool.and_eq_true, decide_eq_true_eq]
  tauto

/-- Unfolding of `allStatsOk`. -/
theorem allStatsOk_iff (w : GState) : allStatsOk w = true ↔
    ∀ kv ∈ w.players, statsOk kv.2 = true := by
  simp [allStatsOk, List.all_eq_true]

/-- Unfolding of `energyOk`. -/
theorem energyOk_iff (p : Player) : energyOk p = true ↔
    (0 ≤ p.energy ∧ p.energy ≤ 100) := by
  simp [energyOk, Bool.and_eq_true, decide_eq_true_eq]

/-- Unfolding of `allEnergyOk`. -/
theorem allEnergyOk_iff (w : GState) : allEnergyOk w = true ↔
    ∀ kv ∈ w.players, energyOk kv.2 = true := by
  simp [allEnergyOk, List.all_eq_true]

/-- `statsOk` only reads hunger, warmth, health and `maxHealth`. -/
theorem statsOk_set_hunger (p : Player) (v : ℚ) (h : statsOk p = true)
    (hv0 : 0 ≤ v) (hv1 : v ≤ 100) :
    statsOk { p with hunger := v } = true := by
  rw [statsOk_iff] at h ⊢
  obtain ⟨_, _, h3, h4, h5, h6, h7⟩ := h
  exact ⟨hv0, hv1, h3, h4, h5, h6, h7⟩

/-- `statsOk` after a warmth write. -/
theorem statsOk_set_warmth (p : Player) (v : ℚ) (h : statsOk p = true)
    (hv0 : 0 ≤ v) (hv1 : v ≤ 100) :
    statsOk { p with warmth := v } = true := by
  rw [statsOk_iff] at h ⊢
  obtain ⟨h1, h2, _, _, h5, h6, h7⟩ := h
  exact ⟨h1, h2, hv0, hv1, h5, h6, h7⟩

/-- `playerApplyDamage` never touches hunger, warmth, energy or the
health cap. -/
theorem playerApplyDamage_fields (p : Player) (d : ℚ) :
    (playerApplyDamage p d).hunger = p.hunger ∧
    (playerApplyDamage p d).warmth = p.warmth ∧
    (playerApplyDamage p d).energy = p.energy ∧
    (playerApplyDamage p d).maxHealth = p.maxHealth := by
  unfold playerApplyDamage
  split
  · exact ⟨rfl, rfl, rfl, rfl⟩
  · dsimp only
    split <;> split <;> exact ⟨rfl, rfl, rfl, rfl⟩

/-- `playerApplyDamage` preserves the stat clamps for nonnegative
damage. -/
theorem playerApplyDamage_statsOk (p : Player) (d : ℚ) (hd : 0 ≤ d)
    (h : statsOk p = true) : statsOk (playerApplyDamage p d) = true := by
  obtain ⟨h1, h2, h3, h4, h5, h6, h7⟩ := (statsOk_iff p).mp h
  unfold playerApplyDamage
  split
  · exact h
  · dsimp only
    by_cases hpk : p.perks.contains "defense_boost" = true
    · simp only [if_pos hpk]
      have hd' : (0 : ℚ) ≤ d * 0.85 := by nlinarith
      split
      · rw [statsOk_iff]
        dsimp only
        exact ⟨h1, h2, h3, h4, le_refl 0, by linarith, h7⟩
      · next hcon =>
        rw [statsOk_iff]
        dsimp only
        exact ⟨h1, h2, h3, h4, by linarith [not_le.mp hcon], by linarith, h7⟩
    · simp only [if_neg hpk]
      split
      · rw [statsOk_iff]
        dsimp only
        exact ⟨h1, h2, h3, h4, le_refl 0, by linarith, h7⟩
      · next hcon =>
        rw [statsOk_iff]
        dsimp only
        exact ⟨h1, h2, h3, h4, by linarith [not_le.mp hcon], by linarith, h7⟩

/-- The hunger block preserves the stat clamps. -/
theorem statsHungerStep_statsOk (fc : ℕ) (p : Player)
    (h : statsOk p = true) : statsOk (statsHungerStep fc p) = true := by
  have h2 := ((statsOk_iff p).mp h).2.1
  unfold statsHungerStep
  dsimp only
  by_cases hhb : p.perks.contains "hunger_boost" = true <;>
    [simp only [if_pos hhb]; simp only [if_neg hhb]] <;>
  · split
    · split
      · exact playerApplyDamage_statsOk _ _ (by norm_num)
          (statsOk_set_hunger p _ h (le_max_left _ _)
            (max_le (by norm_num) (by linarith)))
      · exact statsOk_set_hunger p _ h (le_max_left _ _)
          (max_le (by norm_num) (by linarith))
    · exact h

/-- A warmth factor reported by `getNearbyBarrelFire` is nonnegative
whenever the square root is. -/
theorem getNearbyBarrelFire_factor_nonneg (M : MathOps) (m : MapData)
    (x z : ℚ) (hM : ∀ q, 0 ≤ M.sqrtQ q) (fire : BarrelFire) (d f : ℚ)
    (hf : CollisionSystem.getNearbyBarrelFire M m x z = some (fire, d, f)) :
    0 ≤ f := by
  unfold CollisionSystem.getNearbyBarrelFire at hf
  obtain ⟨a, ha, hfa⟩ := List.exists_of_findSome?_eq_some hf
  dsimp only at hfa
  split at hfa
  · next hle =>
    obtain ⟨he1, he2⟩ := Prod.mk.injEq .. ▸ Option.some.inj hfa
    obtain ⟨he3, he4⟩ := Prod.mk.injEq .. ▸ he2
    rw [← he4]
    rcases lt_or_le 0 a.warmthRadius with hpos | hneg
    · have := (div_le_one hpos).mpr hle
      linarith
    · have hd0 : M.sqrtQ ((a.position.x - x) * (a.position.x - x) +
          (a.position.z - z) * (a.position.z - z)) = 0 :=
        le_antisymm (le_trans hle hneg) (hM _)
      rw [hd0, zero_div]
      norm_num
  · exact absurd hfa (by simp)

/-- The warmth block preserves the stat clamps. -/
theorem statsWarmthStep_statsOk (M : MathOps) (m : MapData) (fc : ℕ)
    (p : Player) (hM : ∀ q, 0 ≤ M.sqrtQ q)
    (h : statsOk p = true) : statsOk (statsWarmthStep M m fc p) = true := by
  obtain ⟨h1, h2, h3, h4, h5, h6, h7⟩ := (statsOk_iff p).mp h
  unfold statsWarmthStep
  dsimp only
  cases hfire : CollisionSystem.getNearbyBarrelFire M m p.position.x
      p.position.z with
  | some fi =>
    obtain ⟨fire, d, f⟩ := fi
    have hf0 : 0 ≤ f :=
      getNearbyBarrelFire_factor_nonneg M m _ _ hM fire d f hfire
    dsimp only
    split
    · exact statsOk_set_warmth p _ h (le_min (by norm_num) (by linarith))
        (min_le_left _ _)
    · exact h
  | none =>
    dsimp only
    by_cases hwb : p.perks.contains "warmth_boost" = true <;>
      [simp only [if_pos hwb]; simp only [if_neg hwb]] <;>
    · split
      · split
        · exact statsOk_set_warmth p _ h (le_max_left _ _)
            (max_le (by norm_num) (by linarith))
        · exact h
      · split
        · split
          · exact playerApplyDamage_statsOk _ _ (by norm_num)
              (statsOk_set_warmth p _ h (le_max_left _ _)
                (max_le (by norm_num) (by linarith)))
          · exact statsOk_set_warmth p _ h (le_max_left _ _)
              (max_le (by norm_num) (by linarith))
        · exact h

/-- The energy block does not affect the stat clamps. -/
theorem statsOk_statsEnergyStep (fc : ℕ) (p : Player) :
    statsOk (statsEnergyStep fc p) = statsOk p := by
  unfold statsEnergyStep
  split <;> rfl

/-- One full `updatePlayerStats` pass preserves the stat clamps. -/
theorem updateOnePlayerStats_statsOk (M : MathOps) (m : MapData) (fc : ℕ)
    (p : Player) (hM : ∀ q, 0 ≤ M.sqrtQ q) (h : statsOk p = true) :
    statsOk (updateOnePlayerStats M m fc p) = true := by
  unfold updateOnePlayerStats
  rw [statsOk_statsEnergyStep]
  exact statsWarmthStep_statsOk M m fc _ hM (statsHungerStep_statsOk fc p h)

/-- The hunger block never touches energy. -/
theorem energy_statsHungerStep (fc : ℕ) (p : Player) :
    (statsHungerStep fc p).energy = p.energy := by
  unfold statsHungerStep
  dsimp only
  by_cases hhb : p.perks.contains "hunger_boost" = true <;>
    [simp only [if_pos hhb]; simp only [if_neg hhb]] <;>
  · split
    · split
      · exact (playerApplyDamage_fields _ _).2.2.1
      · rfl
    · rfl

/-- The warmth block never touches energy. -/
theorem energy_statsWarmthStep (M : MathOps) (m : MapData) (fc : ℕ)
    (p : Player) : (statsWarmthStep M m fc p).energy = p.energy := by
  unfold statsWarmthStep
  dsimp only
  cases hfire : CollisionSystem.getNearbyBarrelFire M m p.position.x
      p.position.z with
  | some fi =>
    obtain ⟨fire, d, f⟩ := fi
    dsimp only
    split <;> rfl
  | none =>
    dsimp only
    by_cases hwb : p.perks.contains "warmth_boost" = true <;>
      [simp only [if_pos hwb]; simp only [if_neg hwb]] <;>
    · split
      · split <;> rfl
      · split
        · split
          · exact (playerApplyDamage_fields _ _).2.2.1
          · rfl
        · rfl

/-- One full `updatePlayerStats` pass keeps energy within `[0, 100]`. -/
theorem updateOnePlayerStats_energyOk (M : MathOps) (m : MapData) (fc : ℕ)
    (p : Player) (h : energyOk p = true) :
    energyOk (updateOnePlayerStats M m fc p) = true := by
  obtain ⟨h0, h1⟩ := (energyOk_iff p).mp h
  unfold updateOnePlayerStats
  have he : (statsWarmthStep M m fc (statsHungerStep fc p)).energy = p.energy :=
    (energy_statsWarmthStep M m fc _).trans (energy_statsHungerStep fc p)
  unfold statsEnergyStep
  split
  · rw [energyOk_iff]
    dsimp only
    rw [he]
    exact ⟨le_min (by norm_num) (by linarith), min_le_left _ _⟩
  · rw [energyOk_iff, he]
    exact ⟨h0, h1⟩

/-- `updatePlayerStats` preserves the stat clamps for every player. -/
theorem allStatsOk_updatePlayerStats (M : MathOps) (w : GState)
    (hM : ∀ q, 0 ≤ M.sqrtQ q) (h : allStatsOk w = true) :
    allStatsOk (updatePlayerStats M w) = true := by
  rw [allStatsOk_iff] at h ⊢
  intro kv hkv
  unfold updatePlayerStats at hkv
  obtain ⟨kv0, hmem, heq⟩ := List.mem_map.mp hkv
  rw [← heq]
  by_cases ha : kv0.2.alive = true
  · simp only [ha, Bool.not_true, Bool.false_eq_true, if_false]
    exact updateOnePlayerStats_statsOk M w.map w.frameCount kv0.2 hM (h kv0 hmem)
  · simp only [Bool.not_eq_true] at ha
    simp only [ha, Bool.not_false, if_true]
    exact h kv0 hmem

/-- `updatePlayerStats` keeps every player's energy within `[0, 100]`. -/
theorem allEnergyOk_updatePlayerStats (M : MathOps) (w : GState)
    (h : allEnergyOk w = true) :
    allEnergyOk (updatePlayerStats M w) = true := by
  rw [allEnergyOk_iff] at h ⊢
  intro kv hkv
  unfold updatePlayerStats at hkv
  obtain ⟨kv0, hmem, heq⟩ := List.mem_map.mp hkv
  rw [← heq]
  by_cases ha : kv0.2.alive = true
  · simp only [ha, Bool.not_true, Bool.false_eq_true, if_false]
    exact updateOnePlayerStats_energyOk M w.map w.frameCount kv0.2 (h kv0 hmem)
  · simp only [Bool.not_eq_true] at ha
    simp only [ha, Bool.not_false, if_true]
    exact h kv0 hmem

/-- `handlePlayerInput` preserves the stat clamps (it never writes
hunger, warmth, health or the health cap). -/
theorem allStatsOk_handlePlayerInput (M : MathOps) (w : GState)
    (pid : String) (msg : InputMsg) (h : allStatsOk w = true) :
    allStatsOk (handlePlayerInput M w pid msg) = true := by
  rw [allStatsOk_iff] at h ⊢
  intro kv hkv
  unfold handlePlayerInput at hkv
  revert hkv
  cases hp : alGet w.players pid with
  | none => exact fun hkv => h kv hkv
  | some q =>
    dsimp only
    split
    · exact fun hkv => h kv hkv
    · intro hkv
      rcases mem_alSet hkv with hmem | hkveq
      · exact h kv hmem
      · obtain ⟨k0, hqmem⟩ := alGet_mem hp
        have hq : statsOk q = true := h (k0, q) hqmem
        rw [hkveq]
        obtain ⟨pos, rot, stats⟩ := msg
        cases pos <;> cases rot <;> cases stats <;>
          first
          | exact hq
          | (rename_i s; obtain ⟨en⟩ := s; cases en <;> exact hq)

/-- `handlePlayerDamage` preserves the stat clamps for nonnegative
damage. -/
theorem allStatsOk_handlePlayerDamage (w : GState) (pid : String) (d : ℚ)
    (sp : P3) (st : String) (hd : 0 ≤ d) (h : allStatsOk w = true) :
    allStatsOk (handlePlayerDamage w pid d sp st).2 = true := by
  rw [allStatsOk_iff] at h ⊢
  intro kv hkv
  revert hkv
  show kv ∈ (handlePlayerDamage w pid d sp st).2.players → _
  cases hp : alGet w.players pid with
  | none =>
    unfold handlePlayerDamage
    rw [hp]
    exact fun hkv => h kv hkv
  | some q =>
    rw [handlePlayerDamage_eq_some w pid d sp st q hp]
    split
    · exact fun hkv => h kv hkv
    · intro hkv
      rcases mem_alSet hkv with hmem | hkveq
      · exact h kv hmem
      · obtain ⟨k0, hqmem⟩ := alGet_mem hp
        rw [hkveq]
        exact playerApplyDamage_statsOk q d hd (h (k0, q) hqmem)

/-- `revivePlayer` preserves the stat clamps (the revive heal of 30 never
exceeds the 30-or-more health cap). -/
theorem allStatsOk_revivePlayer (w : GState) (rid tid : String)
    (h : allStatsOk w = true) :
    allStatsOk (revivePlayer w rid tid).2 = true := by
  rw [allStatsOk_iff] at h ⊢
  intro kv hkv
  revert hkv
  show kv ∈ (revivePlayer w rid tid).2.players → _
  cases hr : alGet w.players rid with
  | none =>
    unfold revivePlayer
    cases ht : alGet w.players tid <;> rw [hr] <;> exact fun hkv => h kv hkv
  | some r =>
    cases ht : alGet w.players tid with
    | none =>
      unfold revivePlayer
      rw [hr, ht]
      exact fun hkv => h kv hkv
    | some t =>
      rw [revivePlayer_eq_some_some w rid tid r t hr ht]
      split
      · exact fun hkv => h kv hkv
      · have hp1 : ∀ kv ∈ alSet w.players tid
            ({ t with isDowned := false, health := 30, downedTimer := 0 }),
            statsOk kv.2 = true := by
          intro kv1 hkv1
          rcases mem_alSet hkv1 with hmem | hkveq
          · exact h kv1 hmem
          · obtain ⟨k0, htmem⟩ := alGet_mem ht
            obtain ⟨g1, g2, g3, g4, g5, g6, g7⟩ :=
              (statsOk_iff t).mp (h (k0, t) htmem)
            rw [hkveq, statsOk_iff]
            dsimp only
            exact ⟨g1, g2, g3, g4, by norm_num, g7, g7⟩
        split
        · exact fun hkv => hp1 kv hkv
        · next rr heq =>
          intro hkv
          rcases mem_alSet hkv with hmem | hkveq
          · exact hp1 kv hmem
          · obtain ⟨k1, hrrmem⟩ := alGet_mem heq
            have hrr : statsOk rr = true := hp1 (k1, rr) hrrmem
            rw [hkveq]
            exact hrr

/-- `updateDownedPlayers` preserves the stat clamps (it only writes the
countdown and the liveness flags). -/
theorem allStatsOk_updateDownedPlayers (w : GState)
    (h : allStatsOk w = true) :
    allStatsOk (updateDownedPlayers w) = true := by
  rw [allStatsOk_iff] at h ⊢
  intro kv hkv
  unfold updateDownedPlayers at hkv
  obtain ⟨kv0, hmem, heq⟩ := List.mem_map.mp hkv
  rw [← heq]
  have : statsOk (downedStep kv0.2) = statsOk kv0.2 := by
    unfold downedStep
    split
    · rfl
    · dsimp only
      split <;> rfl
  rw [this]
  exact h kv0 hmem

/-- Claim C4 (amended): hunger and warmth stay within `[0, 100]` and
health within `[0, maxHealth]` across every stat tick, inbound input
message, **nonnegative** damage event, revive and downed-countdown tick
(for any square root with nonnegative values); energy stays within
`[0, 100]` across stat ticks.  The nonnegativity hypothesis on damage is
load-bearing and both remaining clamps fail on inbound client data:
`handlePlayerInput` copies the client-supplied `stats.energy` verbatim
with no clamp, and `handlePlayerDamage` applies the damage value with no
sign check or upper health clamp, so a negative damage event drives
health above `maxHealth` (see the counterexample for both). -/
theorem survival_stat_clamps :
    (∀ (M : MathOps) (w : GState), (∀ q, 0 ≤ M.sqrtQ q) →
      allStatsOk w = true → allStatsOk (updatePlayerStats M w) = true) ∧
    (∀ (M : MathOps) (w : GState) (pid : String) (msg : InputMsg),
      allStatsOk w = true →
      allStatsOk (handlePlayerInput M w pid msg) = true) ∧
    (∀ (w : GState) (pid : String) (d : ℚ) (sp : P3) (st : String),
      0 ≤ d → allStatsOk w = true →
      allStatsOk (handlePlayerDamage w pid d sp st).2 = true) ∧
    (∀ (w : GState) (rid tid : String),
      allStatsOk w = true → allStatsOk (revivePlayer w rid tid).2 = true) ∧
    (∀ w : GState,
      allStatsOk w = true → allStatsOk (updateDownedPlayers w) = true) ∧
    (∀ (M : MathOps) (w : GState),
      allEnergyOk w = true → allEnergyOk (updatePlayerStats M w) = true) :=
  ⟨fun M w hM h => allStatsOk_updatePlayerStats M w hM h,
   fun M w pid msg h => allStatsOk_handlePlayerInput M w pid msg h,
   fun w pid d sp st hd h => allStatsOk_handlePlayerDamage w pid d sp st hd h,
   fun w rid tid h => allStatsOk_revivePlayer w rid tid h,
   fun w h => allStatsOk_updateDownedPlayers w h,
   fun M w h => allEnergyOk_updatePlayerStats M w h⟩

/-- The world of the C4 counterexample: one fresh (fully clamped)
player. -/
def w4 : GState :=
  { baseWorld with players := [("p", initPlayer "p" "Pat" ⟨0.75, 1.6, 0.25⟩ 0)] }

/-- Claim C4 counterexample, two independent violations on a fully
clamped fresh player: (1) a single input message carrying
`stats.energy = 150` drives the player's energy to 150 — outside
`[0, 100]` — because `handlePlayerInput` stores the client value without
any clamp; (2) a damage event of `-50` (the `playerHit` socket handler
forwards the client-supplied damage value verbatim) drives the player's
health to 150, above `maxHealth = 100` — `handlePlayerDamage` has no
sign check and no upper clamp. -/
theorem survival_unclamped_counterexample :
    allStatsOk w4 = true ∧
    allEnergyOk w4 = true ∧
    (alGet (handlePlayerInput zeroMath w4 "p"
        { position := none, rotation := none,
          stats := some { energy := some 150 } }).players "p").map Player.energy
      = some 150 ∧
    allEnergyOk (handlePlayerInput zeroMath w4 "p"
        { position := none, rotation := none,
          stats := some { energy := some 150 } }) = false ∧
    (alGet (handlePlayerDamage w4 "p" (-50) ⟨0, 0, 0⟩ "enemy").2.players
        "p").map (fun q => (q.health, q.maxHealth)) = some (150, 100) ∧
    allStatsOk (handlePlayerDamage w4 "p" (-50) ⟨0, 0, 0⟩ "enemy").2 = false := by
  refine ⟨by with_unfolding_all decide, by with_unfolding_all decide,
    by with_unfolding_all decide, by with_unfolding_all decide,
    by with_unfolding_all decide, by with_unfolding_all decide⟩

/-- Witness for `survival_stat_clamps` on the concrete two-player world
`w7`. -/
theorem survival_stat_clamps_witness :
    allStatsOk (updateDownedPlayers w7) = true ∧
    allStatsOk (updatePlayerStats zeroMath w7) = true ∧
    allEnergyOk (updatePlayerStats zeroMath w7) = true :=
  ⟨survival_stat_clamps.2.2.2.2.1 w7 (by with_unfolding_all decide),
   survival_stat_clamps.1 zeroMath w7 (fun _q => le_refl 0)
     (by with_unfolding_all decide),
   survival_stat_clamps.2.2.2.2.2 zeroMath w7 (by with_unfolding_all decide)⟩

/-! ## Spawn-point placement (C5) -/

/-- The player-spawn rejection loop: every returned sample lies inside
the configured zone rectangle, and when the loop exits with fewer than 20
attempts the sample is outside every building footprint. -/
theorem playerSpawnLoop_spec (area : AreaDef) (buildings : List Building)
    (hx : area.spawns.players.zone.minX ≤ area.spawns.players.zone.maxX)
    (hz : area.spawns.players.zone.minZ ≤ area.spawns.players.zone.maxZ) :
    ∀ (fuel : ℕ) (r : Rng) (a : ℕ), a < 20 → 20 ≤ fuel + a →
      (area.spawns.players.zone.minX ≤
          (playerSpawnLoop area buildings fuel r a).1.x ∧
       (playerSpawnLoop area buildings fuel r a).1.x ≤
          area.spawns.players.zone.maxX ∧
       area.spawns.players.zone.minZ ≤
          (playerSpawnLoop area buildings fuel r a).1.z ∧
       (playerSpawnLoop area buildings fuel r a).1.z ≤
          area.spawns.players.zone.maxZ) ∧
      ((playerSpawnLoop area buildings fuel r a).2.2 < 20 →
        isInsideBuilding buildings (playerSpawnLoop area buildings fuel r a).1.x
          (playerSpawnLoop area buildings fuel r a).1.z = false) := by
  intro fuel
  induction fuel with
  | zero =>
    intro r a ha hfa
    omega
  | succ n ih =>
    intro r a ha hfa
    unfold playerSpawnLoop
    dsimp only
    split
    · next hcond =>
      exact ih _ (a + 1) hcond.2 (by omega)
    · next hcond =>
      refine ⟨⟨(rngFloat_mem r _ _ hx).1, (rngFloat_mem r _ _ hx).2,
        (rngFloat_mem _ _ _ hz).1, (rngFloat_mem _ _ _ hz).2⟩, ?_⟩
      intro hlt
      cases hb : isInsideBuilding buildings
          (r.float area.spawns.players.zone.minX area.spawns.players.zone.maxX).1
          ((r.float area.spawns.players.zone.minX
              area.spawns.players.zone.maxX).2.float
            area.spawns.players.zone.minZ area.spawns.players.zone.maxZ).1 with
      | false => rfl
      | true => exact absurd ⟨hb, hlt⟩ hcond

/-- The 8-slot spawn fold: appends one in-zone sample per slot. -/
theorem spawnFold_spec (area : AreaDef)
    (hx : area.spawns.players.zone.minX ≤ area.spawns.players.zone.maxX)
    (hz : area.spawns.players.zone.minZ ≤ area.spawns.players.zone.maxZ) :
    ∀ (l : List ℕ) (st : GenState),
      ∃ news : List P3,
        (l.foldl (spawnPointStep area) st).spawnPlayers =
          st.spawnPlayers ++ news ∧
        news.length = l.length ∧
        ∀ p ∈ news, p.y = 1.6 ∧
          area.spawns.players.zone.minX ≤ p.x ∧
          p.x ≤ area.spawns.players.zone.maxX ∧
          area.spawns.players.zone.minZ ≤ p.z ∧
          p.z ≤ area.spawns.players.zone.maxZ := by
  intro l
  induction l with
  | nil =>
    intro st
    exact ⟨[], by simp, rfl, by simp⟩
  | cons i t ih =>
    intro st
    obtain ⟨news, hsp, hlen, hmem⟩ := ih (spawnPointStep area st i)
    refine ⟨⟨(playerSpawnLoop area st.buildings 20 st.rng 0).1.x, 1.6,
      (playerSpawnLoop area st.buildings 20 st.rng 0).1.z⟩ :: news, ?_, ?_, ?_⟩
    · rw [List.foldl_cons, hsp]
      have hstep : (spawnPointStep area st i).spawnPlayers =
          st.spawnPlayers ++
            [⟨(playerSpawnLoop area st.buildings 20 st.rng 0).1.x, 1.6,
              (playerSpawnLoop area st.buildings 20 st.rng 0).1.z⟩] := rfl
      rw [hstep, List.append_assoc]
      rfl
    · simp [hlen]
    · intro p hp
      rcases List.mem_cons.mp hp with hpe | hpn
      · subst hpe
        have hspec := playerSpawnLoop_spec area st.buildings hx hz 20 st.rng 0
          (by norm_num) (by norm_num)
        exact ⟨rfl, hspec.1.1, hspec.1.2.1, hspec.1.2.2.1, hspec.1.2.2.2⟩
      · exact hmem p hpn

/-- `calculateSpawnPoints` appends exactly the 8-slot fold's spawn
points (the enemy-zone scan touches only `spawnEnemies`). -/
theorem calculateSpawnPoints_spawnPlayers (M : MathOps) (area : AreaDef)
    (st : GenState) :
    (calculateSpawnPoints M area st).spawnPlayers =
      ((List.range 8).foldl (spawnPointStep area) st).spawnPlayers := by
  unfold calculateSpawnPoints
  dsimp only

/-- Claim C5 (amended): every player spawn point produced by spawn-point
calculation lies inside the configured spawn-zone rectangle (8 points per
map), and whenever the rejection loop accepts a sample before its
20-attempt cap the sample is outside every building footprint; but the
calculation never checks walkability (`isWalkable`/`isBlocked`), and on
attempt exhaustion even an in-building sample is accepted — see the
counterexample for spawns on blocked positions. -/
theorem spawn_points_properties :
    (∀ (M : MathOps) (area : AreaDef) (st : GenState),
      area.spawns.players.zone.minX ≤ area.spawns.players.zone.maxX →
      area.spawns.players.zone.minZ ≤ area.spawns.players.zone.maxZ →
      ∃ news : List P3,
        (calculateSpawnPoints M area st).spawnPlayers =
          st.spawnPlayers ++ news ∧
        news.length = 8 ∧
        ∀ p ∈ news, p.y = 1.6 ∧
          area.spawns.players.zone.minX ≤ p.x ∧
          p.x ≤ area.spawns.players.zone.maxX ∧
          area.spawns.players.zone.minZ ≤ p.z ∧
          p.z ≤ area.spawns.players.zone.maxZ) ∧
    (∀ (area : AreaDef) (buildings : List Building) (r : Rng),
      area.spawns.players.zone.minX ≤ area.spawns.players.zone.maxX →
      area.spawns.players.zone.minZ ≤ area.spawns.players.zone.maxZ →
      (playerSpawnLoop area buildings 20 r 0).2.2 < 20 →
      isInsideBuilding buildings (playerSpawnLoop area buildings 20 r 0).1.x
        (playerSpawnLoop area buildings 20 r 0).1.z = false) := by
  constructor
  · intro M area st hx hz
    obtain ⟨news, hsp, hlen, hmem⟩ := spawnFold_spec area hx hz (List.range 8) st
    refine ⟨news, ?_, by simpa using hlen, hmem⟩
    rw [calculateSpawnPoints_spawnPlayers]
    exact hsp
  · intro area buildings r hx hz
    exact (playerSpawnLoop_spec area buildings hx hz 20 r 0 (by norm_num)
      (by norm_num)).2

/-- Witness for `spawn_points_properties` on the concrete area `c2Area`
from a fresh generation state. -/
theorem spawn_points_properties_witness :
    ∃ news : List P3,
      (calculateSpawnPoints zeroMath c2Area { rng := Rng.mk0 0 }).spawnPlayers =
        ({ rng := Rng.mk0 0 } : GenState).spawnPlayers ++ news ∧
      news.length = 8 ∧
      ∀ p ∈ news, p.y = 1.6 ∧
        c2Area.spawns.players.zone.minX ≤ p.x ∧
        p.x ≤ c2Area.spawns.players.zone.maxX ∧
        c2Area.spawns.players.zone.minZ ≤ p.z ∧
        p.z ≤ c2Area.spawns.players.zone.maxZ :=
  spawn_points_properties.1 zeroMath c2Area { rng := Rng.mk0 0 }
    (by with_unfolding_all decide) (by with_unfolding_all decide)

/-- The area of the C5 counterexample: the degenerate quota-free area
over a 1 × 0.5 world whose configured player-spawn zone is the square
`[1000, 1001] × [1000, 1001]` — entirely outside the map bounds, hence
unwalkable everywhere (`isBlocked` is true out of bounds). -/
def c5Area : AreaDef := baseArea ⟨0, 1, 0, 0.5⟩ ⟨1000, 1001, 1000, 1001⟩

/-- The generated map of the C5 counterexample (seed 0). -/
def c5Map : MapData := MapManager.generate zeroMath c5Area 0

/-- Claim C5 counterexample: `calculateSpawnPoints` validates samples
against building footprints only, never against walkability, so the
generated map places all 8 player spawn points on blocked (unwalkable)
positions. -/
theorem spawn_points_blocked_counterexample :
    c5Map.spawnPlayers.length = 8 ∧
    c5Map.spawnPlayers.all (fun sp =>
      mapIsBlocked c5Area c5Map sp.x sp.z &&
      !(CollisionSystem.isWalkable c5Area c5Map sp.x sp.z)) = true := by
  constructor
  · with_unfolding_all decide
  · with_unfolding_all decide

end UrbanSurvival
